import Mathlib

/-!
# Plane-shooter-game: a shallow embedding of the game core

The C++ sources embedded here are `CPlayer.cpp`, `CPlayer2.cpp`, `Enemy.cpp`,
`Crate.cpp`, `Lives.cpp` and `CGameApp.cpp`.

Conventions of the embedding

* `double` values are exact rationals (`ℚ`); every statement below is a
  statement of exact arithmetic, not of IEEE rounding.
* `int` counters (`lives`, `score`, `m_iExplosionFrame`) are unbounded `Int`.
* A C++ member function `void T::f(args)` becomes `T.f : T → args → T`; a
  member function returning `bool` returns the pair of the result and the new
  state.
* `PlaySound`, drawing and bitmap loading have no effect on the modelled state
  and are left out.
-/

/-! ## Vec2 and sprites (declared in headers outside the source tree) -/

/-- Modelled from the spec: `Vec2` (its header is absent) is a 2D value type
`{x, y}` of floating-point numbers, here exact rationals. -/
structure Vec2 where
  x : ℚ
  y : ℚ
deriving DecidableEq

/-- The exact value `√radicand` of a square root of a rational, kept symbolic so
that comparisons with rationals stay decidable. -/
structure SqrtQ where
  radicand : ℚ
deriving DecidableEq

/-- The comparison `√r <= t` for a rational `t`: `t` is non-negative and
`r <= t²`. -/
def SqrtQ.le (d : SqrtQ) (t : ℚ) : Prop := 0 ≤ t ∧ d.radicand ≤ t * t

instance (d : SqrtQ) (t : ℚ) : Decidable (d.le t) := by
  unfold SqrtQ.le; exact inferInstance

/-- Modelled from the spec: `Vec2::Distance` (absent) is the Euclidean
distance to another point, `√((ax-bx)² + (ay-by)²)`. -/
def Vec2.Distance (a b : Vec2) : SqrtQ :=
  ⟨(a.x - b.x) * (a.x - b.x) + (a.y - b.y) * (a.y - b.y)⟩

/-- Modelled from the spec: `Sprite` (its header is absent) carries the public
members `mPosition` and `mVelocity` used by the entity classes and the fixed
extent `width()`, `height()` of its bitmap. -/
structure Sprite where
  mPosition : Vec2
  mVelocity : Vec2
  width : ℚ
  height : ℚ
deriving DecidableEq

/-- Modelled from the spec: `AnimatedSprite` (its header is absent) is the
explosion sprite sheet: a position, the frame last selected by `SetFrame` and
the total frame count given to the constructor (`GetFrameCount`). -/
structure AnimatedSprite where
  mPosition : Vec2
  mFrame : Int
  frameCount : Int
deriving DecidableEq

/-- `AnimatedSprite::SetFrame`. -/
def AnimatedSprite.SetFrame (a : AnimatedSprite) (f : Int) : AnimatedSprite :=
  { a with mFrame := f }

/-- `AnimatedSprite::GetFrameCount`. -/
def AnimatedSprite.GetFrameCount (a : AnimatedSprite) : Int := a.frameCount

/-- `enum ESpeedStates` of `Enemy.h` (the other entity headers repeat it). -/
inductive ESpeedStates where
  | SPEED_START
  | SPEED_STOP
deriving DecidableEq

/-- `enum DIRECTION` of `Enemy.h`: `DIR_FORWARD = 1`. -/
def DIR_FORWARD : Nat := 1
/-- `enum DIRECTION` of `Enemy.h`: `DIR_BACKWARD = 2`. -/
def DIR_BACKWARD : Nat := 2
/-- `enum DIRECTION` of `Enemy.h`: `DIR_LEFT = 4`. -/
def DIR_LEFT : Nat := 4
/-- `enum DIRECTION` of `Enemy.h`: `DIR_RIGHT = 8`. -/
def DIR_RIGHT : Nat := 8

/-- The C++ condition `if (ulDirection & DIR)`: the masked value is non-zero. -/
def dirSet (ulDirection dir : Nat) : Bool := (ulDirection &&& dir) != 0

/-- The part of the Win32 `RECT` of the desktop window that `Shoot` reads. -/
structure RECT where
  top : Int
  bottom : Int
deriving DecidableEq

/-! ## The five entity classes -/

/-- Private members of `CPlayer`. -/
structure CPlayer where
  m_pSprite : Sprite
  bullet : Sprite
  bullet2 : Sprite
  m_eSpeedState : ESpeedStates
  m_fTimer : ℚ
  m_bExplosion : Bool
  m_bullet : Bool
  m_pExplosionSprite : AnimatedSprite
  m_iExplosionFrame : Int
deriving DecidableEq

/-- Private members of `CPlayer2`. -/
structure CPlayer2 where
  m_pSprite : Sprite
  bullet : Sprite
  bullet2 : Sprite
  m_eSpeedState : ESpeedStates
  m_fTimer : ℚ
  m_bExplosion : Bool
  m_bullet : Bool
  m_pExplosionSprite : AnimatedSprite
  m_iExplosionFrame : Int
deriving DecidableEq

/-- Private members of `Enemy` (`Enemy.h`). -/
structure Enemy where
  m_pSprite : Sprite
  bullet : Sprite
  bullet2 : Sprite
  m_eSpeedState : ESpeedStates
  m_fTimer : ℚ
  m_bExplosion : Bool
  m_bullet : Bool
  m_pExplosionSprite : AnimatedSprite
  m_iExplosionFrame : Int
deriving DecidableEq

/-- Private members of `Crate` (no bullets). -/
structure Crate where
  m_pSprite : Sprite
  m_eSpeedState : ESpeedStates
  m_fTimer : ℚ
  m_bExplosion : Bool
  m_pExplosionSprite : AnimatedSprite
  m_iExplosionFrame : Int
deriving DecidableEq

/-- Private members of `Lives` (no bullets). -/
structure Lives where
  m_pSprite : Sprite
  m_eSpeedState : ESpeedStates
  m_fTimer : ℚ
  m_bExplosion : Bool
  m_pExplosionSprite : AnimatedSprite
  m_iExplosionFrame : Int
deriving DecidableEq

/-! ### Move -/

/-- `CPlayer::Move` (CPlayer.cpp 125-160), statement by statement on the sprite. -/
def CPlayer.Move (p : CPlayer) (ulDirection : Nat) : CPlayer :=
  let s := p.m_pSprite
  let s := if dirSet ulDirection DIR_LEFT then
      { s with mVelocity := { s.mVelocity with x := s.mVelocity.x - 3.1 } } else s
  let s := if s.mPosition.x < s.width / 2 then
      { s with mVelocity := { s.mVelocity with x := 0 } } else s
  let s := if dirSet ulDirection DIR_RIGHT then
      { s with mVelocity := { s.mVelocity with x := s.mVelocity.x + 3.1 } } else s
  let s := if s.mPosition.x > 780 - s.width / 2 then
      let s := { s with mVelocity := { s.mVelocity with x := 0 } }
      if s.mVelocity.x = 0 then
        { s with mPosition := { s.mPosition with x := s.mPosition.x - 1 } } else s
    else s
  let s := if dirSet ulDirection DIR_FORWARD then
      { s with mVelocity := { s.mVelocity with y := s.mVelocity.y - 3.1 } } else s
  let s := if s.mPosition.y < s.height / 2 then
      { s with mVelocity := { s.mVelocity with y := 0 } } else s
  let s := if dirSet ulDirection DIR_BACKWARD then
      { s with mVelocity := { s.mVelocity with y := s.mVelocity.y + 3.1 } } else s
  let s := if s.mPosition.y > 560 - s.height / 2 then
      let s := { s with mVelocity := { s.mVelocity with y := 0 } }
      if s.mVelocity.y = 0 then
        { s with mPosition := { s.mPosition with y := s.mPosition.y - 1 } } else s
    else s
  { p with m_pSprite := s }

/-- `CPlayer2::Move` (CPlayer2.cpp 124-158), statement by statement on the sprite. -/
def CPlayer2.Move (p : CPlayer2) (ulDirection : Nat) : CPlayer2 :=
  let s := p.m_pSprite
  let s := if dirSet ulDirection DIR_LEFT then
      { s with mVelocity := { s.mVelocity with x := s.mVelocity.x - 5.1 } } else s
  let s := if s.mPosition.x < s.width / 2 then
      { s with mVelocity := { s.mVelocity with x := 0 } } else s
  let s := if dirSet ulDirection DIR_RIGHT then
      { s with mVelocity := { s.mVelocity with x := s.mVelocity.x + 5.1 } } else s
  let s := if s.mPosition.x > 780 - s.width / 2 then
      let s := { s with mVelocity := { s.mVelocity with x := 0 } }
      if s.mVelocity.x = 0 then
        { s with mPosition := { s.mPosition with x := s.mPosition.x - 1 } } else s
    else s
  let s := if dirSet ulDirection DIR_FORWARD then
      { s with mVelocity := { s.mVelocity with y := s.mVelocity.y - 5.1 } } else s
  let s := if s.mPosition.y < s.height / 2 then
      { s with mVelocity := { s.mVelocity with y := 0 } } else s
  let s := if dirSet ulDirection DIR_BACKWARD then
      { s with mVelocity := { s.mVelocity with y := s.mVelocity.y + 5.1 } } else s
  let s := if s.mPosition.y > 560 - s.height / 2 then
      let s := { s with mVelocity := { s.mVelocity with y := 0 } }
      if s.mVelocity.y = 0 then
        { s with mPosition := { s.mPosition with y := s.mPosition.y - 1 } } else s
    else s
  { p with m_pSprite := s }

/-- `Enemy::Move` (Enemy.cpp 124-159), statement by statement on the sprite. -/
def Enemy.Move (e : Enemy) (ulDirection : Nat) : Enemy :=
  let s := e.m_pSprite
  let s := if dirSet ulDirection DIR_LEFT then
      { s with mVelocity := { s.mVelocity with x := s.mVelocity.x - 0.1 } } else s
  let s := if s.mPosition.x < s.width / 2 then
      { s with mVelocity := { s.mVelocity with x := 0 } } else s
  let s := if dirSet ulDirection DIR_RIGHT then
      { s with mVelocity := { s.mVelocity with x := s.mVelocity.x + 0.1 } } else s
  let s := if s.mPosition.x > 780 - s.width / 2 then
      let s := { s with mVelocity := { s.mVelocity with x := 0 } }
      if s.mVelocity.x = 0 then
        { s with mPosition := { s.mPosition with x := s.mPosition.x - 1 } } else s
    else s
  let s := if dirSet ulDirection DIR_FORWARD then
      { s with mVelocity := { s.mVelocity with y := s.mVelocity.y - 0.1 } } else s
  let s := if s.mPosition.y < s.height / 2 then
      { s with mVelocity := { s.mVelocity with y := 0 } } else s
  let s := if dirSet ulDirection DIR_BACKWARD then
      { s with mVelocity := { s.mVelocity with y := s.mVelocity.y + 0.1 } } else s
  let s := if s.mPosition.y > 260 - s.height / 2 then
      let s := { s with mVelocity := { s.mVelocity with y := 0 } }
      if s.mVelocity.y = 0 then
        { s with mPosition := { s.mPosition with y := s.mPosition.y - 1 } } else s
    else s
  { e with m_pSprite := s }

/-- `Crate::Move` (Crate.cpp 115-152), statement by statement on the sprite. -/
def Crate.Move (c : Crate) (ulDirection : Nat) : Crate :=
  let s := c.m_pSprite
  let s := if dirSet ulDirection DIR_LEFT then
      { s with mVelocity := { s.mVelocity with x := s.mVelocity.x - 0.2 } } else s
  let s := if s.mPosition.x < s.width / 2 then
      { s with mVelocity := { s.mVelocity with x := 0 } } else s
  let s := if dirSet ulDirection DIR_RIGHT then
      { s with mVelocity := { s.mVelocity with x := s.mVelocity.x + 0.2 } } else s
  let s := if s.mPosition.x > 780 - s.width / 2 then
      let s := { s with mVelocity := { s.mVelocity with x := 0 } }
      if s.mVelocity.x = 0 then
        { s with mPosition := { s.mPosition with x := s.mPosition.x - 1 } } else s
    else s
  let s := if dirSet ulDirection DIR_FORWARD then
      { s with mVelocity := { s.mVelocity with y := s.mVelocity.y - 0.2 } } else s
  let s := if s.mPosition.y < s.height / 2 then
      { s with mVelocity := { s.mVelocity with y := 0 } } else s
  let s := if dirSet ulDirection DIR_BACKWARD then
      { s with mVelocity := { s.mVelocity with y := s.mVelocity.y + 0.2 } } else s
  let s := if s.mPosition.y > 560 - s.height / 2 then
      let s := { s with mVelocity := { s.mVelocity with y := 0 } }
      if s.mVelocity.y = 0 then
        { s with mPosition := { s.mPosition with y := s.mPosition.y - 1 } } else s
    else s
  { c with m_pSprite := s }

/-- `Lives::Move` (Lives.cpp 115-152), statement by statement on the sprite. -/
def Lives.Move (l : Lives) (ulDirection : Nat) : Lives :=
  let s := l.m_pSprite
  let s := if dirSet ulDirection DIR_LEFT then
      { s with mVelocity := { s.mVelocity with x := s.mVelocity.x - 0.2 } } else s
  let s := if s.mPosition.x < s.width / 2 then
      { s with mVelocity := { s.mVelocity with x := 0 } } else s
  let s := if dirSet ulDirection DIR_RIGHT then
      { s with mVelocity := { s.mVelocity with x := s.mVelocity.x + 0.2 } } else s
  let s := if s.mPosition.x > 780 - s.width / 2 then
      let s := { s with mVelocity := { s.mVelocity with x := 0 } }
      if s.mVelocity.x = 0 then
        { s with mPosition := { s.mPosition with x := s.mPosition.x - 1 } } else s
    else s
  let s := if dirSet ulDirection DIR_FORWARD then
      { s with mVelocity := { s.mVelocity with y := s.mVelocity.y - 0.2 } } else s
  let s := if s.mPosition.y < s.height / 2 then
      { s with mVelocity := { s.mVelocity with y := 0 } } else s
  let s := if dirSet ulDirection DIR_BACKWARD then
      { s with mVelocity := { s.mVelocity with y := s.mVelocity.y + 0.2 } } else s
  let s := if s.mPosition.y > 560 - s.height / 2 then
      let s := { s with mVelocity := { s.mVelocity with y := 0 } }
      if s.mVelocity.y = 0 then
        { s with mPosition := { s.mPosition with y := s.mPosition.y - 1 } } else s
    else s
  { l with m_pSprite := s }

/-! ### Accessors, explosion state machine and shooting -/

/-- `CPlayer::getWidth`. -/
def CPlayer.getWidth (p : CPlayer) : ℚ := p.m_pSprite.width

/-- `CPlayer::Position`. -/
def CPlayer.Position (p : CPlayer) : Vec2 := p.m_pSprite.mPosition

/-- `CPlayer::Velocity`. -/
def CPlayer.Velocity (p : CPlayer) : Vec2 := p.m_pSprite.mVelocity

/-- `CPlayer::ifExploded`. -/
def CPlayer.ifExploded (p : CPlayer) : Bool := p.m_bExplosion

/-- `CPlayer::Explode`: the explosion sprite takes the sprite position and frame 0,
and the explosion flag is raised. -/
def CPlayer.Explode (p : CPlayer) : CPlayer :=
  let p := { p with m_pExplosionSprite :=
    { p.m_pExplosionSprite with mPosition := p.m_pSprite.mPosition } }
  let p := { p with m_pExplosionSprite := p.m_pExplosionSprite.SetFrame 0 }
  { p with m_bExplosion := true }

/-- `CPlayer::AdvanceExplosion`: the returned pair is the `bool` result and the
entity afterwards. -/
def CPlayer.AdvanceExplosion (p : CPlayer) : Bool × CPlayer :=
  if p.m_bExplosion then
    let p := { p with
      m_pExplosionSprite := p.m_pExplosionSprite.SetFrame p.m_iExplosionFrame,
      m_iExplosionFrame := p.m_iExplosionFrame + 1 }
    if p.m_iExplosionFrame = p.m_pExplosionSprite.GetFrameCount then
      let p := { p with m_bExplosion := false }
      let p := { p with m_iExplosionFrame := 0 }
      let p := { p with m_pSprite := { p.m_pSprite with mVelocity := ⟨0, 0⟩ } }
      let p := { p with m_eSpeedState := ESpeedStates.SPEED_STOP }
      (false, p)
    else (true, p)
  else (true, p)

/-- `CPlayer::getWidthBullet`. -/
def CPlayer.getWidthBullet (p : CPlayer) : ℚ := p.bullet.width

/-- `CPlayer::PositionBullet`: the position of the first bullet slot. -/
def CPlayer.PositionBullet (p : CPlayer) : Vec2 := p.bullet.mPosition

/-- `CPlayer2::getWidth`. -/
def CPlayer2.getWidth (p : CPlayer2) : ℚ := p.m_pSprite.width

/-- `CPlayer2::Position`. -/
def CPlayer2.Position (p : CPlayer2) : Vec2 := p.m_pSprite.mPosition

/-- `CPlayer2::Velocity`. -/
def CPlayer2.Velocity (p : CPlayer2) : Vec2 := p.m_pSprite.mVelocity

/-- `CPlayer2::ifExploded`. -/
def CPlayer2.ifExploded (p : CPlayer2) : Bool := p.m_bExplosion

/-- `CPlayer2::Explode`: the explosion sprite takes the sprite position and frame 0,
and the explosion flag is raised. -/
def CPlayer2.Explode (p : CPlayer2) : CPlayer2 :=
  let p := { p with m_pExplosionSprite :=
    { p.m_pExplosionSprite with mPosition := p.m_pSprite.mPosition } }
  let p := { p with m_pExplosionSprite := p.m_pExplosionSprite.SetFrame 0 }
  { p with m_bExplosion := true }

/-- `CPlayer2::AdvanceExplosion`: the returned pair is the `bool` result and the
entity afterwards. -/
def CPlayer2.AdvanceExplosion (p : CPlayer2) : Bool × CPlayer2 :=
  if p.m_bExplosion then
    let p := { p with
      m_pExplosionSprite := p.m_pExplosionSprite.SetFrame p.m_iExplosionFrame,
      m_iExplosionFrame := p.m_iExplosionFrame + 1 }
    if p.m_iExplosionFrame = p.m_pExplosionSprite.GetFrameCount then
      let p := { p with m_bExplosion := false }
      let p := { p with m_iExplosionFrame := 0 }
      let p := { p with m_pSprite := { p.m_pSprite with mVelocity := ⟨0, 0⟩ } }
      let p := { p with m_eSpeedState := ESpeedStates.SPEED_STOP }
      (false, p)
    else (true, p)
  else (true, p)

/-- `Enemy::getWidth`. -/
def Enemy.getWidth (e : Enemy) : ℚ := e.m_pSprite.width

/-- `Enemy::Position`. -/
def Enemy.Position (e : Enemy) : Vec2 := e.m_pSprite.mPosition

/-- `Enemy::Velocity`. -/
def Enemy.Velocity (e : Enemy) : Vec2 := e.m_pSprite.mVelocity

/-- `Enemy::ifExploded`. -/
def Enemy.ifExploded (e : Enemy) : Bool := e.m_bExplosion

/-- `Enemy::Explode`: the explosion sprite takes the sprite position and frame 0,
and the explosion flag is raised. -/
def Enemy.Explode (e : Enemy) : Enemy :=
  let e := { e with m_pExplosionSprite :=
    { e.m_pExplosionSprite with mPosition := e.m_pSprite.mPosition } }
  let e := { e with m_pExplosionSprite := e.m_pExplosionSprite.SetFrame 0 }
  { e with m_bExplosion := true }

/-- `Enemy::AdvanceExplosion`: the returned pair is the `bool` result and the
entity afterwards. -/
def Enemy.AdvanceExplosion (e : Enemy) : Bool × Enemy :=
  if e.m_bExplosion then
    let e := { e with
      m_pExplosionSprite := e.m_pExplosionSprite.SetFrame e.m_iExplosionFrame,
      m_iExplosionFrame := e.m_iExplosionFrame + 1 }
    if e.m_iExplosionFrame = e.m_pExplosionSprite.GetFrameCount then
      let e := { e with m_bExplosion := false }
      let e := { e with m_iExplosionFrame := 0 }
      let e := { e with m_pSprite := { e.m_pSprite with mVelocity := ⟨0, 0⟩ } }
      let e := { e with m_eSpeedState := ESpeedStates.SPEED_STOP }
      (false, e)
    else (true, e)
  else (true, e)

/-- `Enemy::getWidthBullet`. -/
def Enemy.getWidthBullet (e : Enemy) : ℚ := e.bullet.width

/-- `Enemy::PositionBullet`: the position of the first bullet slot. -/
def Enemy.PositionBullet (e : Enemy) : Vec2 := e.bullet.mPosition

/-- `Crate::getWidth`. -/
def Crate.getWidth (c : Crate) : ℚ := c.m_pSprite.width

/-- `Crate::Position`. -/
def Crate.Position (c : Crate) : Vec2 := c.m_pSprite.mPosition

/-- `Crate::Velocity`. -/
def Crate.Velocity (c : Crate) : Vec2 := c.m_pSprite.mVelocity

/-- `Crate::ifExploded`. -/
def Crate.ifExploded (c : Crate) : Bool := c.m_bExplosion

/-- `Crate::Explode`: the explosion sprite takes the sprite position and frame 0,
and the explosion flag is raised. -/
def Crate.Explode (c : Crate) : Crate :=
  let c := { c with m_pExplosionSprite :=
    { c.m_pExplosionSprite with mPosition := c.m_pSprite.mPosition } }
  let c := { c with m_pExplosionSprite := c.m_pExplosionSprite.SetFrame 0 }
  { c with m_bExplosion := true }

/-- `Crate::AdvanceExplosion`: the returned pair is the `bool` result and the
entity afterwards. -/
def Crate.AdvanceExplosion (c : Crate) : Bool × Crate :=
  if c.m_bExplosion then
    let c := { c with
      m_pExplosionSprite := c.m_pExplosionSprite.SetFrame c.m_iExplosionFrame,
      m_iExplosionFrame := c.m_iExplosionFrame + 1 }
    if c.m_iExplosionFrame = c.m_pExplosionSprite.GetFrameCount then
      let c := { c with m_bExplosion := false }
      let c := { c with m_iExplosionFrame := 0 }
      let c := { c with m_pSprite := { c.m_pSprite with mVelocity := ⟨0, 0⟩ } }
      let c := { c with m_eSpeedState := ESpeedStates.SPEED_STOP }
      (false, c)
    else (true, c)
  else (true, c)

/-- `Lives::getWidth`. -/
def Lives.getWidth (l : Lives) : ℚ := l.m_pSprite.width

/-- `Lives::Position`. -/
def Lives.Position (l : Lives) : Vec2 := l.m_pSprite.mPosition

/-- `Lives::Velocity`. -/
def Lives.Velocity (l : Lives) : Vec2 := l.m_pSprite.mVelocity

/-- `Lives::ifExploded`. -/
def Lives.ifExploded (l : Lives) : Bool := l.m_bExplosion

/-- `Lives::Explode`: the explosion sprite takes the sprite position and frame 0,
and the explosion flag is raised. -/
def Lives.Explode (l : Lives) : Lives :=
  let l := { l with m_pExplosionSprite :=
    { l.m_pExplosionSprite with mPosition := l.m_pSprite.mPosition } }
  let l := { l with m_pExplosionSprite := l.m_pExplosionSprite.SetFrame 0 }
  { l with m_bExplosion := true }

/-- `Lives::AdvanceExplosion`: the returned pair is the `bool` result and the
entity afterwards. -/
def Lives.AdvanceExplosion (l : Lives) : Bool × Lives :=
  if l.m_bExplosion then
    let l := { l with
      m_pExplosionSprite := l.m_pExplosionSprite.SetFrame l.m_iExplosionFrame,
      m_iExplosionFrame := l.m_iExplosionFrame + 1 }
    if l.m_iExplosionFrame = l.m_pExplosionSprite.GetFrameCount then
      let l := { l with m_bExplosion := false }
      let l := { l with m_iExplosionFrame := 0 }
      let l := { l with m_pSprite := { l.m_pSprite with mVelocity := ⟨0, 0⟩ } }
      let l := { l with m_eSpeedState := ESpeedStates.SPEED_STOP }
      (false, l)
    else (true, l)
  else (true, l)

/-- `CPlayer::Shoot` (CPlayer.cpp 233-247); `desktop` is the rectangle that
`GetWindowRect(GetDesktopWindow(), &desktop)` delivers. -/
def CPlayer.Shoot (p : CPlayer) (desktop : RECT) : CPlayer :=
  let p := if p.bullet.mPosition.y < (desktop.top : ℚ) then
      let p := { p with bullet := { p.bullet with
        mPosition := { p.bullet.mPosition with x := p.m_pSprite.mPosition.x - 15 } } }
      let p := { p with bullet := { p.bullet with
        mPosition := { p.bullet.mPosition with y := p.m_pSprite.mPosition.y - 30 } } }
      let p := { p with bullet2 := { p.bullet2 with
        mPosition := { p.bullet2.mPosition with x := p.m_pSprite.mPosition.x + 10 } } }
      { p with bullet2 := { p.bullet2 with
        mPosition := { p.bullet2.mPosition with y := p.m_pSprite.mPosition.y - 30 } } }
    else p
  let p := { p with bullet := { p.bullet with
    mVelocity := { p.bullet.mVelocity with y := -1000 } } }
  let p := { p with bullet2 := { p.bullet2 with
    mVelocity := { p.bullet2.mVelocity with y := -1000 } } }
  { p with m_bullet := true }

/-- `CPlayer2::Shoot` (CPlayer2.cpp 218-232); `desktop` is the rectangle that
`GetWindowRect(GetDesktopWindow(), &desktop)` delivers. -/
def CPlayer2.Shoot (p : CPlayer2) (desktop : RECT) : CPlayer2 :=
  let p := if p.bullet.mPosition.y < (desktop.top : ℚ) then
      let p := { p with bullet := { p.bullet with
        mPosition := { p.bullet.mPosition with x := p.m_pSprite.mPosition.x - 15 } } }
      let p := { p with bullet := { p.bullet with
        mPosition := { p.bullet.mPosition with y := p.m_pSprite.mPosition.y - 30 } } }
      let p := { p with bullet2 := { p.bullet2 with
        mPosition := { p.bullet2.mPosition with x := p.m_pSprite.mPosition.x + 10 } } }
      { p with bullet2 := { p.bullet2 with
        mPosition := { p.bullet2.mPosition with y := p.m_pSprite.mPosition.y - 30 } } }
    else p
  let p := { p with bullet := { p.bullet with
    mVelocity := { p.bullet.mVelocity with y := -1000 } } }
  let p := { p with bullet2 := { p.bullet2 with
    mVelocity := { p.bullet2.mVelocity with y := -1000 } } }
  { p with m_bullet := true }

/-- `Enemy::Shoot` (Enemy.cpp 232-247); `desktop` is the rectangle that
`GetWindowRect(GetDesktopWindow(), &desktop)` delivers. -/
def Enemy.Shoot (e : Enemy) (desktop : RECT) : Enemy :=
  let e := if e.bullet.mPosition.y > (desktop.bottom : ℚ) then
      let e := { e with m_bullet := true }
      let e := { e with bullet := { e.bullet with
        mPosition := { e.bullet.mPosition with x := e.m_pSprite.mPosition.x - 15 } } }
      let e := { e with bullet := { e.bullet with
        mPosition := { e.bullet.mPosition with y := e.m_pSprite.mPosition.y + 35 } } }
      let e := { e with bullet2 := { e.bullet2 with
        mPosition := { e.bullet2.mPosition with x := e.m_pSprite.mPosition.x + 10 } } }
      { e with bullet2 := { e.bullet2 with
        mPosition := { e.bullet2.mPosition with y := e.m_pSprite.mPosition.y + 35 } } }
    else e
  let e := { e with bullet := { e.bullet with
    mVelocity := { e.bullet.mVelocity with y := 1000 } } }
  { e with bullet2 := { e.bullet2 with
    mVelocity := { e.bullet2.mVelocity with y := 1000 } } }

/-! ### Update -/

/-- The comparison `√r > t` for a rational `t`: `t` is negative or `t² < r`. -/
def SqrtQ.gt (d : SqrtQ) (t : ℚ) : Prop := t < 0 ∨ t * t < d.radicand

instance (d : SqrtQ) (t : ℚ) : Decidable (d.gt t) := by
  unfold SqrtQ.gt; exact inferInstance

/-- The comparison `√r < t` for a rational `t`: `t` is positive and `r < t²`. -/
def SqrtQ.lt (d : SqrtQ) (t : ℚ) : Prop := 0 < t ∧ d.radicand < t * t

instance (d : SqrtQ) (t : ℚ) : Decidable (d.lt t) := by
  unfold SqrtQ.lt; exact inferInstance

/-- Modelled from the spec: `Vec2::Magnitude` (absent) is the Euclidean length
`√(x² + y²)`. -/
def Vec2.Magnitude (v : Vec2) : SqrtQ := ⟨v.x * v.x + v.y * v.y⟩

/-- `CPlayer::Update` (CPlayer.cpp 60-110). `spriteUpdate` stands for `Sprite::update(dt)`, which
is outside the source tree; the sounds are left out. -/
def CPlayer.Update (p : CPlayer) (spriteUpdate : Sprite → ℚ → Sprite) (dt : ℚ) : CPlayer :=
  let p := { p with bullet := spriteUpdate p.bullet dt }
  let p := { p with bullet2 := spriteUpdate p.bullet2 dt }
  let p := { p with m_pSprite := spriteUpdate p.m_pSprite dt }
  let v := p.m_pSprite.mVelocity.Magnitude
  let p := { p with m_fTimer := p.m_fTimer + dt }
  match p.m_eSpeedState with
  | ESpeedStates.SPEED_STOP =>
    if v.gt 35 then
      let p := { p with m_eSpeedState := ESpeedStates.SPEED_START }
      { p with m_fTimer := 0 }
    else p
  | ESpeedStates.SPEED_START =>
    if v.lt 25 then
      let p := { p with m_eSpeedState := ESpeedStates.SPEED_STOP }
      { p with m_fTimer := 0 }
    else if p.m_fTimer > 1 then { p with m_fTimer := 0 }
    else p

/-- `CPlayer2::Update` (CPlayer2.cpp 59-109). `spriteUpdate` stands for `Sprite::update(dt)`, which
is outside the source tree; the sounds are left out. -/
def CPlayer2.Update (p : CPlayer2) (spriteUpdate : Sprite → ℚ → Sprite) (dt : ℚ) : CPlayer2 :=
  let p := { p with bullet := spriteUpdate p.bullet dt }
  let p := { p with bullet2 := spriteUpdate p.bullet2 dt }
  let p := { p with m_pSprite := spriteUpdate p.m_pSprite dt }
  let v := p.m_pSprite.mVelocity.Magnitude
  let p := { p with m_fTimer := p.m_fTimer + dt }
  match p.m_eSpeedState with
  | ESpeedStates.SPEED_STOP =>
    if v.gt 35 then
      let p := { p with m_eSpeedState := ESpeedStates.SPEED_START }
      { p with m_fTimer := 0 }
    else p
  | ESpeedStates.SPEED_START =>
    if v.lt 25 then
      let p := { p with m_eSpeedState := ESpeedStates.SPEED_STOP }
      { p with m_fTimer := 0 }
    else if p.m_fTimer > 1 then { p with m_fTimer := 0 }
    else p

/-- `Enemy::Update` (Enemy.cpp 59-109). `spriteUpdate` stands for `Sprite::update(dt)`, which
is outside the source tree; the sounds are left out. -/
def Enemy.Update (e : Enemy) (spriteUpdate : Sprite → ℚ → Sprite) (dt : ℚ) : Enemy :=
  let e := { e with bullet := spriteUpdate e.bullet dt }
  let e := { e with bullet2 := spriteUpdate e.bullet2 dt }
  let e := { e with m_pSprite := spriteUpdate e.m_pSprite dt }
  let v := e.m_pSprite.mVelocity.Magnitude
  let e := { e with m_fTimer := e.m_fTimer + dt }
  match e.m_eSpeedState with
  | ESpeedStates.SPEED_STOP =>
    if v.gt 35 then
      let e := { e with m_eSpeedState := ESpeedStates.SPEED_START }
      { e with m_fTimer := 0 }
    else e
  | ESpeedStates.SPEED_START =>
    if v.lt 25 then
      let e := { e with m_eSpeedState := ESpeedStates.SPEED_STOP }
      { e with m_fTimer := 0 }
    else if e.m_fTimer > 1 then { e with m_fTimer := 0 }
    else e

/-- `Crate::Update` (Crate.cpp 54-103). `spriteUpdate` stands for `Sprite::update(dt)`, which
is outside the source tree; the sounds are left out. -/
def Crate.Update (c : Crate) (spriteUpdate : Sprite → ℚ → Sprite) (dt : ℚ) : Crate :=
  let c := { c with m_pSprite := spriteUpdate c.m_pSprite dt }
  let v := c.m_pSprite.mVelocity.Magnitude
  let c := { c with m_fTimer := c.m_fTimer + dt }
  match c.m_eSpeedState with
  | ESpeedStates.SPEED_STOP =>
    if v.gt 35 then
      let c := { c with m_eSpeedState := ESpeedStates.SPEED_START }
      { c with m_fTimer := 0 }
    else c
  | ESpeedStates.SPEED_START =>
    if v.lt 25 then
      let c := { c with m_eSpeedState := ESpeedStates.SPEED_STOP }
      { c with m_fTimer := 0 }
    else if c.m_fTimer > 1 then { c with m_fTimer := 0 }
    else c

/-- `Lives::Update` (Lives.cpp 54-103). `spriteUpdate` stands for `Sprite::update(dt)`, which
is outside the source tree; the sounds are left out. -/
def Lives.Update (l : Lives) (spriteUpdate : Sprite → ℚ → Sprite) (dt : ℚ) : Lives :=
  let l := { l with m_pSprite := spriteUpdate l.m_pSprite dt }
  let v := l.m_pSprite.mVelocity.Magnitude
  let l := { l with m_fTimer := l.m_fTimer + dt }
  match l.m_eSpeedState with
  | ESpeedStates.SPEED_STOP =>
    if v.gt 35 then
      let l := { l with m_eSpeedState := ESpeedStates.SPEED_START }
      { l with m_fTimer := 0 }
    else l
  | ESpeedStates.SPEED_START =>
    if v.lt 25 then
      let l := { l with m_eSpeedState := ESpeedStates.SPEED_STOP }
      { l with m_fTimer := 0 }
    else if l.m_fTimer > 1 then { l with m_fTimer := 0 }
    else l

/-! ### Sequences of calls on one entity -/

/-- One call of a public member function of `CPlayer`, `CPlayer2` or `Enemy`
that changes the entity, with its arguments. -/
inductive EntityCall where
  | Explode
  | AdvanceExplosion
  | Move (ulDirection : Nat)
  | Shoot (desktop : RECT)
  | Update (dt : ℚ)

/-- One call of a public member function of `Crate` or `Lives` (which have no
`Shoot`) that changes the entity, with its arguments. -/
inductive PlainCall where
  | Explode
  | AdvanceExplosion
  | Move (ulDirection : Nat)
  | Update (dt : ℚ)

/-- The `CPlayer` after one call. -/
def CPlayer.call (spriteUpdate : Sprite → ℚ → Sprite) (p : CPlayer) : EntityCall → CPlayer
  | EntityCall.Explode => p.Explode
  | EntityCall.AdvanceExplosion => p.AdvanceExplosion.2
  | EntityCall.Move ulDirection => p.Move ulDirection
  | EntityCall.Shoot desktop => p.Shoot desktop
  | EntityCall.Update dt => p.Update spriteUpdate dt

/-- The `CPlayer` after a sequence of calls, first call first. -/
def CPlayer.run (spriteUpdate : Sprite → ℚ → Sprite) (p : CPlayer) (calls : List EntityCall) : CPlayer :=
  calls.foldl (CPlayer.call spriteUpdate) p

/-- The `CPlayer2` after one call. -/
def CPlayer2.call (spriteUpdate : Sprite → ℚ → Sprite) (p : CPlayer2) : EntityCall → CPlayer2
  | EntityCall.Explode => p.Explode
  | EntityCall.AdvanceExplosion => p.AdvanceExplosion.2
  | EntityCall.Move ulDirection => p.Move ulDirection
  | EntityCall.Shoot desktop => p.Shoot desktop
  | EntityCall.Update dt => p.Update spriteUpdate dt

/-- The `CPlayer2` after a sequence of calls, first call first. -/
def CPlayer2.run (spriteUpdate : Sprite → ℚ → Sprite) (p : CPlayer2) (calls : List EntityCall) : CPlayer2 :=
  calls.foldl (CPlayer2.call spriteUpdate) p

/-- The `Enemy` after one call. -/
def Enemy.call (spriteUpdate : Sprite → ℚ → Sprite) (e : Enemy) : EntityCall → Enemy
  | EntityCall.Explode => e.Explode
  | EntityCall.AdvanceExplosion => e.AdvanceExplosion.2
  | EntityCall.Move ulDirection => e.Move ulDirection
  | EntityCall.Shoot desktop => e.Shoot desktop
  | EntityCall.Update dt => e.Update spriteUpdate dt

/-- The `Enemy` after a sequence of calls, first call first. -/
def Enemy.run (spriteUpdate : Sprite → ℚ → Sprite) (e : Enemy) (calls : List EntityCall) : Enemy :=
  calls.foldl (Enemy.call spriteUpdate) e

/-- The `Crate` after one call. -/
def Crate.call (spriteUpdate : Sprite → ℚ → Sprite) (c : Crate) : PlainCall → Crate
  | PlainCall.Explode => c.Explode
  | PlainCall.AdvanceExplosion => c.AdvanceExplosion.2
  | PlainCall.Move ulDirection => c.Move ulDirection
  | PlainCall.Update dt => c.Update spriteUpdate dt

/-- The `Crate` after a sequence of calls, first call first. -/
def Crate.run (spriteUpdate : Sprite → ℚ → Sprite) (c : Crate) (calls : List PlainCall) : Crate :=
  calls.foldl (Crate.call spriteUpdate) c

/-- The `Lives` after one call. -/
def Lives.call (spriteUpdate : Sprite → ℚ → Sprite) (l : Lives) : PlainCall → Lives
  | PlainCall.Explode => l.Explode
  | PlainCall.AdvanceExplosion => l.AdvanceExplosion.2
  | PlainCall.Move ulDirection => l.Move ulDirection
  | PlainCall.Update dt => l.Update spriteUpdate dt

/-- The `Lives` after a sequence of calls, first call first. -/
def Lives.run (spriteUpdate : Sprite → ℚ → Sprite) (l : Lives) (calls : List PlainCall) : Lives :=
  calls.foldl (Lives.call spriteUpdate) l

/-! ## The game application (CGameApp.h, CGameApp.cpp) -/

/-- Members of `CGameApp` that the game logic reads or writes. `timers` is the
set of identifiers of the Win32 timers that are currently running on the
window (`SetTimer` starts or restarts one, `KillTimer` stops it). -/
structure CGameApp where
  m_bActive : Bool
  m_pPlayer : CPlayer
  m_pPlayer2 : CPlayer2
  m_cCrate : Crate
  m_cCrate1 : Crate
  m_pHeart : Lives
  m_pEnemy : Enemy
  lives : Int
  score : Int
  y : Int
  timers : List Nat
deriving DecidableEq

/-- `SetTimer(m_hWnd, id, 250, NULL)`: timer `id` is running afterwards. -/
def CGameApp.SetTimer (g : CGameApp) (id : Nat) : CGameApp :=
  { g with timers := g.timers.insert id }

/-- `KillTimer(m_hWnd, id)`: timer `id` is no longer running. -/
def CGameApp.KillTimer (g : CGameApp) (id : Nat) : CGameApp :=
  { g with timers := g.timers.erase id }

/-- `CGameApp::checkCollision` (CGameApp.cpp 670-683): Player against Player2. -/
def CGameApp.checkCollision (g : CGameApp) : CGameApp :=
  let distance := g.m_pPlayer.Position.Distance g.m_pPlayer2.Position
  if distance.le ((g.m_pPlayer.getWidth + g.m_pPlayer2.getWidth) / 2)
      ∧ g.m_pPlayer.ifExploded = false ∧ g.m_pPlayer2.ifExploded = false then
    let g := g.SetTimer 1
    let g := { g with m_pPlayer := g.m_pPlayer.Explode }
    let g := g.SetTimer 2
    { g with m_pPlayer2 := g.m_pPlayer2.Explode }
  else g

/-- `CGameApp::checkCollisionC` (CGameApp.cpp 688-713): Player against the two
crates, the first crate first; a hit returns at once. -/
def CGameApp.checkCollisionC (g : CGameApp) : Bool × CGameApp :=
  let distance := g.m_pPlayer.Position.Distance g.m_cCrate.Position
  if distance.le ((g.m_pPlayer.getWidth + g.m_cCrate.getWidth) / 2)
      ∧ g.m_cCrate.ifExploded = false then
    let g := g.SetTimer 1
    let g := { g with m_cCrate := g.m_cCrate.Explode }
    let g := g.SetTimer 2
    let g := { g with m_pPlayer := g.m_pPlayer.Explode }
    (true, g)
  else
    let distance := g.m_pPlayer.Position.Distance g.m_cCrate1.Position
    if distance.le ((g.m_pPlayer.getWidth + g.m_cCrate1.getWidth) / 2)
        ∧ g.m_cCrate1.ifExploded = false then
      let g := g.SetTimer 1
      let g := { g with m_cCrate1 := g.m_cCrate1.Explode }
      let g := g.SetTimer 2
      let g := { g with m_pPlayer := g.m_pPlayer.Explode }
      (true, g)
    else (false, g)

/-- `CGameApp::checkCollisionCB` (CGameApp.cpp 715-739): the Player's first
bullet against the two crates. -/
def CGameApp.checkCollisionCB (g : CGameApp) : Bool × CGameApp :=
  let distance := g.m_pPlayer.PositionBullet.Distance g.m_cCrate.Position
  if distance.le ((g.m_pPlayer.getWidthBullet + g.m_cCrate.getWidth) / 2)
      ∧ g.m_cCrate.ifExploded = false then
    let g := g.SetTimer 1
    let g := { g with m_cCrate := g.m_cCrate.Explode }
    (true, g)
  else
    let distance := g.m_pPlayer.PositionBullet.Distance g.m_cCrate1.Position
    if distance.le ((g.m_pPlayer.getWidthBullet + g.m_cCrate1.getWidth) / 2)
        ∧ g.m_cCrate1.ifExploded = false then
      let g := g.SetTimer 2
      let g := { g with m_cCrate1 := g.m_cCrate1.Explode }
      (true, g)
    else (false, g)

/-- `CGameApp::checkCollisionPBE` (CGameApp.cpp 743-756): the Player's first
bullet against the Enemy. -/
def CGameApp.checkCollisionPBE (g : CGameApp) : Bool × CGameApp :=
  let distance := g.m_pPlayer.PositionBullet.Distance g.m_pEnemy.Position
  if distance.le ((g.m_pPlayer.getWidthBullet + g.m_pEnemy.getWidth) / 2)
      ∧ g.m_pEnemy.ifExploded = false then
    let g := g.SetTimer 1
    let g := { g with m_pEnemy := g.m_pEnemy.Explode }
    (true, g)
  else (false, g)

/-- `CGameApp::checkCollisionEBP` (CGameApp.cpp 758-779): the Enemy body, then
the Enemy's first bullet, against the Player. -/
def CGameApp.checkCollisionEBP (g : CGameApp) : Bool × CGameApp :=
  let distance := g.m_pEnemy.Position.Distance g.m_pPlayer.Position
  if distance.le ((g.m_pEnemy.getWidth + g.m_pPlayer.getWidth) / 2)
      ∧ g.m_pPlayer.ifExploded = false then
    let g := g.SetTimer 1
    let g := { g with m_pPlayer := g.m_pPlayer.Explode }
    (true, g)
  else
    let distance := g.m_pEnemy.PositionBullet.Distance g.m_pPlayer.Position
    if distance.le ((g.m_pEnemy.getWidthBullet + g.m_pPlayer.getWidth) / 2)
        ∧ g.m_pPlayer.ifExploded = false then
      let g := g.SetTimer 1
      let g := { g with m_pPlayer := g.m_pPlayer.Explode }
      (true, g)
    else (false, g)

/-- `CGameApp::checkCollisionL` (CGameApp.cpp 782-796): Player against the
Lives pickup. -/
def CGameApp.checkCollisionL (g : CGameApp) : Bool × CGameApp :=
  let distance := g.m_pPlayer.Position.Distance g.m_pHeart.Position
  if distance.le ((g.m_pPlayer.getWidth + g.m_pHeart.getWidth) / 2)
      ∧ g.m_pHeart.ifExploded = false then
    let g := g.SetTimer 1
    let g := { g with m_pHeart := g.m_pHeart.Explode }
    (true, g)
  else (false, g)

/-- `if (checkCollisionC() == true) lives--;` (CGameApp.cpp 449-453). -/
def CGameApp.stepC (g : CGameApp) : CGameApp :=
  let r := g.checkCollisionC
  if r.1 = true then { r.2 with lives := r.2.lives - 1 } else r.2

/-- `if (checkCollisionCB() == true) score++;` (CGameApp.cpp 454-457). -/
def CGameApp.stepCB (g : CGameApp) : CGameApp :=
  let r := g.checkCollisionCB
  if r.1 = true then { r.2 with score := r.2.score + 1 } else r.2

/-- `if (checkCollisionPBE() == true) score++;` (CGameApp.cpp 459-462). -/
def CGameApp.stepPBE (g : CGameApp) : CGameApp :=
  let r := g.checkCollisionPBE
  if r.1 = true then { r.2 with score := r.2.score + 1 } else r.2

/-- `if (checkCollisionEBP() == true) lives--;` (CGameApp.cpp 464-468). -/
def CGameApp.stepEBP (g : CGameApp) : CGameApp :=
  let r := g.checkCollisionEBP
  if r.1 = true then { r.2 with lives := r.2.lives - 1 } else r.2

/-- `if (checkCollisionL() == true) lives++;` (CGameApp.cpp 471-475). -/
def CGameApp.stepL (g : CGameApp) : CGameApp :=
  let r := g.checkCollisionL
  if r.1 = true then { r.2 with lives := r.2.lives + 1 } else r.2

/-- The collision pass of `CGameApp::FrameAdvance` (CGameApp.cpp 447-475): the
six checks in source order, each `bool` result applied to `lives` or `score`
before the next check runs. -/
def CGameApp.collisionPass (g : CGameApp) : CGameApp :=
  let g := g.checkCollision
  let g := g.stepC
  let g := g.stepCB
  let g := g.stepPBE
  let g := g.stepEBP
  g.stepL

/-! ### Window messages (`CGameApp::DisplayWndProc`, CGameApp.cpp 210-321) -/

/-- Win32 virtual-key code `VK_ESCAPE`. -/
def VK_ESCAPE : Nat := 0x1B
/-- Win32 virtual-key code `VK_RETURN` (Enter). -/
def VK_RETURN : Nat := 0x0D
/-- Win32 virtual-key code `VK_SPACE`. -/
def VK_SPACE : Nat := 0x20
/-- Win32 virtual-key code `VK_CONTROL`. -/
def VK_CONTROL : Nat := 0x11
/-- Win32 virtual-key code `VK_TAB`. -/
def VK_TAB : Nat := 0x09
/-- The key code `0x51` of the source, the letter Q. -/
def VK_Q : Nat := 0x51

/-- The `WM_KEYDOWN` branch of `DisplayWndProc` (CGameApp.cpp 260-285) for the
key `wParam`; `desktop` is the rectangle `Shoot` reads. Escape only posts the
quit message and Tab does nothing. -/
def CGameApp.onKeyDown (g : CGameApp) (wParam : Nat) (desktop : RECT) : CGameApp :=
  if wParam = VK_ESCAPE then g
  else if wParam = VK_RETURN then
    let g := g.SetTimer 1
    { g with m_pPlayer := g.m_pPlayer.Explode }
  else if wParam = VK_SPACE then { g with m_pPlayer := g.m_pPlayer.Shoot desktop }
  else if wParam = VK_CONTROL then { g with m_pPlayer2 := g.m_pPlayer2.Shoot desktop }
  else if wParam = VK_Q then
    let g := g.SetTimer 2
    { g with m_pPlayer2 := g.m_pPlayer2.Explode }
  else if wParam = VK_TAB then g
  else g

/-- `case 1:` of the `WM_TIMER` switch:
`if (!m_pPlayer->AdvanceExplosion()) KillTimer(m_hWnd, 1);` -/
def CGameApp.timerCase1 (g : CGameApp) : CGameApp :=
  let r := g.m_pPlayer.AdvanceExplosion
  let g := { g with m_pPlayer := r.2 }
  if r.1 = false then g.KillTimer 1 else g

/-- `case 2:` of the `WM_TIMER` switch:
`if (!m_pPlayer2->AdvanceExplosion()) KillTimer(m_hWnd, 2);` -/
def CGameApp.timerCase2 (g : CGameApp) : CGameApp :=
  let r := g.m_pPlayer2.AdvanceExplosion
  let g := { g with m_pPlayer2 := r.2 }
  if r.1 = false then g.KillTimer 2 else g

/-- `case 4:` of the `WM_TIMER` switch:
`if (!m_cCrate->AdvanceExplosion()) KillTimer(m_hWnd, 3);` -/
def CGameApp.timerCase4 (g : CGameApp) : CGameApp :=
  let r := g.m_cCrate.AdvanceExplosion
  let g := { g with m_cCrate := r.2 }
  if r.1 = false then g.KillTimer 3 else g

/-- `case 3:` of the `WM_TIMER` switch:
`if (!m_cCrate1->AdvanceExplosion()) KillTimer(m_hWnd, 4);` -/
def CGameApp.timerCase3 (g : CGameApp) : CGameApp :=
  let r := g.m_cCrate1.AdvanceExplosion
  let g := { g with m_cCrate1 := r.2 }
  if r.1 = false then g.KillTimer 4 else g

/-- `case 5:` of the `WM_TIMER` switch:
`if (!m_pEnemy->AdvanceExplosion()) KillTimer(m_hWnd, 5);` -/
def CGameApp.timerCase5 (g : CGameApp) : CGameApp :=
  let r := g.m_pEnemy.AdvanceExplosion
  let g := { g with m_pEnemy := r.2 }
  if r.1 = false then g.KillTimer 5 else g

/-- `case 6:` of the `WM_TIMER` switch:
`if (!m_pHeart->AdvanceExplosion()) KillTimer(m_hWnd, 6);` -/
def CGameApp.timerCase6 (g : CGameApp) : CGameApp :=
  let r := g.m_pHeart.AdvanceExplosion
  let g := { g with m_pHeart := r.2 }
  if r.1 = false then g.KillTimer 6 else g

/-- The `WM_TIMER` branch of `DisplayWndProc` (CGameApp.cpp 287-310) for timer
`wParam`. The cases stand in the order 1, 2, 4, 3, 5, 6 and none ends in
`break`, so control enters at the label equal to `wParam` and runs every case
after it. -/
def CGameApp.onTimer (g : CGameApp) (wParam : Nat) : CGameApp :=
  let g := if wParam = 1 then g.timerCase1 else g
  let g := if wParam = 1 ∨ wParam = 2 then g.timerCase2 else g
  let g := if wParam = 1 ∨ wParam = 2 ∨ wParam = 4 then g.timerCase4 else g
  let g := if wParam = 1 ∨ wParam = 2 ∨ wParam = 4 ∨ wParam = 3 then g.timerCase3 else g
  let g := if wParam = 1 ∨ wParam = 2 ∨ wParam = 4 ∨ wParam = 3 ∨ wParam = 5 then
    g.timerCase5 else g
  if wParam = 1 ∨ wParam = 2 ∨ wParam = 4 ∨ wParam = 3 ∨ wParam = 5 ∨ wParam = 6 then
    g.timerCase6 else g

/-- One event the controller reacts to: the collision pass of a frame, a key
press, or a tick of a timer. -/
inductive ControllerEvent where
  | collisionPass
  | keyDown (wParam : Nat) (desktop : RECT)
  | timer (id : Nat)

/-- The game after one event. A `WM_TIMER` message arrives only for a timer
that is running, so a tick of a timer that is not in `timers` changes nothing. -/
def CGameApp.handle (g : CGameApp) : ControllerEvent → CGameApp
  | ControllerEvent.collisionPass => g.collisionPass
  | ControllerEvent.keyDown wParam desktop => g.onKeyDown wParam desktop
  | ControllerEvent.timer id => if id ∈ g.timers then g.onTimer id else g

/-- The game after a sequence of events, first event first. -/
def CGameApp.runEvents (g : CGameApp) (events : List ControllerEvent) : CGameApp :=
  events.foldl CGameApp.handle g

/-! ### The frame (`CGameApp::FrameAdvance`, CGameApp.cpp 417-667) -/

/-- Win32 virtual-key code `VK_LEFT`. -/
def VK_LEFT : Nat := 0x25
/-- Win32 virtual-key code `VK_UP`. -/
def VK_UP : Nat := 0x26
/-- Win32 virtual-key code `VK_RIGHT`. -/
def VK_RIGHT : Nat := 0x27
/-- Win32 virtual-key code `VK_DOWN`. -/
def VK_DOWN : Nat := 0x28
/-- Win32 virtual-key code `VK_NUMPAD2`. -/
def VK_NUMPAD2 : Nat := 0x62
/-- Win32 virtual-key code `VK_NUMPAD4`. -/
def VK_NUMPAD4 : Nat := 0x64
/-- Win32 virtual-key code `VK_NUMPAD6`. -/
def VK_NUMPAD6 : Nat := 0x66
/-- Win32 virtual-key code `VK_NUMPAD8`. -/
def VK_NUMPAD8 : Nat := 0x68

/-- `CPlayer::GeterPositionX`: `x = m_pSprite->mPosition.x`. -/
def CPlayer.GeterPositionX (p : CPlayer) : ℚ := p.m_pSprite.mPosition.x

/-- `CPlayer::GeterPositionY`: `y = m_pSprite->mPosition.y`. -/
def CPlayer.GeterPositionY (p : CPlayer) : ℚ := p.m_pSprite.mPosition.y

/-- `CPlayer2::GeterPositionX`: `x = m_pSprite->mPosition.x`. -/
def CPlayer2.GeterPositionX (p : CPlayer2) : ℚ := p.m_pSprite.mPosition.x

/-- `CPlayer2::GeterPositionY`: `y = m_pSprite->mPosition.y`. -/
def CPlayer2.GeterPositionY (p : CPlayer2) : ℚ := p.m_pSprite.mPosition.y

/-- `CPlayer::MoveLeft` (CPlayer.cpp 253-264): the sprite is replaced by a new
one and put at the old position. `fresh` is the sprite that
`new Sprite("data/PlaneImgAndMaskLeft.bmp", ...)` builds. -/
def CPlayer.MoveLeft (p : CPlayer) (fresh : Sprite) : CPlayer :=
  let a := p.GeterPositionX
  let b := p.GeterPositionY
  let p := { p with m_pSprite := fresh }
  { p with m_pSprite := { p.m_pSprite with mPosition := ⟨a, b⟩ } }

/-- `CPlayer::MoveRight` (CPlayer.cpp 266-277); `fresh` is the sprite built from
`data/PlaneImgAndMaskRight.bmp`. -/
def CPlayer.MoveRight (p : CPlayer) (fresh : Sprite) : CPlayer :=
  let a := p.GeterPositionX
  let b := p.GeterPositionY
  let p := { p with m_pSprite := fresh }
  { p with m_pSprite := { p.m_pSprite with mPosition := ⟨a, b⟩ } }

/-- `CPlayer::MoveUp` (CPlayer.cpp 279-290); `fresh` is the sprite built from
`data/PlaneImgAndMaskUp.bmp`. -/
def CPlayer.MoveUp (p : CPlayer) (fresh : Sprite) : CPlayer :=
  let a := p.GeterPositionX
  let b := p.GeterPositionY
  let p := { p with m_pSprite := fresh }
  { p with m_pSprite := { p.m_pSprite with mPosition := ⟨a, b⟩ } }

/-- `CPlayer::MoveDown` (CPlayer.cpp 292-303); `fresh` is the sprite built from
`data/PlaneImgAndMaskDown.bmp`. -/
def CPlayer.MoveDown (p : CPlayer) (fresh : Sprite) : CPlayer :=
  let a := p.GeterPositionX
  let b := p.GeterPositionY
  let p := { p with m_pSprite := fresh }
  { p with m_pSprite := { p.m_pSprite with mPosition := ⟨a, b⟩ } }

/-- What one frame reads from outside the program. -/
structure FrameInput where
  /-- The return value of `GetKeyboardState`. -/
  keyboardState : Bool
  /-- The 256 key bytes `GetKeyboardState` fills in. -/
  pKeyBuffer : Nat → Nat
  /-- The value `rand()` returns after `srand(time(0))`. -/
  rand : Nat
  /-- The rectangle `GetWindowRect(GetDesktopWindow(), ...)` gives to `Shoot`. -/
  desktop : RECT
  /-- The value of `m_Timer.GetTimeElapsed()`. -/
  timeElapsed : ℚ
  /-- The four numbers `input >> x1_axis >> y1_axis >> x2_axis >> y2_axis`
  reads from `data/save.txt`. -/
  x1_axis : ℚ
  y1_axis : ℚ
  x2_axis : ℚ
  y2_axis : ℚ
  /-- The sprites built from the four plane bitmaps of `MoveLeft`, `MoveDown`,
  `MoveRight` and `MoveUp`. -/
  planeLeft : Sprite
  planeDown : Sprite
  planeRight : Sprite
  planeUp : Sprite

/-- The test `pKeyBuffer[vk] & 0xF0` of `ProcessInput`. -/
def keyHeld (pKeyBuffer : Nat → Nat) (vk : Nat) : Bool := (pKeyBuffer vk &&& 0xF0) != 0

/-- The `switch (result)` of `ProcessInput` (CGameApp.cpp 531-559): the masks
`Direction3` (Enemy), `Direction4` (first crate), `Direction5` (second crate),
`Direction6` (Lives), and whether the case calls `m_pEnemy->Shoot()`. -/
def rollDirections (result : Nat) : Nat × Nat × Nat × Nat × Bool :=
  if result = 1 then (0 ||| DIR_FORWARD, 0 ||| DIR_LEFT, 0 ||| DIR_BACKWARD, 0 ||| DIR_FORWARD, false)
  else if result = 2 then
    (0 ||| DIR_BACKWARD, 0 ||| DIR_FORWARD, 0 ||| DIR_RIGHT, 0 ||| DIR_RIGHT, true)
  else if result = 3 then
    (0 ||| DIR_LEFT, 0 ||| DIR_RIGHT, 0 ||| DIR_LEFT, 0 ||| DIR_BACKWARD, false)
  else if result = 4 then
    (0 ||| DIR_RIGHT, 0 ||| DIR_BACKWARD, 0 ||| DIR_FORWARD, 0 ||| DIR_LEFT, true)
  else (0, 0, 0, 0, false)

/-- `CGameApp::ProcessInput` (CGameApp.cpp 486-622). Writing `data/save.txt` on
the key M and the mouse capture at the end change no member and are left out. -/
def CGameApp.ProcessInput (g : CGameApp) (inp : FrameInput) : CGameApp :=
  if inp.keyboardState = false then g else
  let Direction : Nat := 0
  let Direction := if keyHeld inp.pKeyBuffer VK_UP then Direction ||| DIR_FORWARD else Direction
  let Direction := if keyHeld inp.pKeyBuffer VK_DOWN then Direction ||| DIR_BACKWARD
    else Direction
  let Direction := if keyHeld inp.pKeyBuffer VK_LEFT then Direction ||| DIR_LEFT else Direction
  let Direction := if keyHeld inp.pKeyBuffer VK_RIGHT then Direction ||| DIR_RIGHT
    else Direction
  let Direction2 : Nat := 0
  let Direction2 := if keyHeld inp.pKeyBuffer 0x57 then Direction2 ||| DIR_FORWARD
    else Direction2
  let Direction2 := if keyHeld inp.pKeyBuffer 0x53 then Direction2 ||| DIR_BACKWARD
    else Direction2
  let Direction2 := if keyHeld inp.pKeyBuffer 0x41 then Direction2 ||| DIR_LEFT
    else Direction2
  let Direction2 := if keyHeld inp.pKeyBuffer 0x44 then Direction2 ||| DIR_RIGHT
    else Direction2
  let result := 1 + inp.rand % 4
  let roll := rollDirections result
  let g := if roll.2.2.2.2 then { g with m_pEnemy := g.m_pEnemy.Shoot inp.desktop } else g
  let g := { g with m_pPlayer := g.m_pPlayer.Move Direction }
  let g := { g with m_pPlayer2 := g.m_pPlayer2.Move Direction2 }
  let g := { g with m_pEnemy := g.m_pEnemy.Move roll.1 }
  let g := { g with m_cCrate := g.m_cCrate.Move roll.2.1 }
  let g := { g with m_cCrate1 := g.m_cCrate1.Move roll.2.2.1 }
  let g := { g with m_pHeart := g.m_pHeart.Move roll.2.2.2.1 }
  let g := if keyHeld inp.pKeyBuffer 0x4C then
      let g := { g with m_pPlayer := { g.m_pPlayer with
        m_pSprite := { g.m_pPlayer.m_pSprite with mPosition := ⟨inp.x1_axis, inp.y1_axis⟩ } } }
      { g with m_pPlayer2 := { g.m_pPlayer2 with
        m_pSprite := { g.m_pPlayer2.m_pSprite with mPosition := ⟨inp.x2_axis, inp.y2_axis⟩ } } }
    else g
  let g := if keyHeld inp.pKeyBuffer VK_NUMPAD4 then
      { g with m_pPlayer := g.m_pPlayer.MoveLeft inp.planeLeft } else g
  let g := if keyHeld inp.pKeyBuffer VK_NUMPAD2 then
      { g with m_pPlayer := g.m_pPlayer.MoveDown inp.planeDown } else g
  let g := if keyHeld inp.pKeyBuffer VK_NUMPAD6 then
      { g with m_pPlayer := g.m_pPlayer.MoveRight inp.planeRight } else g
  if keyHeld inp.pKeyBuffer VK_NUMPAD8 then
    { g with m_pPlayer := g.m_pPlayer.MoveUp inp.planeUp } else g

/-- `CGameApp::AnimateObjects` (CGameApp.cpp 628-637); `dt` is
`m_Timer.GetTimeElapsed()`. -/
def CGameApp.AnimateObjects (g : CGameApp) (spriteUpdate : Sprite → ℚ → Sprite) (dt : ℚ) :
    CGameApp :=
  let g := { g with m_pPlayer := g.m_pPlayer.Update spriteUpdate dt }
  let g := { g with m_pPlayer2 := g.m_pPlayer2.Update spriteUpdate dt }
  let g := { g with m_cCrate := g.m_cCrate.Update spriteUpdate dt }
  let g := { g with m_cCrate1 := g.m_cCrate1.Update spriteUpdate dt }
  let g := { g with m_pEnemy := g.m_pEnemy.Update spriteUpdate dt }
  { g with m_pHeart := g.m_pHeart.Update spriteUpdate dt }

/-- `CGameApp::DrawObjects` (CGameApp.cpp 643-667): the background is painted
at `y - 600`, then `y = y + 2; if (y == 600) y = -120;`. Painting and the six
`Draw` calls change no member. The offset stays far inside the range of `int`. -/
def CGameApp.DrawObjects (g : CGameApp) : CGameApp :=
  let g := { g with y := g.y + 2 }
  if g.y = 600 then { g with y := -120 } else g

/-- `CGameApp::FrameAdvance` (CGameApp.cpp 417-480). The frame timer `m_Timer`
(`Tick` is called first, in every case) and the window title are outside the
members modelled here. -/
def CGameApp.FrameAdvance (g : CGameApp) (spriteUpdate : Sprite → ℚ → Sprite)
    (inp : FrameInput) : CGameApp :=
  if g.m_bActive = false then g else
  let g := g.ProcessInput inp
  let g := g.AnimateObjects spriteUpdate inp.timeElapsed
  let g := g.DrawObjects
  g.collisionPass

/-- The game after a sequence of frames, first frame first. -/
def CGameApp.runFrames (g : CGameApp) (spriteUpdate : Sprite → ℚ → Sprite)
    (frames : List FrameInput) : CGameApp :=
  frames.foldl (fun g inp => g.FrameAdvance spriteUpdate inp) g

/-! ## Predicates used in the statements -/

/-- The hit test of every collision check: `distance(posA, posB) <= (widthA + widthB) / 2`. -/
def hit (posA posB : Vec2) (widthA widthB : ℚ) : Prop :=
  (posA.Distance posB).le ((widthA + widthB) / 2)

instance (posA posB : Vec2) (widthA widthB : ℚ) : Decidable (hit posA posB widthA widthB) := by
  unfold hit; exact inferInstance

/-- The sprite position is inside the screen bounds of `Move`:
`width/2 <= x <= 780 - width/2` and `height/2 <= y <= B - height/2`. -/
def Sprite.inBounds (s : Sprite) (B : ℚ) : Prop :=
  s.width / 2 ≤ s.mPosition.x ∧ s.mPosition.x ≤ 780 - s.width / 2 ∧
  s.height / 2 ≤ s.mPosition.y ∧ s.mPosition.y ≤ B - s.height / 2

instance (s : Sprite) (B : ℚ) : Decidable (s.inBounds B) := by
  unfold Sprite.inBounds; exact inferInstance

/-- The indicator of a direction bit: 1 if the bit is set in the mask, else 0. -/
def bitOf (ulDirection dir : Nat) : ℚ := if dirSet ulDirection dir then 1 else 0

/-- Effect of the bottom/right rule of `Move` on a sprite `s` that becomes `s1`:
beyond `780 - width/2` the x velocity is zeroed and x decreases by exactly 1,
otherwise x is unchanged; the same on y with the bound `B - height/2`. -/
def Sprite.PushedBack (B : ℚ) (s s1 : Sprite) : Prop :=
  (s.mPosition.x > 780 - s.width / 2 →
    s1.mVelocity.x = 0 ∧ s1.mPosition.x = s.mPosition.x - 1) ∧
  (¬ s.mPosition.x > 780 - s.width / 2 → s1.mPosition.x = s.mPosition.x) ∧
  (s.mPosition.y > B - s.height / 2 →
    s1.mVelocity.y = 0 ∧ s1.mPosition.y = s.mPosition.y - 1) ∧
  (¬ s.mPosition.y > B - s.height / 2 → s1.mPosition.y = s.mPosition.y)

/-- The top/left rule as the claim words it: left of `width/2` the x velocity
after `Move` is 0, above `height/2` the y velocity after `Move` is 0. -/
def Sprite.StoppedLow (s s1 : Sprite) : Prop :=
  (s.mPosition.x < s.width / 2 → s1.mVelocity.x = 0) ∧
  (s.mPosition.y < s.height / 2 → s1.mVelocity.y = 0)

/-- The top/left rule as the code applies it, between the Left/Forward delta and
the Right/Backward delta: left of `width/2` the old x velocity and the Left
delta are discarded, and the x velocity after `Move` is `a` if the Right bit is
set and 0 otherwise (0 in any case when x also exceeds `780 - width/2`); the
same on y with the Backward bit and the bound `B - height/2`. -/
def Sprite.StoppedLowThenPushed (a B : ℚ) (ulDirection : Nat) (s s1 : Sprite) : Prop :=
  (s.mPosition.x < s.width / 2 →
    s1.mVelocity.x =
      if s.mPosition.x > 780 - s.width / 2 then 0 else a * bitOf ulDirection DIR_RIGHT) ∧
  (s.mPosition.y < s.height / 2 →
    s1.mVelocity.y =
      if s.mPosition.y > B - s.height / 2 then 0 else a * bitOf ulDirection DIR_BACKWARD)

/-- Effect of `Move` on a sprite inside the four bounds: the position is
unchanged and the velocity grows by `a * (right - left, backward - forward)`;
in particular mask 0 changes nothing, Left with Right leaves the x velocity as
it was, and Forward with Backward leaves the y velocity as it was. -/
def Sprite.Accelerated (a B : ℚ) (ulDirection : Nat) (s s1 : Sprite) : Prop :=
  s.inBounds B →
    s1.mPosition = s.mPosition ∧
    s1.mVelocity =
      ⟨s.mVelocity.x + a * (bitOf ulDirection DIR_RIGHT - bitOf ulDirection DIR_LEFT),
       s.mVelocity.y + a * (bitOf ulDirection DIR_BACKWARD - bitOf ulDirection DIR_FORWARD)⟩ ∧
    (ulDirection = 0 → s1 = s) ∧
    (dirSet ulDirection DIR_LEFT = true → dirSet ulDirection DIR_RIGHT = true →
      s1.mVelocity.x = s.mVelocity.x) ∧
    (dirSet ulDirection DIR_FORWARD = true → dirSet ulDirection DIR_BACKWARD = true →
      s1.mVelocity.y = s.mVelocity.y)

/-- A bullet slot after a `Shoot` that does not reposition it: only the
vertical velocity is set, to `vy`. -/
def Sprite.relaunched (vy : ℚ) (b : Sprite) : Sprite :=
  { b with mVelocity := { b.mVelocity with y := vy } }

/-- The sprite `s1` has the position and the velocity of `s`. -/
def Sprite.Unmoved (s s1 : Sprite) : Prop :=
  s1.mPosition = s.mPosition ∧ s1.mVelocity = s.mVelocity

instance (s s1 : Sprite) : Decidable (s.Unmoved s1) := by
  unfold Sprite.Unmoved; exact inferInstance

/-- The position of `s1` against that of `s` after a `Move` with lower bound
`B`: x is one less when x exceeded `780 - width/2` and the same otherwise, y is
one less when y exceeded `B - height/2` and the same otherwise; so each
coordinate changes by 0 or by -1, by a rule that reads only that coordinate and
the extent of the sprite on that axis. -/
def Sprite.SteppedBack (B : ℚ) (s s1 : Sprite) : Prop :=
  s1.mPosition.x
    = (if s.mPosition.x > 780 - s.width / 2 then s.mPosition.x - 1 else s.mPosition.x) ∧
  s1.mPosition.y
    = (if s.mPosition.y > B - s.height / 2 then s.mPosition.y - 1 else s.mPosition.y) ∧
  (s1.mPosition.x - s.mPosition.x = 0 ∨ s1.mPosition.x - s.mPosition.x = -1) ∧
  (s1.mPosition.y - s.mPosition.y = 0 ∨ s1.mPosition.y - s.mPosition.y = -1)

/-! ### The tests of the collision checks -/

/-- The test of Player against Player2: in contact, and the
tested explosion flag not set. -/
def CGameApp.firesPP2 (g : CGameApp) : Prop :=
  hit g.m_pPlayer.Position g.m_pPlayer2.Position
    g.m_pPlayer.getWidth g.m_pPlayer2.getWidth ∧ g.m_pPlayer.ifExploded = false ∧ g.m_pPlayer2.ifExploded = false

instance (g : CGameApp) : Decidable g.firesPP2 := by
  unfold CGameApp.firesPP2; exact inferInstance

/-- The test of Player against the first crate: in contact, and the
tested explosion flag not set. -/
def CGameApp.firesC (g : CGameApp) : Prop :=
  hit g.m_pPlayer.Position g.m_cCrate.Position
    g.m_pPlayer.getWidth g.m_cCrate.getWidth ∧ g.m_cCrate.ifExploded = false

instance (g : CGameApp) : Decidable g.firesC := by
  unfold CGameApp.firesC; exact inferInstance

/-- The test of Player against the second crate: in contact, and the
tested explosion flag not set. -/
def CGameApp.firesC1 (g : CGameApp) : Prop :=
  hit g.m_pPlayer.Position g.m_cCrate1.Position
    g.m_pPlayer.getWidth g.m_cCrate1.getWidth ∧ g.m_cCrate1.ifExploded = false

instance (g : CGameApp) : Decidable g.firesC1 := by
  unfold CGameApp.firesC1; exact inferInstance

/-- The test of the Player's first bullet against the first crate: in contact, and the
tested explosion flag not set. -/
def CGameApp.firesCB (g : CGameApp) : Prop :=
  hit g.m_pPlayer.PositionBullet g.m_cCrate.Position
    g.m_pPlayer.getWidthBullet g.m_cCrate.getWidth ∧ g.m_cCrate.ifExploded = false

instance (g : CGameApp) : Decidable g.firesCB := by
  unfold CGameApp.firesCB; exact inferInstance

/-- The test of the Player's first bullet against the second crate: in contact, and the
tested explosion flag not set. -/
def CGameApp.firesCB1 (g : CGameApp) : Prop :=
  hit g.m_pPlayer.PositionBullet g.m_cCrate1.Position
    g.m_pPlayer.getWidthBullet g.m_cCrate1.getWidth ∧ g.m_cCrate1.ifExploded = false

instance (g : CGameApp) : Decidable g.firesCB1 := by
  unfold CGameApp.firesCB1; exact inferInstance

/-- The test of the Player's first bullet against the Enemy: in contact, and the
tested explosion flag not set. -/
def CGameApp.firesPBE (g : CGameApp) : Prop :=
  hit g.m_pPlayer.PositionBullet g.m_pEnemy.Position
    g.m_pPlayer.getWidthBullet g.m_pEnemy.getWidth ∧ g.m_pEnemy.ifExploded = false

instance (g : CGameApp) : Decidable g.firesPBE := by
  unfold CGameApp.firesPBE; exact inferInstance

/-- The test of the Enemy body against the Player: in contact, and the
tested explosion flag not set. -/
def CGameApp.firesEBP (g : CGameApp) : Prop :=
  hit g.m_pEnemy.Position g.m_pPlayer.Position
    g.m_pEnemy.getWidth g.m_pPlayer.getWidth ∧ g.m_pPlayer.ifExploded = false

instance (g : CGameApp) : Decidable g.firesEBP := by
  unfold CGameApp.firesEBP; exact inferInstance

/-- The test of the Enemy's first bullet against the Player: in contact, and the
tested explosion flag not set. -/
def CGameApp.firesEBP1 (g : CGameApp) : Prop :=
  hit g.m_pEnemy.PositionBullet g.m_pPlayer.Position
    g.m_pEnemy.getWidthBullet g.m_pPlayer.getWidth ∧ g.m_pPlayer.ifExploded = false

instance (g : CGameApp) : Decidable g.firesEBP1 := by
  unfold CGameApp.firesEBP1; exact inferInstance

/-- The test of Player against the Lives pickup: in contact, and the
tested explosion flag not set. -/
def CGameApp.firesL (g : CGameApp) : Prop :=
  hit g.m_pPlayer.Position g.m_pHeart.Position
    g.m_pPlayer.getWidth g.m_pHeart.getWidth ∧ g.m_pHeart.ifExploded = false

instance (g : CGameApp) : Decidable g.firesL := by
  unfold CGameApp.firesL; exact inferInstance

/-- The entity `e1` is `e` itself, or it is `e` exploded while `e` was not
exploding: between `e` and `e1`, `Explode` was not applied to an exploding
entity. -/
def GuardedExplode {α : Type} (ifExploded : α → Bool) (explode : α → α) (e e1 : α) : Prop :=
  e1 = e ∨ (ifExploded e = false ∧ e1 = explode e)

/-- From the game `g` to the game `g1`, Player2, the two crates, the Enemy and
the Lives pickup were exploded only while not exploding. -/
def CGameApp.GuardedStep (g g1 : CGameApp) : Prop :=
  GuardedExplode CPlayer2.ifExploded CPlayer2.Explode g.m_pPlayer2 g1.m_pPlayer2 ∧
  GuardedExplode Crate.ifExploded Crate.Explode g.m_cCrate g1.m_cCrate ∧
  GuardedExplode Crate.ifExploded Crate.Explode g.m_cCrate1 g1.m_cCrate1 ∧
  GuardedExplode Enemy.ifExploded Enemy.Explode g.m_pEnemy g1.m_pEnemy ∧
  GuardedExplode Lives.ifExploded Lives.Explode g.m_pHeart g1.m_pHeart

/-! ## Example states -/

/-- A sprite at `(x, y)` with extent `w × h`, at rest. -/
def spriteAt (x y w h : ℚ) : Sprite := ⟨⟨x, y⟩, ⟨0, 0⟩, w, h⟩

/-- The state `CPlayer::CPlayer` leaves, for given bitmaps: 15 explosion frames,
no explosion, bullets not shown. The position and frame that the constructor of
`AnimatedSprite` (outside the source tree) gives the explosion sprite are taken
as (0, 0) and 0, here and in the four constructors below. -/
def CPlayer.new (sprite bullet bullet2 : Sprite) : CPlayer :=
  { m_pSprite := sprite, bullet := bullet, bullet2 := bullet2,
    m_eSpeedState := ESpeedStates.SPEED_STOP, m_fTimer := 0,
    m_bExplosion := false, m_bullet := false,
    m_pExplosionSprite := ⟨⟨0, 0⟩, 0, 15⟩, m_iExplosionFrame := 0 }

/-- The state `CPlayer2::CPlayer2` leaves, for given bitmaps. -/
def CPlayer2.new (sprite bullet bullet2 : Sprite) : CPlayer2 :=
  { m_pSprite := sprite, bullet := bullet, bullet2 := bullet2,
    m_eSpeedState := ESpeedStates.SPEED_STOP, m_fTimer := 0,
    m_bExplosion := false, m_bullet := false,
    m_pExplosionSprite := ⟨⟨0, 0⟩, 0, 15⟩, m_iExplosionFrame := 0 }

/-- The state `Enemy::Enemy` leaves, for given bitmaps. -/
def Enemy.new (sprite bullet bullet2 : Sprite) : Enemy :=
  { m_pSprite := sprite, bullet := bullet, bullet2 := bullet2,
    m_eSpeedState := ESpeedStates.SPEED_STOP, m_fTimer := 0,
    m_bExplosion := false, m_bullet := false,
    m_pExplosionSprite := ⟨⟨0, 0⟩, 0, 15⟩, m_iExplosionFrame := 0 }

/-- The state `Crate::Crate` leaves, for a given bitmap. -/
def Crate.new (sprite : Sprite) : Crate :=
  { m_pSprite := sprite, m_eSpeedState := ESpeedStates.SPEED_STOP, m_fTimer := 0,
    m_bExplosion := false, m_pExplosionSprite := ⟨⟨0, 0⟩, 0, 15⟩, m_iExplosionFrame := 0 }

/-- The state `Lives::Lives` leaves, for a given bitmap: 3 explosion frames. -/
def Lives.new (sprite : Sprite) : Lives :=
  { m_pSprite := sprite, m_eSpeedState := ESpeedStates.SPEED_STOP, m_fTimer := 0,
    m_bExplosion := false, m_pExplosionSprite := ⟨⟨0, 0⟩, 0, 3⟩, m_iExplosionFrame := 0 }

/-- A bullet sprite of extent `10 × 20` parked above the screen. -/
def parkedBullet : Sprite := spriteAt 0 (-500) 10 20

/-- A Player of extent `64 × 64` one unit left of the left bound `width/2 = 32`. -/
def playerLeftOfBound : CPlayer := CPlayer.new (spriteAt 31 400 64 64) parkedBullet parkedBullet

/-- The same Player drifting left with x velocity -50. -/
def playerDriftingLeft : CPlayer :=
  CPlayer.new ⟨⟨31, 400⟩, ⟨-50, 0⟩, 64, 64⟩ parkedBullet parkedBullet

/-- A Player of extent `64 × 64` in the middle of the screen, as `SetupGameState`
places it. -/
def playerMid : CPlayer := CPlayer.new (spriteAt 400 400 64 64) parkedBullet parkedBullet

/-- A Player2 of extent `64 × 64` at its start position. -/
def player2Mid : CPlayer2 := CPlayer2.new (spriteAt 100 400 64 64) parkedBullet parkedBullet

/-- An Enemy of extent `40 × 40` at its start position, its bullets parked
below the screen. -/
def enemyMid : Enemy :=
  Enemy.new (spriteAt 300 200 40 40) (spriteAt 0 1500 10 20) (spriteAt 0 1500 10 20)

/-- An Enemy of extent `40 × 40` at y = 250, below its bound `260 - 20`, moving
down with y velocity 7. -/
def enemyBelowBound : Enemy :=
  Enemy.new ⟨⟨300, 250⟩, ⟨0, 7⟩, 40, 40⟩ (spriteAt 0 1500 10 20) (spriteAt 0 1500 10 20)

/-- A crate of extent `64 × 64` at the first crate's start position. -/
def crateMid : Crate := Crate.new (spriteAt 200 100 64 64)

/-- A Lives pickup of extent `24 × 22` at its start position. -/
def heartMid : Lives := Lives.new (spriteAt 400 200 24 22)

/-- The game as `SetupGameState` leaves it (CGameApp.cpp 351-360), with `lives`,
`score` and `y` at their initial values of CGameApp.h, the window active and
no timer running. -/
def gameStart : CGameApp :=
  { m_bActive := true, m_pPlayer := playerMid, m_pPlayer2 := player2Mid,
    m_cCrate := crateMid, m_cCrate1 := Crate.new (spriteAt 600 50 64 64),
    m_pHeart := heartMid, m_pEnemy := enemyMid, lives := 10, score := 0, y := -600,
    timers := [] }

/-- The scenario of the spec: Player at (400, 400) of width 64 and the first
crate at (432, 400) of width 64. -/
def gameCrateScenario : CGameApp :=
  { gameStart with m_cCrate := Crate.new (spriteAt 432 400 64 64) }

/-- The same contact with the second crate instead: the first crate stays at its
start position (200, 100), the second is at (432, 400). -/
def gameSecondCrateScenario : CGameApp :=
  { gameStart with m_cCrate1 := Crate.new (spriteAt 432 400 64 64) }

/-- Both crates in contact with the Player at once: the first at (432, 400), the
second at (400, 432). -/
def gameBothCrates : CGameApp :=
  { gameCrateScenario with m_cCrate1 := Crate.new (spriteAt 400 432 64 64) }

/-- The scenario of the spec: the Player's first bullet of width 10 at (300, 100)
and the Enemy of width 40 at (305, 105). -/
def gameBulletScenario : CGameApp :=
  { gameStart with
    m_pPlayer := CPlayer.new (spriteAt 400 400 64 64) (spriteAt 300 100 10 20)
      (spriteAt 325 100 10 20),
    m_pEnemy := Enemy.new (spriteAt 305 105 40 40) (spriteAt 0 1500 10 20)
      (spriteAt 0 1500 10 20) }

/-- An Enemy of width 40 at (300, 200) and a Player of width 64 at (330, 240). -/
def gameEnemyContact : CGameApp :=
  { gameStart with
    m_pPlayer := CPlayer.new (spriteAt 330 240 64 64) parkedBullet parkedBullet }

/-- A Player whose bullets are in flight on screen, at (385, 200) and (410, 200). -/
def playerBulletsInFlight : CPlayer :=
  { CPlayer.new (spriteAt 400 400 64 64) ⟨⟨385, 200⟩, ⟨0, -1000⟩, 10, 20⟩
      ⟨⟨410, 200⟩, ⟨0, -1000⟩, 10, 20⟩ with m_bullet := true }

/-- An Enemy whose bullets are in flight on screen, at (285, 600) and (310, 600). -/
def enemyBulletsInFlight : Enemy :=
  { Enemy.new (spriteAt 300 200 40 40) ⟨⟨285, 600⟩, ⟨0, 1000⟩, 10, 20⟩
      ⟨⟨310, 600⟩, ⟨0, 1000⟩, 10, 20⟩ with m_bullet := true }

/-- A desktop rectangle of 1080 rows starting at row 0. -/
def desktop1080 : RECT := ⟨0, 1080⟩

/-- The Player at its start position five timer ticks into an explosion: the
explosion sprite stands at the position of the explosion and shows frame 4, the
frame counter is 5. -/
def playerMidExplosion : CPlayer :=
  { playerMid with m_bExplosion := true, m_iExplosionFrame := 5,
                   m_pExplosionSprite := ⟨⟨400, 400⟩, 4, 15⟩ }

/-- The game at its start with the Player five ticks into an explosion and
timer 1 running. -/
def gamePlayerMidExplosion : CGameApp :=
  { gameStart with m_pPlayer := playerMidExplosion, timers := [1] }

/-- The spec's crate scenario one pass later: the first crate at (432, 400) is
exploding and timer 1 is running. -/
def gameCrateExploding : CGameApp :=
  { gameCrateScenario with m_cCrate := (Crate.new (spriteAt 432 400 64 64)).Explode,
                           timers := [1] }

/-- An Enemy of width 40 at (300, 200) whose first bullet of width 10 is at
(330, 235), and a Player of width 64 at (330, 240): both the Enemy body and the
Enemy's bullet are in contact with the Player. -/
def gameEnemyBodyAndBullet : CGameApp :=
  { gameStart with
    m_pPlayer := CPlayer.new (spriteAt 330 240 64 64) parkedBullet parkedBullet,
    m_pEnemy := Enemy.new (spriteAt 300 200 40 40) (spriteAt 330 235 10 20)
      (spriteAt 355 235 10 20) }

/-- Player at (400, 400) and Player2 at (440, 400), both of width 64, in
contact. -/
def gamePlayersContact : CGameApp :=
  { gameStart with
    m_pPlayer2 := CPlayer2.new (spriteAt 440 400 64 64) parkedBullet parkedBullet }

/-- Player of width 64 at (400, 220) in contact with the Lives pickup of width
24 at (400, 200). -/
def gameHeartContact : CGameApp :=
  { gameStart with
    m_pPlayer := CPlayer.new (spriteAt 400 220 64 64) parkedBullet parkedBullet }

/-- The Player's first bullet of width 10 at (200, 110), in contact with the
first crate of width 64 at (200, 100). -/
def gameBulletOnCrate : CGameApp :=
  { gameStart with
    m_pPlayer := CPlayer.new (spriteAt 400 400 64 64) (spriteAt 200 110 10 20)
      (spriteAt 225 110 10 20) }

/-- The bullet scenario after the Enter key and one tick of timer 1: the Player
is one frame into its explosion and timer 1 is running. -/
def gameEnterOneTick : CGameApp :=
  { gameBulletScenario with
    m_pPlayer := { gameBulletScenario.m_pPlayer with
                   m_bExplosion := true, m_iExplosionFrame := 1,
                   m_pExplosionSprite := ⟨⟨400, 400⟩, 0, 15⟩ },
    timers := [1] }

/-- The same state after the collision pass in which the Player's bullet hits
the Enemy: the Enemy explodes, the score is 1 and timer 1 is still the only
timer. -/
def gameEnterEnemyHit : CGameApp :=
  { gameEnterOneTick with m_pEnemy := gameEnterOneTick.m_pEnemy.Explode, score := 1 }

/-- The events of the failing run: Enter, one tick of timer 1, a collision
pass, fourteen more ticks of timer 1. -/
def eventsEnterThenEnemyHit : List ControllerEvent :=
  [ControllerEvent.keyDown VK_RETURN desktop1080, ControllerEvent.timer 1,
    ControllerEvent.collisionPass] ++ List.replicate 14 (ControllerEvent.timer 1)

/-- The events of the run for the timers of the two players: Q (Player2
explodes on timer 2), Enter (Player explodes on timer 1), then seven rounds of
a tick of timer 1 followed by a tick of timer 2. -/
def eventsBothPlayersExploding : List ControllerEvent :=
  [ControllerEvent.keyDown VK_Q desktop1080, ControllerEvent.keyDown VK_RETURN desktop1080]
    ++ (List.replicate 7 [ControllerEvent.timer 1, ControllerEvent.timer 2]).flatten

/-- The game at its start with the window inactive. -/
def gameInactive : CGameApp := { gameStart with m_bActive := false }

/-- A frame in which the keyboard shows the left arrow held, `rand()` gives 1
and a fortieth of a second has passed. -/
def frameLeftArrow : FrameInput :=
  { keyboardState := true, pKeyBuffer := fun vk => if vk = VK_LEFT then 0x80 else 0,
    rand := 1, desktop := desktop1080, timeElapsed := 1 / 40,
    x1_axis := 0, y1_axis := 0, x2_axis := 0, y2_axis := 0,
    planeLeft := spriteAt 0 0 64 64, planeDown := spriteAt 0 0 64 64,
    planeRight := spriteAt 0 0 64 64, planeUp := spriteAt 0 0 64 64 }

/-- A sprite update that leaves the sprite where it is. -/
def spriteStill (s : Sprite) (_ : ℚ) : Sprite := s

/-- A Player at its start position flying right at 40 units per second. -/
def playerFast : CPlayer :=
  { playerMid with m_pSprite := { playerMid.m_pSprite with mVelocity := ⟨40, 0⟩ } }

/-- The game `g` with other second bullets and other bullet-visible flags for
the three entities that shoot. -/
def CGameApp.withSecondBullets (g : CGameApp) (b2P b2P2 b2E : Sprite) (fP fP2 fE : Bool) :
    CGameApp :=
  { g with
    m_pPlayer := { g.m_pPlayer with bullet2 := b2P, m_bullet := fP },
    m_pPlayer2 := { g.m_pPlayer2 with bullet2 := b2P2, m_bullet := fP2 },
    m_pEnemy := { g.m_pEnemy with bullet2 := b2E, m_bullet := fE } }

/-- The `switch (m_eSpeedState)` of `Update` as a function of the state before
and the velocity magnitude `v`. -/
def speedStateAfter (s : ESpeedStates) (v : SqrtQ) : ESpeedStates :=
  match s with
  | ESpeedStates.SPEED_STOP =>
    if v.gt 35 then ESpeedStates.SPEED_START else ESpeedStates.SPEED_STOP
  | ESpeedStates.SPEED_START =>
    if v.lt 25 then ESpeedStates.SPEED_STOP else ESpeedStates.SPEED_START

/-! ## Statement-level view of `Move`

Every `Move` is the same eight statements up to the acceleration constant `a`
and the lower screen bound `B`; `moveSprite` is that sequence, one function per
C++ statement, and each class's `Move` unfolds to it. -/

/-- `if (ulDirection & DIR_LEFT) mVelocity.x -= a;` -/
def stepLeft (a : ℚ) (ulDirection : Nat) (s : Sprite) : Sprite :=
  if dirSet ulDirection DIR_LEFT then
    { s with mVelocity := { s.mVelocity with x := s.mVelocity.x - a } } else s

/-- `if (mPosition.x < width() / 2) mVelocity.x = 0;` -/
def stepLowX (s : Sprite) : Sprite :=
  if s.mPosition.x < s.width / 2 then
    { s with mVelocity := { s.mVelocity with x := 0 } } else s

/-- `if (ulDirection & DIR_RIGHT) mVelocity.x += a;` -/
def stepRight (a : ℚ) (ulDirection : Nat) (s : Sprite) : Sprite :=
  if dirSet ulDirection DIR_RIGHT then
    { s with mVelocity := { s.mVelocity with x := s.mVelocity.x + a } } else s

/-- `if (mPosition.x > 780 - width() / 2) { mVelocity.x = 0; if (mVelocity.x == 0) mPosition.x--; }` -/
def stepHighX (s : Sprite) : Sprite :=
  if s.mPosition.x > 780 - s.width / 2 then
    let s := { s with mVelocity := { s.mVelocity with x := 0 } }
    if s.mVelocity.x = 0 then
      { s with mPosition := { s.mPosition with x := s.mPosition.x - 1 } } else s
  else s

/-- `if (ulDirection & DIR_FORWARD) mVelocity.y -= a;` -/
def stepForward (a : ℚ) (ulDirection : Nat) (s : Sprite) : Sprite :=
  if dirSet ulDirection DIR_FORWARD then
    { s with mVelocity := { s.mVelocity with y := s.mVelocity.y - a } } else s

/-- `if (mPosition.y < height() / 2) mVelocity.y = 0;` -/
def stepLowY (s : Sprite) : Sprite :=
  if s.mPosition.y < s.height / 2 then
    { s with mVelocity := { s.mVelocity with y := 0 } } else s

/-- `if (ulDirection & DIR_BACKWARD) mVelocity.y += a;` -/
def stepBackward (a : ℚ) (ulDirection : Nat) (s : Sprite) : Sprite :=
  if dirSet ulDirection DIR_BACKWARD then
    { s with mVelocity := { s.mVelocity with y := s.mVelocity.y + a } } else s

/-- `if (mPosition.y > B - height() / 2) { mVelocity.y = 0; if (mVelocity.y == 0) mPosition.y--; }` -/
def stepHighY (B : ℚ) (s : Sprite) : Sprite :=
  if s.mPosition.y > B - s.height / 2 then
    let s := { s with mVelocity := { s.mVelocity with y := 0 } }
    if s.mVelocity.y = 0 then
      { s with mPosition := { s.mPosition with y := s.mPosition.y - 1 } } else s
  else s

/-- The eight statements of a `Move` body in source order. -/
def moveSprite (a B : ℚ) (ulDirection : Nat) (s : Sprite) : Sprite :=
  stepHighY B (stepBackward a ulDirection (stepLowY (stepForward a ulDirection
    (stepHighX (stepRight a ulDirection (stepLowX (stepLeft a ulDirection s)))))))

/-! ## Explosion state machine: the members it touches

`Explode` and `AdvanceExplosion` have the same body in the five classes and
touch only the members collected in `ExplosionCore`. -/

/-- The members of an entity that `Explode` and `AdvanceExplosion` read or
write. -/
structure ExplosionCore where
  m_pSprite : Sprite
  m_eSpeedState : ESpeedStates
  m_bExplosion : Bool
  m_pExplosionSprite : AnimatedSprite
  m_iExplosionFrame : Int
deriving DecidableEq

/-- The body of `Explode` on these members. -/
def ExplosionCore.Explode (p : ExplosionCore) : ExplosionCore :=
  let p := { p with m_pExplosionSprite :=
    { p.m_pExplosionSprite with mPosition := p.m_pSprite.mPosition } }
  let p := { p with m_pExplosionSprite := p.m_pExplosionSprite.SetFrame 0 }
  { p with m_bExplosion := true }

/-- The body of `AdvanceExplosion` on these members. -/
def ExplosionCore.AdvanceExplosion (p : ExplosionCore) : Bool × ExplosionCore :=
  if p.m_bExplosion then
    let p := { p with
      m_pExplosionSprite := p.m_pExplosionSprite.SetFrame p.m_iExplosionFrame,
      m_iExplosionFrame := p.m_iExplosionFrame + 1 }
    if p.m_iExplosionFrame = p.m_pExplosionSprite.GetFrameCount then
      let p := { p with m_bExplosion := false }
      let p := { p with m_iExplosionFrame := 0 }
      let p := { p with m_pSprite := { p.m_pSprite with mVelocity := ⟨0, 0⟩ } }
      let p := { p with m_eSpeedState := ESpeedStates.SPEED_STOP }
      (false, p)
    else (true, p)
  else (true, p)

/-- `ifExploded` on these members. -/
def ExplosionCore.ifExploded (p : ExplosionCore) : Bool := p.m_bExplosion

/-- `Velocity` on these members. -/
def ExplosionCore.Velocity (p : ExplosionCore) : Vec2 := p.m_pSprite.mVelocity

/-- The explosion members of a `CPlayer`. -/
def CPlayer.core (p : CPlayer) : ExplosionCore :=
  ⟨p.m_pSprite, p.m_eSpeedState, p.m_bExplosion, p.m_pExplosionSprite, p.m_iExplosionFrame⟩

/-- The explosion members of a `CPlayer2`. -/
def CPlayer2.core (p : CPlayer2) : ExplosionCore :=
  ⟨p.m_pSprite, p.m_eSpeedState, p.m_bExplosion, p.m_pExplosionSprite, p.m_iExplosionFrame⟩

/-- The explosion members of a `Enemy`. -/
def Enemy.core (e : Enemy) : ExplosionCore :=
  ⟨e.m_pSprite, e.m_eSpeedState, e.m_bExplosion, e.m_pExplosionSprite, e.m_iExplosionFrame⟩

/-- The explosion members of a `Crate`. -/
def Crate.core (c : Crate) : ExplosionCore :=
  ⟨c.m_pSprite, c.m_eSpeedState, c.m_bExplosion, c.m_pExplosionSprite, c.m_iExplosionFrame⟩

/-- The explosion members of a `Lives`. -/
def Lives.core (l : Lives) : ExplosionCore :=
  ⟨l.m_pSprite, l.m_eSpeedState, l.m_bExplosion, l.m_pExplosionSprite, l.m_iExplosionFrame⟩

/-- The entity after `k` successive `AdvanceExplosion` calls. -/
def advanceTimes {α : Type} (advance : α → Bool × α) (k : Nat) (e : α) : α :=
  (fun q => (advance q).2)^[k] e

/-- One full explosion of an entity `e` with `N` frames: `ifExploded` holds right
after `Explode`; each of the first `N - 1` calls of `AdvanceExplosion` returns
true and leaves `ifExploded` true; the `N`-th call returns false, and after it
`ifExploded` is false and the velocity is `(0, 0)`. -/
def ExplosionCycle {α : Type} (explode : α → α) (advance : α → Bool × α)
    (ifExploded : α → Bool) (velocity : α → Vec2) (N : Nat) (e : α) : Prop :=
  ifExploded (explode e) = true ∧
  (∀ k : Nat, k + 1 < N →
    (advance (advanceTimes advance k (explode e))).1 = true ∧
    ifExploded (advance (advanceTimes advance k (explode e))).2 = true) ∧
  (advance (advanceTimes advance (N - 1) (explode e))).1 = false ∧
  ifExploded (advance (advanceTimes advance (N - 1) (explode e))).2 = false ∧
  velocity (advance (advanceTimes advance (N - 1) (explode e))).2 = ⟨0, 0⟩

/-- The claim on the explosion frame counter: the explosion sprite has `N`
frames and `0 <= m_iExplosionFrame <= N`. -/
def ExplosionCore.frameInRange (c : ExplosionCore) (N : Int) : Prop :=
  c.m_pExplosionSprite.GetFrameCount = N ∧ 0 ≤ c.m_iExplosionFrame ∧ c.m_iExplosionFrame ≤ N

/-- The invariant of the explosion members: the explosion sprite has `N` frames,
`0 <= m_iExplosionFrame < N`, and the counter is 0 whenever the entity is not
exploding. -/
def ExplosionCore.wellFormed (c : ExplosionCore) (N : Int) : Prop :=
  c.m_pExplosionSprite.GetFrameCount = N ∧ 0 ≤ c.m_iExplosionFrame ∧
  c.m_iExplosionFrame < N ∧ (c.m_bExplosion = false → c.m_iExplosionFrame = 0)

/-- The frame counter between calls: 0 whenever the entity is not exploding,
and always below the frame count of the explosion sprite, which is at least 1. -/
def ExplosionCore.counterRests (c : ExplosionCore) : Prop :=
  (c.ifExploded = false → c.m_iExplosionFrame = 0) ∧
  c.m_iExplosionFrame < c.m_pExplosionSprite.GetFrameCount ∧
  1 ≤ c.m_pExplosionSprite.GetFrameCount

/-- The explosion flag, the frame count of the explosion sprite and the frame
counter, which are all that `wellFormed` reads. -/
def ExplosionCore.animation (c : ExplosionCore) : Bool × Int × Int :=
  (c.m_bExplosion, c.m_pExplosionSprite.GetFrameCount, c.m_iExplosionFrame)

/-- An explosion of an entity `e` whose frame counter stands at `k` and whose
explosion sprite has `N` frames: after `Explode`, `ifExploded` holds, the
counter is still `k` and the explosion sprite shows frame 0; the next
`AdvanceExplosion` shows frame `k`; each of the first `N - k - 1` calls of
`AdvanceExplosion` returns true and leaves `ifExploded` true; call number
`N - k` returns false and leaves `ifExploded` false. -/
def ExplosionResumes {α : Type} (explode : α → α) (advance : α → Bool × α)
    (ifExploded : α → Bool) (counter : α → Int) (shownFrame : α → Int) (N k : Nat)
    (e : α) : Prop :=
  ifExploded (explode e) = true ∧
  counter (explode e) = k ∧
  shownFrame (explode e) = 0 ∧
  shownFrame (advance (explode e)).2 = k ∧
  (∀ j : Nat, j + 1 < N - k →
    (advance (advanceTimes advance j (explode e))).1 = true ∧
    ifExploded (advance (advanceTimes advance j (explode e))).2 = true) ∧
  (advance (advanceTimes advance (N - k - 1) (explode e))).1 = false ∧
  ifExploded (advance (advanceTimes advance (N - k - 1) (explode e))).2 = false

/-! ## What the collision pass observes

The six checks read only the hit tests between sprite positions (which no check
changes) and the explosion flags, and write only the explosion flags, `lives`
and `score` (and the timers and explosion sprites, which no check reads).
`PassView` collects these observations; the checks are restated on it and shown
below to agree with the checks on `CGameApp`. -/

/-- The nine hit tests of the pass, the six explosion flags, `lives` and
`score`. -/
structure PassView where
  hitPP2 : Bool
  hitPC : Bool
  hitPC1 : Bool
  hitBC : Bool
  hitBC1 : Bool
  hitBE : Bool
  hitEP : Bool
  hitEbP : Bool
  hitPL : Bool
  xPlayer : Bool
  xPlayer2 : Bool
  xCrate : Bool
  xCrate1 : Bool
  xEnemy : Bool
  xHeart : Bool
  lives : Int
  score : Int
deriving DecidableEq

/-- The observations of a game state. -/
def CGameApp.view (g : CGameApp) : PassView :=
  { hitPP2 := decide (hit g.m_pPlayer.Position g.m_pPlayer2.Position
      g.m_pPlayer.getWidth g.m_pPlayer2.getWidth),
    hitPC := decide (hit g.m_pPlayer.Position g.m_cCrate.Position
      g.m_pPlayer.getWidth g.m_cCrate.getWidth),
    hitPC1 := decide (hit g.m_pPlayer.Position g.m_cCrate1.Position
      g.m_pPlayer.getWidth g.m_cCrate1.getWidth),
    hitBC := decide (hit g.m_pPlayer.PositionBullet g.m_cCrate.Position
      g.m_pPlayer.getWidthBullet g.m_cCrate.getWidth),
    hitBC1 := decide (hit g.m_pPlayer.PositionBullet g.m_cCrate1.Position
      g.m_pPlayer.getWidthBullet g.m_cCrate1.getWidth),
    hitBE := decide (hit g.m_pPlayer.PositionBullet g.m_pEnemy.Position
      g.m_pPlayer.getWidthBullet g.m_pEnemy.getWidth),
    hitEP := decide (hit g.m_pEnemy.Position g.m_pPlayer.Position
      g.m_pEnemy.getWidth g.m_pPlayer.getWidth),
    hitEbP := decide (hit g.m_pEnemy.PositionBullet g.m_pPlayer.Position
      g.m_pEnemy.getWidthBullet g.m_pPlayer.getWidth),
    hitPL := decide (hit g.m_pPlayer.Position g.m_pHeart.Position
      g.m_pPlayer.getWidth g.m_pHeart.getWidth),
    xPlayer := g.m_pPlayer.ifExploded,
    xPlayer2 := g.m_pPlayer2.ifExploded,
    xCrate := g.m_cCrate.ifExploded,
    xCrate1 := g.m_cCrate1.ifExploded,
    xEnemy := g.m_pEnemy.ifExploded,
    xHeart := g.m_pHeart.ifExploded,
    lives := g.lives,
    score := g.score }

/-- `checkCollision` on the observations. -/
def PassView.checkCollision (v : PassView) : PassView :=
  if v.hitPP2 = true ∧ v.xPlayer = false ∧ v.xPlayer2 = false then
    { v with xPlayer := true, xPlayer2 := true }
  else v

/-- `checkCollisionC` on the observations. -/
def PassView.checkCollisionC (v : PassView) : Bool × PassView :=
  if v.hitPC = true ∧ v.xCrate = false then (true, { v with xCrate := true, xPlayer := true })
  else if v.hitPC1 = true ∧ v.xCrate1 = false then
    (true, { v with xCrate1 := true, xPlayer := true })
  else (false, v)

/-- `checkCollisionCB` on the observations. -/
def PassView.checkCollisionCB (v : PassView) : Bool × PassView :=
  if v.hitBC = true ∧ v.xCrate = false then (true, { v with xCrate := true })
  else if v.hitBC1 = true ∧ v.xCrate1 = false then (true, { v with xCrate1 := true })
  else (false, v)

/-- `checkCollisionPBE` on the observations. -/
def PassView.checkCollisionPBE (v : PassView) : Bool × PassView :=
  if v.hitBE = true ∧ v.xEnemy = false then (true, { v with xEnemy := true })
  else (false, v)

/-- `checkCollisionEBP` on the observations. -/
def PassView.checkCollisionEBP (v : PassView) : Bool × PassView :=
  if v.hitEP = true ∧ v.xPlayer = false then (true, { v with xPlayer := true })
  else if v.hitEbP = true ∧ v.xPlayer = false then (true, { v with xPlayer := true })
  else (false, v)

/-- `checkCollisionL` on the observations. -/
def PassView.checkCollisionL (v : PassView) : Bool × PassView :=
  if v.hitPL = true ∧ v.xHeart = false then (true, { v with xHeart := true })
  else (false, v)

/-- `stepC` on the observations. -/
def PassView.stepC (v : PassView) : PassView :=
  let r := v.checkCollisionC
  if r.1 = true then { r.2 with lives := r.2.lives - 1 } else r.2

/-- `stepCB` on the observations. -/
def PassView.stepCB (v : PassView) : PassView :=
  let r := v.checkCollisionCB
  if r.1 = true then { r.2 with score := r.2.score + 1 } else r.2

/-- `stepPBE` on the observations. -/
def PassView.stepPBE (v : PassView) : PassView :=
  let r := v.checkCollisionPBE
  if r.1 = true then { r.2 with score := r.2.score + 1 } else r.2

/-- `stepEBP` on the observations. -/
def PassView.stepEBP (v : PassView) : PassView :=
  let r := v.checkCollisionEBP
  if r.1 = true then { r.2 with lives := r.2.lives - 1 } else r.2

/-- `stepL` on the observations. -/
def PassView.stepL (v : PassView) : PassView :=
  let r := v.checkCollisionL
  if r.1 = true then { r.2 with lives := r.2.lives + 1 } else r.2

/-- `collisionPass` on the observations. -/
def PassView.collisionPass (v : PassView) : PassView :=
  let v := v.checkCollision
  let v := v.stepC
  let v := v.stepCB
  let v := v.stepPBE
  let v := v.stepEBP
  v.stepL

/-! ## Lemmas on `Move` -/

theorem CPlayer_Move_eq (p : CPlayer) (m : Nat) :
    p.Move m = { p with m_pSprite := moveSprite 3.1 560 m p.m_pSprite } := rfl

theorem CPlayer2_Move_eq (p : CPlayer2) (m : Nat) :
    p.Move m = { p with m_pSprite := moveSprite 5.1 560 m p.m_pSprite } := rfl

theorem Enemy_Move_eq (e : Enemy) (m : Nat) :
    e.Move m = { e with m_pSprite := moveSprite 0.1 260 m e.m_pSprite } := rfl

theorem Crate_Move_eq (c : Crate) (m : Nat) :
    c.Move m = { c with m_pSprite := moveSprite 0.2 560 m c.m_pSprite } := rfl

theorem Lives_Move_eq (l : Lives) (m : Nat) :
    l.Move m = { l with m_pSprite := moveSprite 0.2 560 m l.m_pSprite } := rfl

theorem stepLeft_eq (a : ℚ) (m : Nat) (s : Sprite) :
    stepLeft a m s = ⟨s.mPosition,
      ⟨if dirSet m DIR_LEFT then s.mVelocity.x - a else s.mVelocity.x, s.mVelocity.y⟩,
      s.width, s.height⟩ := by
  unfold stepLeft; split <;> rfl

theorem stepLowX_eq (s : Sprite) :
    stepLowX s = ⟨s.mPosition,
      ⟨if s.mPosition.x < s.width / 2 then 0 else s.mVelocity.x, s.mVelocity.y⟩,
      s.width, s.height⟩ := by
  unfold stepLowX; split <;> rfl

theorem stepRight_eq (a : ℚ) (m : Nat) (s : Sprite) :
    stepRight a m s = ⟨s.mPosition,
      ⟨if dirSet m DIR_RIGHT then s.mVelocity.x + a else s.mVelocity.x, s.mVelocity.y⟩,
      s.width, s.height⟩ := by
  unfold stepRight; split <;> rfl

theorem stepHighX_eq (s : Sprite) :
    stepHighX s = ⟨⟨if s.mPosition.x > 780 - s.width / 2 then s.mPosition.x - 1
        else s.mPosition.x, s.mPosition.y⟩,
      ⟨if s.mPosition.x > 780 - s.width / 2 then 0 else s.mVelocity.x, s.mVelocity.y⟩,
      s.width, s.height⟩ := by
  unfold stepHighX; split <;> simp

theorem stepForward_eq (a : ℚ) (m : Nat) (s : Sprite) :
    stepForward a m s = ⟨s.mPosition,
      ⟨s.mVelocity.x, if dirSet m DIR_FORWARD then s.mVelocity.y - a else s.mVelocity.y⟩,
      s.width, s.height⟩ := by
  unfold stepForward; split <;> rfl

theorem stepLowY_eq (s : Sprite) :
    stepLowY s = ⟨s.mPosition,
      ⟨s.mVelocity.x, if s.mPosition.y < s.height / 2 then 0 else s.mVelocity.y⟩,
      s.width, s.height⟩ := by
  unfold stepLowY; split <;> rfl

theorem stepBackward_eq (a : ℚ) (m : Nat) (s : Sprite) :
    stepBackward a m s = ⟨s.mPosition,
      ⟨s.mVelocity.x, if dirSet m DIR_BACKWARD then s.mVelocity.y + a else s.mVelocity.y⟩,
      s.width, s.height⟩ := by
  unfold stepBackward; split <;> rfl

theorem stepHighY_eq (B : ℚ) (s : Sprite) :
    stepHighY B s = ⟨⟨s.mPosition.x, if s.mPosition.y > B - s.height / 2 then s.mPosition.y - 1
        else s.mPosition.y⟩,
      ⟨s.mVelocity.x, if s.mPosition.y > B - s.height / 2 then 0 else s.mVelocity.y⟩,
      s.width, s.height⟩ := by
  unfold stepHighY; split <;> simp

/-- Closed form of the sprite after the eight statements of `Move`. -/
theorem moveSprite_eq (a B : ℚ) (m : Nat) (s : Sprite) :
    moveSprite a B m s =
      ⟨⟨if s.mPosition.x > 780 - s.width / 2 then s.mPosition.x - 1 else s.mPosition.x,
        if s.mPosition.y > B - s.height / 2 then s.mPosition.y - 1 else s.mPosition.y⟩,
       ⟨if s.mPosition.x > 780 - s.width / 2 then 0
          else (if s.mPosition.x < s.width / 2 then 0
            else (if dirSet m DIR_LEFT then s.mVelocity.x - a else s.mVelocity.x))
            + (if dirSet m DIR_RIGHT then a else 0),
        if s.mPosition.y > B - s.height / 2 then 0
          else (if s.mPosition.y < s.height / 2 then 0
            else (if dirSet m DIR_FORWARD then s.mVelocity.y - a else s.mVelocity.y))
            + (if dirSet m DIR_BACKWARD then a else 0)⟩,
       s.width, s.height⟩ := by
  simp only [moveSprite, stepLeft_eq, stepLowX_eq, stepRight_eq, stepHighX_eq,
    stepForward_eq, stepLowY_eq, stepBackward_eq, stepHighY_eq]
  congr 2
  · by_cases h : dirSet m DIR_RIGHT <;> simp [h]
  · by_cases h : dirSet m DIR_BACKWARD <;> simp [h]

theorem moveSprite_inBounds (a B : ℚ) (m : Nat) (s : Sprite) (h : s.inBounds B) :
    (moveSprite a B m s).inBounds B := by
  obtain ⟨h1, h2, h3, h4⟩ := h
  rw [moveSprite_eq]
  simp only [Sprite.inBounds, gt_iff_lt, not_lt.mpr h2, not_lt.mpr h4, if_false]
  exact ⟨h1, h2, h3, h4⟩

theorem moveSprite_pushedBack (a B : ℚ) (m : Nat) (s : Sprite) :
    Sprite.PushedBack B s (moveSprite a B m s) := by
  rw [moveSprite_eq]
  refine ⟨fun h => ?_, fun h => ?_, fun h => ?_, fun h => ?_⟩ <;> simp [h]

theorem moveSprite_stoppedLow (a B : ℚ) (m : Nat) (s : Sprite) :
    Sprite.StoppedLowThenPushed a B m s (moveSprite a B m s) := by
  rw [moveSprite_eq]
  refine ⟨fun h => ?_, fun h => ?_⟩ <;> simp [h, bitOf]

theorem dirSet_zero (d : Nat) : dirSet 0 d = false := by
  simp [dirSet]

theorem moveSprite_inside (a B : ℚ) (m : Nat) (s : Sprite) (h : s.inBounds B) :
    moveSprite a B m s =
      ⟨s.mPosition,
       ⟨s.mVelocity.x + a * (bitOf m DIR_RIGHT - bitOf m DIR_LEFT),
        s.mVelocity.y + a * (bitOf m DIR_BACKWARD - bitOf m DIR_FORWARD)⟩,
       s.width, s.height⟩ := by
  obtain ⟨h1, h2, h3, h4⟩ := h
  rw [moveSprite_eq]
  simp only [gt_iff_lt, not_lt.mpr h1, not_lt.mpr h2, not_lt.mpr h3, not_lt.mpr h4, if_false,
    bitOf]
  congr 2
  · split_ifs <;> ring
  · split_ifs <;> ring

theorem moveSprite_accelerated (a B : ℚ) (m : Nat) (s : Sprite) :
    Sprite.Accelerated a B m s (moveSprite a B m s) := by
  intro h
  rw [moveSprite_inside a B m s h]
  refine ⟨rfl, rfl, ?_, ?_, ?_⟩
  · rintro rfl
    simp [bitOf, dirSet_zero]
  · intro hl hr
    simp [bitOf, hl, hr]
  · intro hf hb
    simp [bitOf, hf, hb]

theorem moveSprite_zero (a B : ℚ) (s : Sprite) (h : s.inBounds B) : moveSprite a B 0 s = s :=
  (moveSprite_accelerated a B 0 s h).2.2.1 rfl

/-! ## Lemmas on the explosion state machine -/

theorem CPlayer_core_Explode (p : CPlayer) : p.Explode.core = p.core.Explode := rfl

theorem CPlayer_core_AdvanceExplosion (p : CPlayer) :
    (p.AdvanceExplosion.1, p.AdvanceExplosion.2.core) = p.core.AdvanceExplosion := by
  unfold CPlayer.AdvanceExplosion ExplosionCore.AdvanceExplosion
  simp only [CPlayer.core]
  split_ifs <;> rfl

theorem CPlayer2_core_Explode (p : CPlayer2) : p.Explode.core = p.core.Explode := rfl

theorem CPlayer2_core_AdvanceExplosion (p : CPlayer2) :
    (p.AdvanceExplosion.1, p.AdvanceExplosion.2.core) = p.core.AdvanceExplosion := by
  unfold CPlayer2.AdvanceExplosion ExplosionCore.AdvanceExplosion
  simp only [CPlayer2.core]
  split_ifs <;> rfl

theorem Enemy_core_Explode (e : Enemy) : e.Explode.core = e.core.Explode := rfl

theorem Enemy_core_AdvanceExplosion (e : Enemy) :
    (e.AdvanceExplosion.1, e.AdvanceExplosion.2.core) = e.core.AdvanceExplosion := by
  unfold Enemy.AdvanceExplosion ExplosionCore.AdvanceExplosion
  simp only [Enemy.core]
  split_ifs <;> rfl

theorem Crate_core_Explode (c : Crate) : c.Explode.core = c.core.Explode := rfl

theorem Crate_core_AdvanceExplosion (c : Crate) :
    (c.AdvanceExplosion.1, c.AdvanceExplosion.2.core) = c.core.AdvanceExplosion := by
  unfold Crate.AdvanceExplosion ExplosionCore.AdvanceExplosion
  simp only [Crate.core]
  split_ifs <;> rfl

theorem Lives_core_Explode (l : Lives) : l.Explode.core = l.core.Explode := rfl

theorem Lives_core_AdvanceExplosion (l : Lives) :
    (l.AdvanceExplosion.1, l.AdvanceExplosion.2.core) = l.core.AdvanceExplosion := by
  unfold Lives.AdvanceExplosion ExplosionCore.AdvanceExplosion
  simp only [Lives.core]
  split_ifs <;> rfl

theorem advanceTimes_succ {α : Type} (advance : α → Bool × α) (k : Nat) (e : α) :
    advanceTimes advance (k + 1) e = (advance (advanceTimes advance k e)).2 := by
  simp only [advanceTimes, Function.iterate_succ_apply']

/-- While the frame counter is below the last frame, each call continues. -/
theorem ExplosionCore.advanceTimes_exploding (N k : Nat) (p : ExplosionCore)
    (hx : p.m_bExplosion = true) (hf : p.m_iExplosionFrame = 0)
    (hc : p.m_pExplosionSprite.frameCount = N) (hk : k < N) :
    (advanceTimes ExplosionCore.AdvanceExplosion k p).m_bExplosion = true ∧
    (advanceTimes ExplosionCore.AdvanceExplosion k p).m_iExplosionFrame = k ∧
    (advanceTimes ExplosionCore.AdvanceExplosion k p).m_pExplosionSprite.frameCount = N := by
  induction k with
  | zero => exact ⟨hx, by simpa using hf, hc⟩
  | succ k ih =>
    obtain ⟨h1, h2, h3⟩ := ih (by omega)
    rw [advanceTimes_succ]
    generalize advanceTimes ExplosionCore.AdvanceExplosion k p = q at h1 h2 h3
    have hne : ¬ ((k : Int) + 1 = N) := by omega
    simp [ExplosionCore.AdvanceExplosion, h1, h2, h3, AnimatedSprite.GetFrameCount,
      AnimatedSprite.SetFrame, hne]

/-- The explosion cycle on the explosion members. -/
theorem ExplosionCore.cycle (N : Nat) (hN : 1 ≤ N) (p : ExplosionCore)
    (hf : p.m_iExplosionFrame = 0) (hc : p.m_pExplosionSprite.GetFrameCount = N) :
    ExplosionCycle ExplosionCore.Explode ExplosionCore.AdvanceExplosion
      ExplosionCore.ifExploded ExplosionCore.Velocity N p := by
  have hx : p.Explode.m_bExplosion = true := rfl
  have hf1 : p.Explode.m_iExplosionFrame = 0 := hf
  have hc1 : p.Explode.m_pExplosionSprite.frameCount = N := hc
  refine ⟨rfl, fun k hk => ?_, ?_⟩
  · have h := ExplosionCore.advanceTimes_exploding N (k + 1) p.Explode hx hf1 hc1 hk
    rw [advanceTimes_succ] at h
    have h0 := ExplosionCore.advanceTimes_exploding N k p.Explode hx hf1 hc1 (by omega)
    generalize advanceTimes ExplosionCore.AdvanceExplosion k p.Explode = q at h h0
    obtain ⟨h1, h2, h3⟩ := h0
    refine ⟨?_, h.1⟩
    have hne : ¬ ((k : Int) + 1 = N) := by omega
    simp [ExplosionCore.AdvanceExplosion, h1, h2, h3, AnimatedSprite.GetFrameCount,
      AnimatedSprite.SetFrame, hne]
  · obtain ⟨h1, h2, h3⟩ :=
      ExplosionCore.advanceTimes_exploding N (N - 1) p.Explode hx hf1 hc1 (by omega)
    generalize advanceTimes ExplosionCore.AdvanceExplosion (N - 1) p.Explode = q at h1 h2 h3
    have he : ((N - 1 : Nat) : Int) + 1 = N := by omega
    simp [ExplosionCore.AdvanceExplosion, h1, h2, h3, AnimatedSprite.GetFrameCount,
      AnimatedSprite.SetFrame, he, ExplosionCore.ifExploded, ExplosionCore.Velocity]

/-- An entity whose explosion members follow `ExplosionCore` inherits the cycle. -/
theorem ExplosionCycle_of_core {α : Type} (explode : α → α) (advance : α → Bool × α)
    (ifExploded : α → Bool) (velocity : α → Vec2) (core : α → ExplosionCore)
    (hE : ∀ e, core (explode e) = (core e).Explode)
    (hA : ∀ e, ((advance e).1, core (advance e).2) = (core e).AdvanceExplosion)
    (hX : ∀ e, ifExploded e = (core e).ifExploded)
    (hV : ∀ e, velocity e = (core e).Velocity) (N : Nat) (e : α)
    (h : ExplosionCycle ExplosionCore.Explode ExplosionCore.AdvanceExplosion
      ExplosionCore.ifExploded ExplosionCore.Velocity N (core e)) :
    ExplosionCycle explode advance ifExploded velocity N e := by
  have hA1 : ∀ e, (advance e).1 = ((core e).AdvanceExplosion).1 := fun e => by rw [← hA e]
  have hA2 : ∀ e, core (advance e).2 = ((core e).AdvanceExplosion).2 := fun e => by rw [← hA e]
  have hit : ∀ k q, core (advanceTimes advance k q)
      = advanceTimes ExplosionCore.AdvanceExplosion k (core q) := by
    intro k q
    induction k with
    | zero => rfl
    | succ k ih => rw [advanceTimes_succ, advanceTimes_succ, hA2, ih]
  obtain ⟨h1, h2, h3, h4, h5⟩ := h
  refine ⟨?_, fun k hk => ?_, ?_, ?_, ?_⟩
  · rw [hX, hE]; exact h1
  · rw [hA1, hX, hA2, hit, hE]; exact h2 k hk
  · rw [hA1, hit, hE]; exact h3
  · rw [hX, hA2, hit, hE]; exact h4
  · rw [hV, hA2, hit, hE]; exact h5

/-! ## Claims on `Move` -/

/-- C1, counterexample: a Player of width 64 standing at x = 31, left of the
bound `width/2 = 32`, is still at x = 31 after `Move(0)`: `Move` does not bring
a position that is outside the bounds back inside. -/
theorem C1_Move_does_not_clamp :
    ¬ (playerLeftOfBound.Move 0).m_pSprite.inBounds 560 := by
  rw [CPlayer_Move_eq]
  simp only [moveSprite_eq, Sprite.inBounds]
  norm_num [playerLeftOfBound, CPlayer.new, spriteAt]

/-- C1, amended: for every entity type and every direction mask, a sprite
whose position is within `width/2 <= x <= 780 - width/2` and
`height/2 <= y <= B - height/2` before `Move` is within the same bounds after
it, where `B = 560` (`B = 260` for `Enemy`). -/
theorem C1_Move_keeps_inBounds (m : Nat) (p : CPlayer) (p2 : CPlayer2) (e : Enemy)
    (c : Crate) (l : Lives) :
    (p.m_pSprite.inBounds 560 → (p.Move m).m_pSprite.inBounds 560) ∧
    (p2.m_pSprite.inBounds 560 → (p2.Move m).m_pSprite.inBounds 560) ∧
    (e.m_pSprite.inBounds 260 → (e.Move m).m_pSprite.inBounds 260) ∧
    (c.m_pSprite.inBounds 560 → (c.Move m).m_pSprite.inBounds 560) ∧
    (l.m_pSprite.inBounds 560 → (l.Move m).m_pSprite.inBounds 560) :=
  ⟨moveSprite_inBounds _ _ m _, moveSprite_inBounds _ _ m _, moveSprite_inBounds _ _ m _,
    moveSprite_inBounds _ _ m _, moveSprite_inBounds _ _ m _⟩

/-- C1, witness: the five entities at their start positions are inside their
bounds and stay inside under `Move(DIR_RIGHT)`. -/
theorem C1_Move_keeps_inBounds_witness :
    (playerMid.Move DIR_RIGHT).m_pSprite.inBounds 560 ∧
    (player2Mid.Move DIR_RIGHT).m_pSprite.inBounds 560 ∧
    (enemyMid.Move DIR_RIGHT).m_pSprite.inBounds 260 ∧
    (crateMid.Move DIR_RIGHT).m_pSprite.inBounds 560 ∧
    (heartMid.Move DIR_RIGHT).m_pSprite.inBounds 560 :=
  have h := C1_Move_keeps_inBounds DIR_RIGHT playerMid player2Mid enemyMid crateMid heartMid
  ⟨h.1 (by norm_num [Sprite.inBounds, playerMid, CPlayer.new, spriteAt]),
   h.2.1 (by norm_num [Sprite.inBounds, player2Mid, CPlayer2.new, spriteAt]),
   h.2.2.1 (by norm_num [Sprite.inBounds, enemyMid, Enemy.new, spriteAt]),
   h.2.2.2.1 (by norm_num [Sprite.inBounds, crateMid, Crate.new, spriteAt]),
   h.2.2.2.2 (by norm_num [Sprite.inBounds, heartMid, Lives.new, spriteAt])⟩

/-- C8, counterexample: a Player of width 64 at x = 31 (left of `width/2 = 32`)
that is moved with the Right bit set ends with x velocity 3.1, not 0: the
top/left rule runs before the Right delta is added. -/
theorem C8_low_rule_precedes_right_delta :
    ¬ Sprite.StoppedLow playerLeftOfBound.m_pSprite
      (playerLeftOfBound.Move DIR_RIGHT).m_pSprite := by
  rw [CPlayer_Move_eq]
  simp only [moveSprite_eq, Sprite.StoppedLow]
  norm_num [playerLeftOfBound, CPlayer.new, spriteAt,
    show dirSet DIR_RIGHT DIR_RIGHT = true by decide,
    show dirSet DIR_RIGHT DIR_LEFT = false by decide]

/-- C8, amended: for every entity type and every direction mask, if before
`Move` the x position is less than `width/2` then after `Move` the x velocity is
0 when the Right bit is clear and the acceleration constant `a` when it is set
(0 in any case if x also exceeds `780 - width/2`), and if the y position is less
than `height/2` then the y velocity is 0 when the Backward bit is clear and `a`
when it is set (0 in any case if y also exceeds `B - height/2`): the top/left
rule is applied after the Left/Forward delta and before the Right/Backward
delta. -/
theorem C8_Move_low_rule (m : Nat) (p : CPlayer) (p2 : CPlayer2) (e : Enemy)
    (c : Crate) (l : Lives) :
    Sprite.StoppedLowThenPushed 3.1 560 m p.m_pSprite (p.Move m).m_pSprite ∧
    Sprite.StoppedLowThenPushed 5.1 560 m p2.m_pSprite (p2.Move m).m_pSprite ∧
    Sprite.StoppedLowThenPushed 0.1 260 m e.m_pSprite (e.Move m).m_pSprite ∧
    Sprite.StoppedLowThenPushed 0.2 560 m c.m_pSprite (c.Move m).m_pSprite ∧
    Sprite.StoppedLowThenPushed 0.2 560 m l.m_pSprite (l.Move m).m_pSprite :=
  ⟨moveSprite_stoppedLow _ _ m _, moveSprite_stoppedLow _ _ m _, moveSprite_stoppedLow _ _ m _,
    moveSprite_stoppedLow _ _ m _, moveSprite_stoppedLow _ _ m _⟩

/-- C8, witness: the Player at x = 31 with an old x velocity of -50 has x
velocity 0 after `Move(DIR_LEFT)` and 3.1 after `Move(DIR_RIGHT)`. -/
theorem C8_Move_low_rule_witness :
    (playerDriftingLeft.Move DIR_LEFT).m_pSprite.mVelocity.x = 0 ∧
    (playerDriftingLeft.Move DIR_RIGHT).m_pSprite.mVelocity.x = 3.1 := by
  have hlow : playerDriftingLeft.m_pSprite.mPosition.x
      < playerDriftingLeft.m_pSprite.width / 2 := by
    norm_num [playerDriftingLeft, CPlayer.new]
  have hl : dirSet DIR_LEFT DIR_RIGHT = false := by decide
  have hr : dirSet DIR_RIGHT DIR_RIGHT = true := by decide
  constructor
  · rw [((C8_Move_low_rule DIR_LEFT playerDriftingLeft player2Mid enemyMid crateMid
      heartMid).1).1 hlow]
    norm_num [bitOf, hl, playerDriftingLeft, CPlayer.new]
  · rw [((C8_Move_low_rule DIR_RIGHT playerDriftingLeft player2Mid enemyMid crateMid
      heartMid).1).1 hlow]
    norm_num [bitOf, hr, playerDriftingLeft, CPlayer.new]

/-- C9: for every entity type and every direction mask, if before `Move`
`x > 780 - width/2` then after `Move` the x velocity is 0 and x has decreased by
exactly 1, otherwise x is unchanged; if before `Move` `y > B - height/2` then
after `Move` the y velocity is 0 and y has decreased by exactly 1, otherwise y
is unchanged, with `B = 260` for `Enemy` and `B = 560` for the other four. -/
theorem C9_Move_high_rule (m : Nat) (p : CPlayer) (p2 : CPlayer2) (e : Enemy)
    (c : Crate) (l : Lives) :
    Sprite.PushedBack 560 p.m_pSprite (p.Move m).m_pSprite ∧
    Sprite.PushedBack 560 p2.m_pSprite (p2.Move m).m_pSprite ∧
    Sprite.PushedBack 260 e.m_pSprite (e.Move m).m_pSprite ∧
    Sprite.PushedBack 560 c.m_pSprite (c.Move m).m_pSprite ∧
    Sprite.PushedBack 560 l.m_pSprite (l.Move m).m_pSprite :=
  ⟨moveSprite_pushedBack _ _ m _, moveSprite_pushedBack _ _ m _, moveSprite_pushedBack _ _ m _,
    moveSprite_pushedBack _ _ m _, moveSprite_pushedBack _ _ m _⟩

/-- C9, witness: an Enemy of height 40 at y = 250, below its bound
`260 - 20 = 240`, moving down with the Backward bit set, is at y = 249 with y
velocity 0 after `Move`, and its x = 300 is unchanged. -/
theorem C9_Move_high_rule_witness :
    (enemyBelowBound.Move DIR_BACKWARD).m_pSprite.mVelocity.y = 0 ∧
    (enemyBelowBound.Move DIR_BACKWARD).m_pSprite.mPosition.y = 249 ∧
    (enemyBelowBound.Move DIR_BACKWARD).m_pSprite.mPosition.x = 300 := by
  have h := (C9_Move_high_rule DIR_BACKWARD playerMid player2Mid enemyBelowBound crateMid
    heartMid).2.2.1
  have hy := h.2.2.1 (by norm_num [enemyBelowBound, Enemy.new])
  have hx := h.2.1 (by norm_num [enemyBelowBound, Enemy.new])
  refine ⟨hy.1, ?_, ?_⟩
  · rw [hy.2]; norm_num [enemyBelowBound, Enemy.new]
  · rw [hx]; rfl

/-- C10: for every entity type and every direction mask, a sprite inside all
four bounds keeps its position under `Move(mask)` and its velocity becomes the
old velocity plus `a * (right - left, backward - forward)`, each term being 1
if that bit is set in the mask and 0 otherwise, with `a = 3.1` for Player, `5.1`
for Player2, `0.1` for Enemy and `0.2` for Crate and Lives, in exact
arithmetic; in particular `Move(0)` returns the entity as it was and opposite
bits cancel. -/
theorem C10_Move_inside_accelerates (m : Nat) (p : CPlayer) (p2 : CPlayer2) (e : Enemy)
    (c : Crate) (l : Lives) :
    (Sprite.Accelerated 3.1 560 m p.m_pSprite (p.Move m).m_pSprite ∧
     Sprite.Accelerated 5.1 560 m p2.m_pSprite (p2.Move m).m_pSprite ∧
     Sprite.Accelerated 0.1 260 m e.m_pSprite (e.Move m).m_pSprite ∧
     Sprite.Accelerated 0.2 560 m c.m_pSprite (c.Move m).m_pSprite ∧
     Sprite.Accelerated 0.2 560 m l.m_pSprite (l.Move m).m_pSprite) ∧
    (p.m_pSprite.inBounds 560 → p.Move 0 = p) ∧
    (p2.m_pSprite.inBounds 560 → p2.Move 0 = p2) ∧
    (e.m_pSprite.inBounds 260 → e.Move 0 = e) ∧
    (c.m_pSprite.inBounds 560 → c.Move 0 = c) ∧
    (l.m_pSprite.inBounds 560 → l.Move 0 = l) := by
  refine ⟨⟨moveSprite_accelerated _ _ m _, moveSprite_accelerated _ _ m _,
    moveSprite_accelerated _ _ m _, moveSprite_accelerated _ _ m _,
    moveSprite_accelerated _ _ m _⟩, ?_, ?_, ?_, ?_, ?_⟩
  · intro h; rw [CPlayer_Move_eq, moveSprite_zero _ _ _ h]
  · intro h; rw [CPlayer2_Move_eq, moveSprite_zero _ _ _ h]
  · intro h; rw [Enemy_Move_eq, moveSprite_zero _ _ _ h]
  · intro h; rw [Crate_Move_eq, moveSprite_zero _ _ _ h]
  · intro h; rw [Lives_Move_eq, moveSprite_zero _ _ _ h]

/-- C10, witness: Player2 at its start position with velocity (0, 0) has
velocity (5.1, 0) after `Move(DIR_RIGHT)` and keeps velocity (0, 0) under
`Move(DIR_LEFT | DIR_RIGHT | DIR_FORWARD | DIR_BACKWARD)`; its position stays
(100, 400). -/
theorem C10_Move_inside_accelerates_witness :
    (player2Mid.Move DIR_RIGHT).m_pSprite.mPosition = ⟨100, 400⟩ ∧
    (player2Mid.Move DIR_RIGHT).m_pSprite.mVelocity = ⟨5.1, 0⟩ ∧
    (player2Mid.Move 15).m_pSprite.mVelocity = ⟨0, 0⟩ ∧
    player2Mid.Move 0 = player2Mid := by
  have hin : player2Mid.m_pSprite.inBounds 560 := by
    norm_num [Sprite.inBounds, player2Mid, CPlayer2.new, spriteAt]
  have h8 := (C10_Move_inside_accelerates DIR_RIGHT playerMid player2Mid enemyMid crateMid
    heartMid).1.2.1 hin
  have h15 := (C10_Move_inside_accelerates 15 playerMid player2Mid enemyMid crateMid
    heartMid).1.2.1 hin
  have h0 := (C10_Move_inside_accelerates 0 playerMid player2Mid enemyMid crateMid
    heartMid).2.2.1 hin
  refine ⟨h8.1, ?_, ?_, h0⟩
  · rw [h8.2.1]
    norm_num [bitOf, show dirSet DIR_RIGHT DIR_RIGHT = true by decide,
      show dirSet DIR_RIGHT DIR_LEFT = false by decide,
      show dirSet DIR_RIGHT DIR_BACKWARD = false by decide,
      show dirSet DIR_RIGHT DIR_FORWARD = false by decide, player2Mid, CPlayer2.new, spriteAt]
  · have hx := h15.2.2.2.1 (by decide) (by decide)
    have hy := h15.2.2.2.2 (by decide) (by decide)
    have hv : (player2Mid.Move 15).m_pSprite.mVelocity
        = ⟨(player2Mid.Move 15).m_pSprite.mVelocity.x,
           (player2Mid.Move 15).m_pSprite.mVelocity.y⟩ := rfl
    rw [hv, hx, hy]
    rfl

/-! ## Claims on the explosion state machine -/

/-- C2: for every entity that is idle (not exploding, explosion frame counter 0)
and whose explosion sprite has `N >= 1` frames: after `Explode()`,
`ifExploded()` is true; the first `N - 1` following `AdvanceExplosion()` calls
return true with `ifExploded()` still true; the `N`-th call returns false, and
after it `ifExploded()` is false and the sprite velocity is `(0, 0)`. -/
theorem C2_explosion_cycle (N : Nat) (hN : 1 ≤ N) (p : CPlayer) (p2 : CPlayer2) (e : Enemy)
    (c : Crate) (l : Lives) :
    (p.ifExploded = false → p.m_iExplosionFrame = 0 →
      p.m_pExplosionSprite.GetFrameCount = N →
      ExplosionCycle CPlayer.Explode CPlayer.AdvanceExplosion CPlayer.ifExploded
        CPlayer.Velocity N p) ∧
    (p2.ifExploded = false → p2.m_iExplosionFrame = 0 →
      p2.m_pExplosionSprite.GetFrameCount = N →
      ExplosionCycle CPlayer2.Explode CPlayer2.AdvanceExplosion CPlayer2.ifExploded
        CPlayer2.Velocity N p2) ∧
    (e.ifExploded = false → e.m_iExplosionFrame = 0 →
      e.m_pExplosionSprite.GetFrameCount = N →
      ExplosionCycle Enemy.Explode Enemy.AdvanceExplosion Enemy.ifExploded
        Enemy.Velocity N e) ∧
    (c.ifExploded = false → c.m_iExplosionFrame = 0 →
      c.m_pExplosionSprite.GetFrameCount = N →
      ExplosionCycle Crate.Explode Crate.AdvanceExplosion Crate.ifExploded
        Crate.Velocity N c) ∧
    (l.ifExploded = false → l.m_iExplosionFrame = 0 →
      l.m_pExplosionSprite.GetFrameCount = N →
      ExplosionCycle Lives.Explode Lives.AdvanceExplosion Lives.ifExploded
        Lives.Velocity N l) := by
  refine ⟨fun _ hf hc => ?_, fun _ hf hc => ?_, fun _ hf hc => ?_, fun _ hf hc => ?_,
    fun _ hf hc => ?_⟩
  · exact ExplosionCycle_of_core _ _ _ _ CPlayer.core CPlayer_core_Explode
      CPlayer_core_AdvanceExplosion (fun _ => rfl) (fun _ => rfl) N p
      (ExplosionCore.cycle N hN p.core hf hc)
  · exact ExplosionCycle_of_core _ _ _ _ CPlayer2.core CPlayer2_core_Explode
      CPlayer2_core_AdvanceExplosion (fun _ => rfl) (fun _ => rfl) N p2
      (ExplosionCore.cycle N hN p2.core hf hc)
  · exact ExplosionCycle_of_core _ _ _ _ Enemy.core Enemy_core_Explode
      Enemy_core_AdvanceExplosion (fun _ => rfl) (fun _ => rfl) N e
      (ExplosionCore.cycle N hN e.core hf hc)
  · exact ExplosionCycle_of_core _ _ _ _ Crate.core Crate_core_Explode
      Crate_core_AdvanceExplosion (fun _ => rfl) (fun _ => rfl) N c
      (ExplosionCore.cycle N hN c.core hf hc)
  · exact ExplosionCycle_of_core _ _ _ _ Lives.core Lives_core_Explode
      Lives_core_AdvanceExplosion (fun _ => rfl) (fun _ => rfl) N l
      (ExplosionCore.cycle N hN l.core hf hc)

/-- C2, witness: the freshly constructed Lives pickup runs the cycle with its 3
frames and the freshly constructed Player with its 15 frames. -/
theorem C2_explosion_cycle_witness :
    ExplosionCycle Lives.Explode Lives.AdvanceExplosion Lives.ifExploded Lives.Velocity 3
      heartMid ∧
    ExplosionCycle CPlayer.Explode CPlayer.AdvanceExplosion CPlayer.ifExploded
      CPlayer.Velocity 15 playerMid :=
  ⟨(C2_explosion_cycle 3 (by decide) playerMid player2Mid enemyMid crateMid heartMid).2.2.2.2
      rfl rfl rfl,
   (C2_explosion_cycle 15 (by decide) playerMid player2Mid enemyMid crateMid heartMid).1
      rfl rfl rfl⟩

/-! ## Claims on `Shoot` -/

theorem CPlayer_Shoot_inFlight (p : CPlayer) (desktop : RECT)
    (h : (desktop.top : ℚ) ≤ p.bullet.mPosition.y) :
    p.Shoot desktop =
      { p with bullet := p.bullet.relaunched (-1000), bullet2 := p.bullet2.relaunched (-1000),
               m_bullet := true } := by
  unfold CPlayer.Shoot
  rw [if_neg (not_lt.mpr h)]
  rfl

theorem CPlayer2_Shoot_inFlight (p : CPlayer2) (desktop : RECT)
    (h : (desktop.top : ℚ) ≤ p.bullet.mPosition.y) :
    p.Shoot desktop =
      { p with bullet := p.bullet.relaunched (-1000), bullet2 := p.bullet2.relaunched (-1000),
               m_bullet := true } := by
  unfold CPlayer2.Shoot
  rw [if_neg (not_lt.mpr h)]
  rfl

theorem Enemy_Shoot_inFlight (e : Enemy) (desktop : RECT)
    (h : e.bullet.mPosition.y ≤ (desktop.bottom : ℚ)) :
    e.Shoot desktop =
      { e with bullet := e.bullet.relaunched 1000, bullet2 := e.bullet2.relaunched 1000 } := by
  unfold Enemy.Shoot
  rw [if_neg (not_lt.mpr h)]
  rfl

/-- C6: for Player and Player2, if the first bullet's y is not above the top
edge (`bullet.y >= desktop.top`), `Shoot()` leaves the positions of both bullet
slots unchanged and sets, on the slots, only their vertical velocity, to -1000
(the entity's other members stay as they were, except that the bullets are
flagged visible); for Enemy the same holds with `bullet.y <= desktop.bottom`
and vertical velocity +1000 (and no other member changes). Hence after any
number `n` of repeated `Shoot()` calls the two bullet positions are what they
were. -/
theorem C6_Shoot_in_flight (desktop : RECT) (n : Nat) (p : CPlayer) (p2 : CPlayer2)
    (e : Enemy) :
    ((desktop.top : ℚ) ≤ p.bullet.mPosition.y →
      p.Shoot desktop =
        { p with bullet := p.bullet.relaunched (-1000),
                 bullet2 := p.bullet2.relaunched (-1000), m_bullet := true } ∧
      ((fun q => CPlayer.Shoot q desktop)^[n] p).bullet.mPosition = p.bullet.mPosition ∧
      ((fun q => CPlayer.Shoot q desktop)^[n] p).bullet2.mPosition = p.bullet2.mPosition) ∧
    ((desktop.top : ℚ) ≤ p2.bullet.mPosition.y →
      p2.Shoot desktop =
        { p2 with bullet := p2.bullet.relaunched (-1000),
                  bullet2 := p2.bullet2.relaunched (-1000), m_bullet := true } ∧
      ((fun q => CPlayer2.Shoot q desktop)^[n] p2).bullet.mPosition = p2.bullet.mPosition ∧
      ((fun q => CPlayer2.Shoot q desktop)^[n] p2).bullet2.mPosition = p2.bullet2.mPosition) ∧
    (e.bullet.mPosition.y ≤ (desktop.bottom : ℚ) →
      e.Shoot desktop =
        { e with bullet := e.bullet.relaunched 1000, bullet2 := e.bullet2.relaunched 1000 } ∧
      ((fun q => Enemy.Shoot q desktop)^[n] e).bullet.mPosition = e.bullet.mPosition ∧
      ((fun q => Enemy.Shoot q desktop)^[n] e).bullet2.mPosition = e.bullet2.mPosition) := by
  refine ⟨fun h => ⟨CPlayer_Shoot_inFlight p desktop h, ?_⟩,
    fun h => ⟨CPlayer2_Shoot_inFlight p2 desktop h, ?_⟩,
    fun h => ⟨Enemy_Shoot_inFlight e desktop h, ?_⟩⟩
  · induction n with
    | zero => exact ⟨rfl, rfl⟩
    | succ n ih =>
      rw [Function.iterate_succ_apply']
      generalize (fun q => CPlayer.Shoot q desktop)^[n] p = q at ih
      rw [CPlayer_Shoot_inFlight q desktop (by rw [ih.1]; exact h)]
      exact ih
  · induction n with
    | zero => exact ⟨rfl, rfl⟩
    | succ n ih =>
      rw [Function.iterate_succ_apply']
      generalize (fun q => CPlayer2.Shoot q desktop)^[n] p2 = q at ih
      rw [CPlayer2_Shoot_inFlight q desktop (by rw [ih.1]; exact h)]
      exact ih
  · induction n with
    | zero => exact ⟨rfl, rfl⟩
    | succ n ih =>
      rw [Function.iterate_succ_apply']
      generalize (fun q => Enemy.Shoot q desktop)^[n] e = q at ih
      rw [Enemy_Shoot_inFlight q desktop (by rw [ih.1]; exact h)]
      exact ih

/-- C6, witness: a Player whose first bullet is at y = 200 on a desktop with top
edge 0 keeps both bullets at (385, 200) and (410, 200) through 5 `Shoot()`
calls, and an Enemy whose first bullet is at y = 600 above the bottom edge 1080
keeps both bullets at (285, 600) and (310, 600). -/
theorem C6_Shoot_in_flight_witness :
    (((fun q => CPlayer.Shoot q desktop1080)^[5] playerBulletsInFlight).bullet.mPosition
      = ⟨385, 200⟩ ∧
     ((fun q => CPlayer.Shoot q desktop1080)^[5] playerBulletsInFlight).bullet2.mPosition
      = ⟨410, 200⟩) ∧
    (((fun q => Enemy.Shoot q desktop1080)^[5] enemyBulletsInFlight).bullet.mPosition
      = ⟨285, 600⟩ ∧
     ((fun q => Enemy.Shoot q desktop1080)^[5] enemyBulletsInFlight).bullet2.mPosition
      = ⟨310, 600⟩) :=
  ⟨((C6_Shoot_in_flight desktop1080 5 playerBulletsInFlight player2Mid enemyBulletsInFlight).1
    (by norm_num [playerBulletsInFlight, CPlayer.new, desktop1080])).2,
   ((C6_Shoot_in_flight desktop1080 5 playerBulletsInFlight player2Mid
    enemyBulletsInFlight).2.2
    (by norm_num [enemyBulletsInFlight, Enemy.new, desktop1080])).2⟩

/-- C7: when the first bullet is off screen (`y < desktop.top` for Player and
Player2, `y > desktop.bottom` for Enemy), `Shoot()` places slot 1 at
`(x - 15, y - 30)` and slot 2 at `(x + 10, y - 30)` relative to the entity
position `(x, y)` for the players, and at `(x - 15, y + 35)` and
`(x + 10, y + 35)` for the Enemy, and flags the bullets visible; in every case,
on or off screen, both slots' vertical velocity afterwards is -1000 for the
players and +1000 for the Enemy. -/
theorem C7_Shoot_off_screen (desktop : RECT) (p : CPlayer) (p2 : CPlayer2) (e : Enemy) :
    (p.bullet.mPosition.y < (desktop.top : ℚ) →
      (p.Shoot desktop).bullet.mPosition
        = ⟨p.m_pSprite.mPosition.x - 15, p.m_pSprite.mPosition.y - 30⟩ ∧
      (p.Shoot desktop).bullet2.mPosition
        = ⟨p.m_pSprite.mPosition.x + 10, p.m_pSprite.mPosition.y - 30⟩ ∧
      (p.Shoot desktop).m_bullet = true) ∧
    (p2.bullet.mPosition.y < (desktop.top : ℚ) →
      (p2.Shoot desktop).bullet.mPosition
        = ⟨p2.m_pSprite.mPosition.x - 15, p2.m_pSprite.mPosition.y - 30⟩ ∧
      (p2.Shoot desktop).bullet2.mPosition
        = ⟨p2.m_pSprite.mPosition.x + 10, p2.m_pSprite.mPosition.y - 30⟩ ∧
      (p2.Shoot desktop).m_bullet = true) ∧
    (e.bullet.mPosition.y > (desktop.bottom : ℚ) →
      (e.Shoot desktop).bullet.mPosition
        = ⟨e.m_pSprite.mPosition.x - 15, e.m_pSprite.mPosition.y + 35⟩ ∧
      (e.Shoot desktop).bullet2.mPosition
        = ⟨e.m_pSprite.mPosition.x + 10, e.m_pSprite.mPosition.y + 35⟩ ∧
      (e.Shoot desktop).m_bullet = true) ∧
    ((p.Shoot desktop).bullet.mVelocity.y = -1000 ∧
      (p.Shoot desktop).bullet2.mVelocity.y = -1000) ∧
    ((p2.Shoot desktop).bullet.mVelocity.y = -1000 ∧
      (p2.Shoot desktop).bullet2.mVelocity.y = -1000) ∧
    ((e.Shoot desktop).bullet.mVelocity.y = 1000 ∧
      (e.Shoot desktop).bullet2.mVelocity.y = 1000) := by
  refine ⟨fun h => ?_, fun h => ?_, fun h => ?_, ⟨rfl, rfl⟩, ⟨rfl, rfl⟩, ⟨rfl, rfl⟩⟩
  · unfold CPlayer.Shoot
    rw [if_pos h]
    exact ⟨rfl, rfl, rfl⟩
  · unfold CPlayer2.Shoot
    rw [if_pos h]
    exact ⟨rfl, rfl, rfl⟩
  · unfold Enemy.Shoot
    rw [if_pos h]
    exact ⟨rfl, rfl, rfl⟩

/-- C7, witness: the Player at (400, 400) with its bullets parked at y = -500,
above the top edge 0, fires them from (385, 370) and (410, 370); the Enemy at
(300, 200) with its bullets parked at y = 1500, below the bottom edge 1080,
fires them from (285, 235) and (310, 235). -/
theorem C7_Shoot_off_screen_witness :
    (playerMid.Shoot desktop1080).bullet.mPosition = ⟨385, 370⟩ ∧
    (playerMid.Shoot desktop1080).bullet2.mPosition = ⟨410, 370⟩ ∧
    (playerMid.Shoot desktop1080).m_bullet = true ∧
    (enemyMid.Shoot desktop1080).bullet.mPosition = ⟨285, 235⟩ ∧
    (enemyMid.Shoot desktop1080).bullet2.mPosition = ⟨310, 235⟩ ∧
    (enemyMid.Shoot desktop1080).m_bullet = true := by
  have h := C7_Shoot_off_screen desktop1080 playerMid player2Mid enemyMid
  have hp := h.1 (by norm_num [playerMid, CPlayer.new, parkedBullet, spriteAt, desktop1080])
  have he := h.2.2.1 (by norm_num [enemyMid, Enemy.new, spriteAt, desktop1080])
  refine ⟨?_, ?_, hp.2.2, ?_, ?_, he.2.2⟩
  · rw [hp.1]; norm_num [playerMid, CPlayer.new, spriteAt]
  · rw [hp.2.1]; norm_num [playerMid, CPlayer.new, spriteAt]
  · rw [he.1]; norm_num [enemyMid, Enemy.new, spriteAt]
  · rw [he.2.1]; norm_num [enemyMid, Enemy.new, spriteAt]

/-! ## Claims on the hit test -/

/-- The symbolic comparison agrees with the comparison of the real square
root: `√r <= t` over the reals iff `SqrtQ.le`. -/
theorem SqrtQ.le_iff_real_sqrt (d : SqrtQ) (t : ℚ) :
    d.le t ↔ Real.sqrt (d.radicand : ℝ) ≤ (t : ℝ) := by
  rw [Real.sqrt_le_iff, SqrtQ.le, pow_two]
  constructor
  · rintro ⟨h1, h2⟩
    exact ⟨by exact_mod_cast h1, by exact_mod_cast h2⟩
  · rintro ⟨h1, h2⟩
    exact ⟨by exact_mod_cast h1, by exact_mod_cast h2⟩

theorem Vec2.Distance_comm (a b : Vec2) : a.Distance b = b.Distance a := by
  simp only [Vec2.Distance, SqrtQ.mk.injEq]
  ring

theorem hit_comm (a b : Vec2) (wa wb : ℚ) : hit a b wa wb ↔ hit b a wb wa := by
  unfold hit
  rw [Vec2.Distance_comm a b, add_comm wa wb]

/-- C5: the distance is symmetric, `distance(A, B) = distance(B, A)`, and so is
the hit test `distance(posA, posB) <= (widthA + widthB) / 2`; in particular the
Enemy-body-against-Player test of `checkCollisionEBP` fires exactly as it would
with the two entities swapped: whenever the swapped test holds and the Player is
not exploding, `checkCollisionEBP` returns true and the Player explodes. -/
theorem C5_hit_symmetric (a b : Vec2) (wa wb : ℚ) (g : CGameApp) :
    a.Distance b = b.Distance a ∧
    (hit a b wa wb ↔ hit b a wb wa) ∧
    (hit g.m_pEnemy.Position g.m_pPlayer.Position g.m_pEnemy.getWidth g.m_pPlayer.getWidth ↔
      hit g.m_pPlayer.Position g.m_pEnemy.Position g.m_pPlayer.getWidth g.m_pEnemy.getWidth) ∧
    (hit g.m_pPlayer.Position g.m_pEnemy.Position g.m_pPlayer.getWidth g.m_pEnemy.getWidth →
      g.m_pPlayer.ifExploded = false →
      g.checkCollisionEBP.1 = true ∧ g.checkCollisionEBP.2.m_pPlayer.ifExploded = true) := by
  refine ⟨Vec2.Distance_comm a b, hit_comm a b wa wb, hit_comm _ _ _ _, fun h hx => ?_⟩
  have h1 : (g.m_pEnemy.Position.Distance g.m_pPlayer.Position).le
      ((g.m_pEnemy.getWidth + g.m_pPlayer.getWidth) / 2) ∧ g.m_pPlayer.ifExploded = false :=
    ⟨(hit_comm _ _ _ _).mp h, hx⟩
  unfold CGameApp.checkCollisionEBP
  rw [if_pos h1]
  exact ⟨rfl, rfl⟩

/-- C5, witness: an Enemy of width 40 at (300, 200) and a Player of width 64 at
(330, 240) are at squared distance 2500 <= 52² either way round, and
`checkCollisionEBP` fires. -/
theorem C5_hit_symmetric_witness :
    gameEnemyContact.checkCollisionEBP.1 = true ∧
    gameEnemyContact.checkCollisionEBP.2.m_pPlayer.ifExploded = true := by
  refine (C5_hit_symmetric ⟨0, 0⟩ ⟨0, 0⟩ 0 0 gameEnemyContact).2.2.2 ?_ rfl
  norm_num [hit, SqrtQ.le, Vec2.Distance, gameEnemyContact, gameStart, CPlayer.Position,
    Enemy.Position, CPlayer.getWidth, Enemy.getWidth, CPlayer.new, enemyMid, Enemy.new, spriteAt]

/-! ## The checks on `CGameApp` agree with the checks on the observations -/

theorem CGameApp_view_checkCollision (g : CGameApp) :
    g.checkCollision.view = g.view.checkCollision := by
  unfold CGameApp.checkCollision PassView.checkCollision
  by_cases h : (g.m_pPlayer.Position.Distance g.m_pPlayer2.Position).le
      ((g.m_pPlayer.getWidth + g.m_pPlayer2.getWidth) / 2)
      ∧ g.m_pPlayer.ifExploded = false ∧ g.m_pPlayer2.ifExploded = false
  · have h2 : g.view.hitPP2 = true ∧ g.view.xPlayer = false ∧ g.view.xPlayer2 = false := by
      simpa [CGameApp.view, hit] using h
    rw [if_pos h, if_pos h2]
    rfl
  · have h2 : ¬ (g.view.hitPP2 = true ∧ g.view.xPlayer = false ∧ g.view.xPlayer2 = false) := by
      simpa [CGameApp.view, hit] using h
    rw [if_neg h, if_neg h2]

theorem CGameApp_view_checkCollisionC (g : CGameApp) :
    (g.checkCollisionC.1, g.checkCollisionC.2.view) = g.view.checkCollisionC := by
  unfold CGameApp.checkCollisionC PassView.checkCollisionC
  by_cases h0 : (g.m_pPlayer.Position.Distance g.m_cCrate.Position).le
      ((g.m_pPlayer.getWidth + g.m_cCrate.getWidth) / 2) ∧ g.m_cCrate.ifExploded = false
  · have h0v : g.view.hitPC = true ∧ g.view.xCrate = false := by
      simpa [CGameApp.view, hit] using h0
    rw [if_pos h0, if_pos h0v]
    rfl
  · have h0v : ¬ (g.view.hitPC = true ∧ g.view.xCrate = false) := by
      simpa [CGameApp.view, hit] using h0
    rw [if_neg h0, if_neg h0v]
    by_cases h1 : (g.m_pPlayer.Position.Distance g.m_cCrate1.Position).le
      ((g.m_pPlayer.getWidth + g.m_cCrate1.getWidth) / 2) ∧ g.m_cCrate1.ifExploded = false
    · have h1v : g.view.hitPC1 = true ∧ g.view.xCrate1 = false := by
        simpa [CGameApp.view, hit] using h1
      rw [if_pos h1, if_pos h1v]
      rfl
    · have h1v : ¬ (g.view.hitPC1 = true ∧ g.view.xCrate1 = false) := by
        simpa [CGameApp.view, hit] using h1
      rw [if_neg h1, if_neg h1v]

theorem CGameApp_view_checkCollisionCB (g : CGameApp) :
    (g.checkCollisionCB.1, g.checkCollisionCB.2.view) = g.view.checkCollisionCB := by
  unfold CGameApp.checkCollisionCB PassView.checkCollisionCB
  by_cases h0 : (g.m_pPlayer.PositionBullet.Distance g.m_cCrate.Position).le
      ((g.m_pPlayer.getWidthBullet + g.m_cCrate.getWidth) / 2) ∧ g.m_cCrate.ifExploded = false
  · have h0v : g.view.hitBC = true ∧ g.view.xCrate = false := by
      simpa [CGameApp.view, hit] using h0
    rw [if_pos h0, if_pos h0v]
    rfl
  · have h0v : ¬ (g.view.hitBC = true ∧ g.view.xCrate = false) := by
      simpa [CGameApp.view, hit] using h0
    rw [if_neg h0, if_neg h0v]
    by_cases h1 : (g.m_pPlayer.PositionBullet.Distance g.m_cCrate1.Position).le
      ((g.m_pPlayer.getWidthBullet + g.m_cCrate1.getWidth) / 2) ∧ g.m_cCrate1.ifExploded = false
    · have h1v : g.view.hitBC1 = true ∧ g.view.xCrate1 = false := by
        simpa [CGameApp.view, hit] using h1
      rw [if_pos h1, if_pos h1v]
      rfl
    · have h1v : ¬ (g.view.hitBC1 = true ∧ g.view.xCrate1 = false) := by
        simpa [CGameApp.view, hit] using h1
      rw [if_neg h1, if_neg h1v]

theorem CGameApp_view_checkCollisionPBE (g : CGameApp) :
    (g.checkCollisionPBE.1, g.checkCollisionPBE.2.view) = g.view.checkCollisionPBE := by
  unfold CGameApp.checkCollisionPBE PassView.checkCollisionPBE
  by_cases h0 : (g.m_pPlayer.PositionBullet.Distance g.m_pEnemy.Position).le
      ((g.m_pPlayer.getWidthBullet + g.m_pEnemy.getWidth) / 2) ∧ g.m_pEnemy.ifExploded = false
  · have h0v : g.view.hitBE = true ∧ g.view.xEnemy = false := by
      simpa [CGameApp.view, hit] using h0
    rw [if_pos h0, if_pos h0v]
    rfl
  · have h0v : ¬ (g.view.hitBE = true ∧ g.view.xEnemy = false) := by
      simpa [CGameApp.view, hit] using h0
    rw [if_neg h0, if_neg h0v]

theorem CGameApp_view_checkCollisionEBP (g : CGameApp) :
    (g.checkCollisionEBP.1, g.checkCollisionEBP.2.view) = g.view.checkCollisionEBP := by
  unfold CGameApp.checkCollisionEBP PassView.checkCollisionEBP
  by_cases h0 : (g.m_pEnemy.Position.Distance g.m_pPlayer.Position).le
      ((g.m_pEnemy.getWidth + g.m_pPlayer.getWidth) / 2) ∧ g.m_pPlayer.ifExploded = false
  · have h0v : g.view.hitEP = true ∧ g.view.xPlayer = false := by
      simpa [CGameApp.view, hit] using h0
    rw [if_pos h0, if_pos h0v]
    rfl
  · have h0v : ¬ (g.view.hitEP = true ∧ g.view.xPlayer = false) := by
      simpa [CGameApp.view, hit] using h0
    rw [if_neg h0, if_neg h0v]
    by_cases h1 : (g.m_pEnemy.PositionBullet.Distance g.m_pPlayer.Position).le
      ((g.m_pEnemy.getWidthBullet + g.m_pPlayer.getWidth) / 2) ∧ g.m_pPlayer.ifExploded = false
    · have h1v : g.view.hitEbP = true ∧ g.view.xPlayer = false := by
        simpa [CGameApp.view, hit] using h1
      rw [if_pos h1, if_pos h1v]
      rfl
    · have h1v : ¬ (g.view.hitEbP = true ∧ g.view.xPlayer = false) := by
        simpa [CGameApp.view, hit] using h1
      rw [if_neg h1, if_neg h1v]

theorem CGameApp_view_checkCollisionL (g : CGameApp) :
    (g.checkCollisionL.1, g.checkCollisionL.2.view) = g.view.checkCollisionL := by
  unfold CGameApp.checkCollisionL PassView.checkCollisionL
  by_cases h0 : (g.m_pPlayer.Position.Distance g.m_pHeart.Position).le
      ((g.m_pPlayer.getWidth + g.m_pHeart.getWidth) / 2) ∧ g.m_pHeart.ifExploded = false
  · have h0v : g.view.hitPL = true ∧ g.view.xHeart = false := by
      simpa [CGameApp.view, hit] using h0
    rw [if_pos h0, if_pos h0v]
    rfl
  · have h0v : ¬ (g.view.hitPL = true ∧ g.view.xHeart = false) := by
      simpa [CGameApp.view, hit] using h0
    rw [if_neg h0, if_neg h0v]

theorem CGameApp_view_stepC (g : CGameApp) : g.stepC.view = g.view.stepC := by
  have h := CGameApp_view_checkCollisionC g
  have h1 : g.checkCollisionC.1 = g.view.checkCollisionC.1 := by rw [← h]
  have h2 : g.checkCollisionC.2.view = g.view.checkCollisionC.2 := by rw [← h]
  unfold CGameApp.stepC PassView.stepC
  simp only [← h1, ← h2]
  split <;> rfl

theorem CGameApp_view_stepCB (g : CGameApp) : g.stepCB.view = g.view.stepCB := by
  have h := CGameApp_view_checkCollisionCB g
  have h1 : g.checkCollisionCB.1 = g.view.checkCollisionCB.1 := by rw [← h]
  have h2 : g.checkCollisionCB.2.view = g.view.checkCollisionCB.2 := by rw [← h]
  unfold CGameApp.stepCB PassView.stepCB
  simp only [← h1, ← h2]
  split <;> rfl

theorem CGameApp_view_stepPBE (g : CGameApp) : g.stepPBE.view = g.view.stepPBE := by
  have h := CGameApp_view_checkCollisionPBE g
  have h1 : g.checkCollisionPBE.1 = g.view.checkCollisionPBE.1 := by rw [← h]
  have h2 : g.checkCollisionPBE.2.view = g.view.checkCollisionPBE.2 := by rw [← h]
  unfold CGameApp.stepPBE PassView.stepPBE
  simp only [← h1, ← h2]
  split <;> rfl

theorem CGameApp_view_stepEBP (g : CGameApp) : g.stepEBP.view = g.view.stepEBP := by
  have h := CGameApp_view_checkCollisionEBP g
  have h1 : g.checkCollisionEBP.1 = g.view.checkCollisionEBP.1 := by rw [← h]
  have h2 : g.checkCollisionEBP.2.view = g.view.checkCollisionEBP.2 := by rw [← h]
  unfold CGameApp.stepEBP PassView.stepEBP
  simp only [← h1, ← h2]
  split <;> rfl

theorem CGameApp_view_stepL (g : CGameApp) : g.stepL.view = g.view.stepL := by
  have h := CGameApp_view_checkCollisionL g
  have h1 : g.checkCollisionL.1 = g.view.checkCollisionL.1 := by rw [← h]
  have h2 : g.checkCollisionL.2.view = g.view.checkCollisionL.2 := by rw [← h]
  unfold CGameApp.stepL PassView.stepL
  simp only [← h1, ← h2]
  split <;> rfl

/-- The collision pass on `CGameApp` is observed as the collision pass on the
observations. -/
theorem CGameApp_view_collisionPass (g : CGameApp) :
    g.collisionPass.view = g.view.collisionPass := by
  unfold CGameApp.collisionPass PassView.collisionPass
  simp only [CGameApp_view_stepL, CGameApp_view_stepEBP, CGameApp_view_stepPBE,
    CGameApp_view_stepCB, CGameApp_view_stepC, CGameApp_view_checkCollision]

/-! ## The collision pass on the observations, in closed form -/

theorem PassView.checkCollision_eq (v : PassView) :
    v.checkCollision =
      { v with
        xPlayer := v.xPlayer || (v.hitPP2 && !v.xPlayer && !v.xPlayer2),
        xPlayer2 := v.xPlayer2 || (v.hitPP2 && !v.xPlayer && !v.xPlayer2) } := by
  obtain ⟨hitPP2, _, _, _, _, _, _, _, _, xPlayer, xPlayer2, _, _, _, _, _, _⟩ := v
  cases hitPP2 <;> cases xPlayer <;> cases xPlayer2 <;> simp [PassView.checkCollision]

theorem PassView.stepC_eq (v : PassView) :
    v.stepC =
      { v with
        xCrate := v.xCrate || (v.hitPC && !v.xCrate),
        xCrate1 := v.xCrate1 || (!(v.hitPC && !v.xCrate) && v.hitPC1 && !v.xCrate1),
        xPlayer := v.xPlayer || (v.hitPC && !v.xCrate) || (v.hitPC1 && !v.xCrate1),
        lives := v.lives -
          if (v.hitPC && !v.xCrate) || (v.hitPC1 && !v.xCrate1) then 1 else 0 } := by
  obtain ⟨_, hitPC, hitPC1, _, _, _, _, _, _, xPlayer, _, xCrate, xCrate1, _, _, _, _⟩ := v
  cases hitPC <;> cases xCrate <;> cases hitPC1 <;> cases xCrate1 <;>
    simp [PassView.stepC, PassView.checkCollisionC]

theorem PassView.stepCB_eq (v : PassView) :
    v.stepCB =
      { v with
        xCrate := v.xCrate || (v.hitBC && !v.xCrate),
        xCrate1 := v.xCrate1 || (!(v.hitBC && !v.xCrate) && v.hitBC1 && !v.xCrate1),
        score := v.score +
          if (v.hitBC && !v.xCrate) || (v.hitBC1 && !v.xCrate1) then 1 else 0 } := by
  obtain ⟨_, _, _, hitBC, hitBC1, _, _, _, _, _, _, xCrate, xCrate1, _, _, _, _⟩ := v
  cases hitBC <;> cases xCrate <;> cases hitBC1 <;> cases xCrate1 <;>
    simp [PassView.stepCB, PassView.checkCollisionCB]

theorem PassView.stepPBE_eq (v : PassView) :
    v.stepPBE =
      { v with
        xEnemy := v.xEnemy || (v.hitBE && !v.xEnemy),
        score := v.score + if v.hitBE && !v.xEnemy then 1 else 0 } := by
  obtain ⟨_, _, _, _, _, hitBE, _, _, _, _, _, _, _, xEnemy, _, _, _⟩ := v
  cases hitBE <;> cases xEnemy <;> simp [PassView.stepPBE, PassView.checkCollisionPBE]

theorem PassView.stepEBP_eq (v : PassView) :
    v.stepEBP =
      { v with
        xPlayer := v.xPlayer || ((v.hitEP || v.hitEbP) && !v.xPlayer),
        lives := v.lives - if (v.hitEP || v.hitEbP) && !v.xPlayer then 1 else 0 } := by
  obtain ⟨_, _, _, _, _, _, hitEP, hitEbP, _, xPlayer, _, _, _, _, _, _, _⟩ := v
  cases hitEP <;> cases hitEbP <;> cases xPlayer <;>
    simp [PassView.stepEBP, PassView.checkCollisionEBP]

theorem PassView.stepL_eq (v : PassView) :
    v.stepL =
      { v with
        xHeart := v.xHeart || (v.hitPL && !v.xHeart),
        lives := v.lives + if v.hitPL && !v.xHeart then 1 else 0 } := by
  obtain ⟨_, _, _, _, _, _, _, _, hitPL, _, _, _, _, _, xHeart, _, _⟩ := v
  cases hitPL <;> cases xHeart <;> simp [PassView.stepL, PassView.checkCollisionL]

/-- First crate in contact and not exploding, pickup out of contact: the pass
leaves that crate and the Player exploding and takes exactly one life. -/
theorem PassView.pass_first_crate (v : PassView) (hC : v.hitPC = true)
    (hx : v.xCrate = false) (hL : v.hitPL = false) :
    v.collisionPass.xCrate = true ∧ v.collisionPass.xPlayer = true ∧
    v.collisionPass.lives = v.lives - 1 := by
  simp [PassView.collisionPass, PassView.checkCollision_eq, PassView.stepC_eq,
    PassView.stepCB_eq, PassView.stepPBE_eq, PassView.stepEBP_eq, PassView.stepL_eq, hC, hx, hL]

/-- Second crate in contact and not exploding while the first crate's test
does not fire, pickup out of contact: the pass leaves the second crate and the
Player exploding and takes exactly one life. -/
theorem PassView.pass_second_crate (v : PassView) (hC : v.hitPC1 = true)
    (hx : v.xCrate1 = false) (h0 : ¬ (v.hitPC = true ∧ v.xCrate = false))
    (hL : v.hitPL = false) :
    v.collisionPass.xCrate1 = true ∧ v.collisionPass.xPlayer = true ∧
    v.collisionPass.lives = v.lives - 1 := by
  have h0b : (v.hitPC && !v.xCrate) = false := by
    cases h1 : v.hitPC <;> cases h2 : v.xCrate <;> simp_all
  simp [PassView.collisionPass, PassView.checkCollision_eq, PassView.stepC_eq,
    PassView.stepCB_eq, PassView.stepPBE_eq, PassView.stepEBP_eq, PassView.stepL_eq, hC, hx, hL,
    h0b]

/-! ## Claims on the collision pass -/

/-- The observations of the state with both crates in contact: only the two
Player-crate hit tests hold, nothing explodes, 10 lives, score 0. -/
theorem gameBothCrates_view :
    gameBothCrates.view =
      { hitPP2 := false, hitPC := true, hitPC1 := true, hitBC := false, hitBC1 := false,
        hitBE := false, hitEP := false, hitEbP := false, hitPL := false,
        xPlayer := false, xPlayer2 := false, xCrate := false, xCrate1 := false,
        xEnemy := false, xHeart := false, lives := 10, score := 0 } := by
  norm_num [CGameApp.view, hit, SqrtQ.le, Vec2.Distance, gameBothCrates, gameCrateScenario,
    gameStart, playerMid, player2Mid, enemyMid, crateMid, heartMid, parkedBullet,
    CPlayer.new, CPlayer2.new, Enemy.new, Crate.new, Lives.new, spriteAt,
    CPlayer.Position, CPlayer2.Position, Enemy.Position, Crate.Position, Lives.Position,
    CPlayer.getWidth, CPlayer2.getWidth, Enemy.getWidth, Crate.getWidth, Lives.getWidth,
    CPlayer.PositionBullet, Enemy.PositionBullet, CPlayer.getWidthBullet,
    Enemy.getWidthBullet, CPlayer.ifExploded, CPlayer2.ifExploded, Enemy.ifExploded,
    Crate.ifExploded, Lives.ifExploded]

/-- C3, counterexample: with both crates in contact with the Player (first
crate at (432, 400), second at (400, 432), Player at (400, 400), all of width
64), the second crate is in contact, not exploding, the Player is not in
contact with the Lives pickup, and yet the second crate is not exploding after
the collision pass: `checkCollisionC` returns at the first crate's hit. -/
theorem C3_second_crate_skipped :
    hit gameBothCrates.m_pPlayer.Position gameBothCrates.m_cCrate1.Position
      gameBothCrates.m_pPlayer.getWidth gameBothCrates.m_cCrate1.getWidth ∧
    gameBothCrates.m_cCrate1.ifExploded = false ∧
    ¬ hit gameBothCrates.m_pPlayer.Position gameBothCrates.m_pHeart.Position
      gameBothCrates.m_pPlayer.getWidth gameBothCrates.m_pHeart.getWidth ∧
    gameBothCrates.collisionPass.m_cCrate1.ifExploded = false := by
  have hv := gameBothCrates_view
  have h1 : gameBothCrates.view.hitPC1 = true := by rw [hv]
  have h2 : gameBothCrates.view.hitPL = false := by rw [hv]
  have h3 : gameBothCrates.collisionPass.view.xCrate1 = false := by
    rw [CGameApp_view_collisionPass, hv]; rfl
  exact ⟨of_decide_eq_true h1, rfl, of_decide_eq_false h2, h3⟩

/-- C3, amended: for every game state in which the Player is not in contact
with the Lives pickup: if the Player-to-crate distance is
`<= (playerWidth + crateWidth) / 2` for the first crate and that crate is not
exploding, one collision pass of `FrameAdvance` leaves that crate exploding, the
Player exploding and `lives` exactly one less than before; the same holds for
the second crate provided the first crate's test does not fire in that pass
(the first crate is out of contact or already exploding). -/
theorem C3_crate_hit (g : CGameApp)
    (hL : ¬ hit g.m_pPlayer.Position g.m_pHeart.Position g.m_pPlayer.getWidth
      g.m_pHeart.getWidth) :
    (hit g.m_pPlayer.Position g.m_cCrate.Position g.m_pPlayer.getWidth g.m_cCrate.getWidth →
      g.m_cCrate.ifExploded = false →
      g.collisionPass.m_cCrate.ifExploded = true ∧
      g.collisionPass.m_pPlayer.ifExploded = true ∧
      g.collisionPass.lives = g.lives - 1) ∧
    (hit g.m_pPlayer.Position g.m_cCrate1.Position g.m_pPlayer.getWidth g.m_cCrate1.getWidth →
      g.m_cCrate1.ifExploded = false →
      ¬ (hit g.m_pPlayer.Position g.m_cCrate.Position g.m_pPlayer.getWidth g.m_cCrate.getWidth
          ∧ g.m_cCrate.ifExploded = false) →
      g.collisionPass.m_cCrate1.ifExploded = true ∧
      g.collisionPass.m_pPlayer.ifExploded = true ∧
      g.collisionPass.lives = g.lives - 1) := by
  have hLv : g.view.hitPL = false := decide_eq_false hL
  have hpass := CGameApp_view_collisionPass g
  constructor
  · intro hC hx
    have h := PassView.pass_first_crate g.view (decide_eq_true hC) hx hLv
    rw [← hpass] at h
    exact h
  · intro hC hx h0
    have h0v : ¬ (g.view.hitPC = true ∧ g.view.xCrate = false) := fun hh =>
      h0 ⟨of_decide_eq_true hh.1, hh.2⟩
    have h := PassView.pass_second_crate g.view (decide_eq_true hC) hx h0v hLv
    rw [← hpass] at h
    exact h

/-- C3, witness: the scenario of the spec. Player at (400, 400) and first crate
at (432, 400), both of width 64, from 10 lives: after the pass the crate and the
Player explode and 9 lives are left; and the same with the second crate at
(432, 400) while the first crate is out of contact. -/
theorem C3_crate_hit_witness :
    (gameCrateScenario.collisionPass.m_cCrate.ifExploded = true ∧
     gameCrateScenario.collisionPass.m_pPlayer.ifExploded = true ∧
     gameCrateScenario.collisionPass.lives = 9) ∧
    (gameSecondCrateScenario.collisionPass.m_cCrate1.ifExploded = true ∧
     gameSecondCrateScenario.collisionPass.m_pPlayer.ifExploded = true ∧
     gameSecondCrateScenario.collisionPass.lives = 9) := by
  have h1 := (C3_crate_hit gameCrateScenario (by
    norm_num [hit, SqrtQ.le, Vec2.Distance, gameCrateScenario, gameStart, playerMid, heartMid,
      CPlayer.new, Lives.new, spriteAt, CPlayer.Position, Lives.Position, CPlayer.getWidth,
      Lives.getWidth])).1 (by
    norm_num [hit, SqrtQ.le, Vec2.Distance, gameCrateScenario, gameStart, playerMid,
      CPlayer.new, Crate.new, spriteAt, CPlayer.Position, Crate.Position, CPlayer.getWidth,
      Crate.getWidth]) rfl
  have h2 := (C3_crate_hit gameSecondCrateScenario (by
    norm_num [hit, SqrtQ.le, Vec2.Distance, gameSecondCrateScenario, gameStart, playerMid,
      heartMid, CPlayer.new, Lives.new, spriteAt, CPlayer.Position, Lives.Position,
      CPlayer.getWidth, Lives.getWidth])).2 (by
    norm_num [hit, SqrtQ.le, Vec2.Distance, gameSecondCrateScenario, gameStart, playerMid,
      CPlayer.new, Crate.new, spriteAt, CPlayer.Position, Crate.Position, CPlayer.getWidth,
      Crate.getWidth]) rfl (by
    norm_num [hit, SqrtQ.le, Vec2.Distance, gameSecondCrateScenario, gameStart, playerMid,
      crateMid, CPlayer.new, Crate.new, spriteAt, CPlayer.Position, Crate.Position,
      CPlayer.getWidth, Crate.getWidth])
  exact ⟨⟨h1.1, h1.2.1, h1.2.2⟩, ⟨h2.1, h2.2.1, h2.2.2⟩⟩

/-- C4: `checkCollisionPBE` returns true and leaves the Enemy exploding if and
only if the distance from the Player's first bullet to the Enemy is
`<= (bulletWidth + enemyWidth) / 2` and the Enemy was not already exploding; in
that case the `FrameAdvance` statement around it adds exactly 1 to `score`;
otherwise it returns false and changes nothing (and `score` stays as it was). -/
theorem C4_checkCollisionPBE (g : CGameApp) :
    ((g.checkCollisionPBE.1 = true ∧ g.checkCollisionPBE.2.m_pEnemy.ifExploded = true) ↔
      (hit g.m_pPlayer.PositionBullet g.m_pEnemy.Position g.m_pPlayer.getWidthBullet
          g.m_pEnemy.getWidth ∧ g.m_pEnemy.ifExploded = false)) ∧
    ((hit g.m_pPlayer.PositionBullet g.m_pEnemy.Position g.m_pPlayer.getWidthBullet
          g.m_pEnemy.getWidth ∧ g.m_pEnemy.ifExploded = false) →
      g.stepPBE.score = g.score + 1) ∧
    (¬ (hit g.m_pPlayer.PositionBullet g.m_pEnemy.Position g.m_pPlayer.getWidthBullet
          g.m_pEnemy.getWidth ∧ g.m_pEnemy.ifExploded = false) →
      g.checkCollisionPBE = (false, g) ∧ g.stepPBE = g) := by
  by_cases h : (g.m_pPlayer.PositionBullet.Distance g.m_pEnemy.Position).le
      ((g.m_pPlayer.getWidthBullet + g.m_pEnemy.getWidth) / 2) ∧ g.m_pEnemy.ifExploded = false
  · have hr : g.checkCollisionPBE
        = (true, { g.SetTimer 1 with m_pEnemy := (g.SetTimer 1).m_pEnemy.Explode }) := by
      unfold CGameApp.checkCollisionPBE
      rw [if_pos h]
    refine ⟨⟨fun _ => h, fun _ => ?_⟩, fun _ => ?_, fun hn => absurd h hn⟩
    · rw [hr]; exact ⟨rfl, rfl⟩
    · unfold CGameApp.stepPBE
      rw [hr]; rfl
  · have hr : g.checkCollisionPBE = (false, g) := by
      unfold CGameApp.checkCollisionPBE
      rw [if_neg h]
    refine ⟨⟨fun hh => ?_, fun hh => absurd hh h⟩, fun hh => absurd hh h, fun _ => ⟨hr, ?_⟩⟩
    · rw [hr] at hh
      exact absurd hh.1 Bool.false_ne_true
    · unfold CGameApp.stepPBE
      rw [hr]; rfl

/-- C4, witness: the scenario of the spec. The Player's first bullet of width
10 at (300, 100) and the Enemy of width 40 at (305, 105) are at squared distance
50 <= 25²: the check returns true, the Enemy explodes and `score` goes from 0
to 1. -/
theorem C4_checkCollisionPBE_witness :
    gameBulletScenario.checkCollisionPBE.1 = true ∧
    gameBulletScenario.checkCollisionPBE.2.m_pEnemy.ifExploded = true ∧
    gameBulletScenario.stepPBE.score = 1 := by
  have hc : hit gameBulletScenario.m_pPlayer.PositionBullet gameBulletScenario.m_pEnemy.Position
      gameBulletScenario.m_pPlayer.getWidthBullet gameBulletScenario.m_pEnemy.getWidth ∧
      gameBulletScenario.m_pEnemy.ifExploded = false := by
    refine ⟨?_, rfl⟩
    norm_num [hit, SqrtQ.le, Vec2.Distance, gameBulletScenario, gameStart, CPlayer.new,
      Enemy.new, spriteAt, CPlayer.PositionBullet, Enemy.Position, CPlayer.getWidthBullet,
      Enemy.getWidth]
  have h := C4_checkCollisionPBE gameBulletScenario
  exact ⟨(h.1.mpr hc).1, (h.1.mpr hc).2, h.2.1 hc⟩

/-! ## The invariant of the explosion members -/

theorem ExplosionCore.wellFormed_congr (c d : ExplosionCore) (N : Int)
    (h : d.animation = c.animation) (hc : c.wellFormed N) : d.wellFormed N := by
  simp only [ExplosionCore.animation, Prod.mk.injEq] at h
  obtain ⟨h1, h2, h3⟩ := h
  unfold ExplosionCore.wellFormed at hc ⊢
  rw [h1, h2, h3]
  exact hc

theorem ExplosionCore.wellFormed_Explode (c : ExplosionCore) (N : Int)
    (hc : c.wellFormed N) : c.Explode.wellFormed N := by
  obtain ⟨h1, h2, h3, -⟩ := hc
  exact ⟨h1, h2, h3, fun h => absurd h (by simp [ExplosionCore.Explode])⟩

theorem ExplosionCore.wellFormed_AdvanceExplosion (c : ExplosionCore) (N : Int)
    (hc : c.wellFormed N) : c.AdvanceExplosion.2.wellFormed N := by
  obtain ⟨h1, h2, h3, h4⟩ := hc
  unfold ExplosionCore.AdvanceExplosion
  simp only [AnimatedSprite.GetFrameCount, AnimatedSprite.SetFrame] at h1 ⊢
  by_cases hx : c.m_bExplosion = true
  · rw [if_pos hx]
    by_cases he : c.m_iExplosionFrame + 1 = c.m_pExplosionSprite.frameCount
    · rw [if_pos he]
      refine ⟨h1, ?_, ?_, fun _ => rfl⟩
      · show (0 : Int) ≤ 0
        exact le_refl 0
      · show (0 : Int) < N
        omega
    · rw [if_neg he]
      refine ⟨h1, ?_, ?_, fun h => absurd hx ?_⟩
      · show 0 ≤ c.m_iExplosionFrame + 1
        omega
      · show c.m_iExplosionFrame + 1 < N
        omega
      · have h5 : c.m_bExplosion = false := h
        simp [h5]
  · rw [if_neg hx]
    exact ⟨h1, h2, h3, h4⟩

theorem ExplosionCore.frameInRange_of_wellFormed (c : ExplosionCore) (N : Int)
    (hc : c.wellFormed N) : c.frameInRange N :=
  ⟨hc.1, hc.2.1, le_of_lt hc.2.2.1⟩

theorem CPlayer_new_wellFormed (sprite bullet bullet2 : Sprite) :
    (CPlayer.new sprite bullet bullet2).core.wellFormed 15 :=
  ⟨rfl, le_refl 0, show (0 : Int) < 15 by decide, fun _ => rfl⟩

theorem CPlayer_Move_animation (p : CPlayer) (m : Nat) :
    (p.Move m).core.animation = p.core.animation := rfl

theorem CPlayer_Update_animation (p : CPlayer) (spriteUpdate : Sprite → ℚ → Sprite) (dt : ℚ) :
    (p.Update spriteUpdate dt).core.animation = p.core.animation := by
  unfold CPlayer.Update
  simp only
  split <;> split_ifs <;> rfl

theorem CPlayer_Shoot_animation (p : CPlayer) (desktop : RECT) :
    (p.Shoot desktop).core.animation = p.core.animation := by
  unfold CPlayer.Shoot
  simp only
  split_ifs <;> rfl

theorem CPlayer_call_wellFormed (spriteUpdate : Sprite → ℚ → Sprite) (p : CPlayer) (k : EntityCall)
    (N : Int) (h : p.core.wellFormed N) : (CPlayer.call spriteUpdate p k).core.wellFormed N := by
  cases k with
  | Explode =>
    show p.Explode.core.wellFormed N
    rw [CPlayer_core_Explode]
    exact ExplosionCore.wellFormed_Explode _ N h
  | AdvanceExplosion =>
    have hA : p.AdvanceExplosion.2.core = p.core.AdvanceExplosion.2 := by
      rw [← CPlayer_core_AdvanceExplosion]
    show p.AdvanceExplosion.2.core.wellFormed N
    rw [hA]
    exact ExplosionCore.wellFormed_AdvanceExplosion _ N h
  | Move m => exact ExplosionCore.wellFormed_congr _ _ N (CPlayer_Move_animation p m) h
  | Shoot desktop =>
    exact ExplosionCore.wellFormed_congr _ _ N (CPlayer_Shoot_animation p desktop) h
  | Update dt =>
    exact ExplosionCore.wellFormed_congr _ _ N (CPlayer_Update_animation p spriteUpdate dt) h

theorem CPlayer_run_wellFormed (spriteUpdate : Sprite → ℚ → Sprite) (calls : List EntityCall)
    (N : Int) (p : CPlayer) (h : p.core.wellFormed N) :
    (CPlayer.run spriteUpdate p calls).core.wellFormed N := by
  induction calls generalizing p with
  | nil => exact h
  | cons k ks ih =>
    exact ih (CPlayer.call spriteUpdate p k) (CPlayer_call_wellFormed spriteUpdate p k N h)

theorem CPlayer2_new_wellFormed (sprite bullet bullet2 : Sprite) :
    (CPlayer2.new sprite bullet bullet2).core.wellFormed 15 :=
  ⟨rfl, le_refl 0, show (0 : Int) < 15 by decide, fun _ => rfl⟩

theorem CPlayer2_Move_animation (p : CPlayer2) (m : Nat) :
    (p.Move m).core.animation = p.core.animation := rfl

theorem CPlayer2_Update_animation (p : CPlayer2) (spriteUpdate : Sprite → ℚ → Sprite) (dt : ℚ) :
    (p.Update spriteUpdate dt).core.animation = p.core.animation := by
  unfold CPlayer2.Update
  simp only
  split <;> split_ifs <;> rfl

theorem CPlayer2_Shoot_animation (p : CPlayer2) (desktop : RECT) :
    (p.Shoot desktop).core.animation = p.core.animation := by
  unfold CPlayer2.Shoot
  simp only
  split_ifs <;> rfl

theorem CPlayer2_call_wellFormed (spriteUpdate : Sprite → ℚ → Sprite) (p : CPlayer2) (k : EntityCall)
    (N : Int) (h : p.core.wellFormed N) : (CPlayer2.call spriteUpdate p k).core.wellFormed N := by
  cases k with
  | Explode =>
    show p.Explode.core.wellFormed N
    rw [CPlayer2_core_Explode]
    exact ExplosionCore.wellFormed_Explode _ N h
  | AdvanceExplosion =>
    have hA : p.AdvanceExplosion.2.core = p.core.AdvanceExplosion.2 := by
      rw [← CPlayer2_core_AdvanceExplosion]
    show p.AdvanceExplosion.2.core.wellFormed N
    rw [hA]
    exact ExplosionCore.wellFormed_AdvanceExplosion _ N h
  | Move m => exact ExplosionCore.wellFormed_congr _ _ N (CPlayer2_Move_animation p m) h
  | Shoot desktop =>
    exact ExplosionCore.wellFormed_congr _ _ N (CPlayer2_Shoot_animation p desktop) h
  | Update dt =>
    exact ExplosionCore.wellFormed_congr _ _ N (CPlayer2_Update_animation p spriteUpdate dt) h

theorem CPlayer2_run_wellFormed (spriteUpdate : Sprite → ℚ → Sprite) (calls : List EntityCall)
    (N : Int) (p : CPlayer2) (h : p.core.wellFormed N) :
    (CPlayer2.run spriteUpdate p calls).core.wellFormed N := by
  induction calls generalizing p with
  | nil => exact h
  | cons k ks ih =>
    exact ih (CPlayer2.call spriteUpdate p k) (CPlayer2_call_wellFormed spriteUpdate p k N h)

theorem Enemy_new_wellFormed (sprite bullet bullet2 : Sprite) :
    (Enemy.new sprite bullet bullet2).core.wellFormed 15 :=
  ⟨rfl, le_refl 0, show (0 : Int) < 15 by decide, fun _ => rfl⟩

theorem Enemy_Move_animation (e : Enemy) (m : Nat) :
    (e.Move m).core.animation = e.core.animation := rfl

theorem Enemy_Update_animation (e : Enemy) (spriteUpdate : Sprite → ℚ → Sprite) (dt : ℚ) :
    (e.Update spriteUpdate dt).core.animation = e.core.animation := by
  unfold Enemy.Update
  simp only
  split <;> split_ifs <;> rfl

theorem Enemy_Shoot_animation (e : Enemy) (desktop : RECT) :
    (e.Shoot desktop).core.animation = e.core.animation := by
  unfold Enemy.Shoot
  simp only
  split_ifs <;> rfl

theorem Enemy_call_wellFormed (spriteUpdate : Sprite → ℚ → Sprite) (e : Enemy) (k : EntityCall)
    (N : Int) (h : e.core.wellFormed N) : (Enemy.call spriteUpdate e k).core.wellFormed N := by
  cases k with
  | Explode =>
    show e.Explode.core.wellFormed N
    rw [Enemy_core_Explode]
    exact ExplosionCore.wellFormed_Explode _ N h
  | AdvanceExplosion =>
    have hA : e.AdvanceExplosion.2.core = e.core.AdvanceExplosion.2 := by
      rw [← Enemy_core_AdvanceExplosion]
    show e.AdvanceExplosion.2.core.wellFormed N
    rw [hA]
    exact ExplosionCore.wellFormed_AdvanceExplosion _ N h
  | Move m => exact ExplosionCore.wellFormed_congr _ _ N (Enemy_Move_animation e m) h
  | Shoot desktop =>
    exact ExplosionCore.wellFormed_congr _ _ N (Enemy_Shoot_animation e desktop) h
  | Update dt =>
    exact ExplosionCore.wellFormed_congr _ _ N (Enemy_Update_animation e spriteUpdate dt) h

theorem Enemy_run_wellFormed (spriteUpdate : Sprite → ℚ → Sprite) (calls : List EntityCall)
    (N : Int) (e : Enemy) (h : e.core.wellFormed N) :
    (Enemy.run spriteUpdate e calls).core.wellFormed N := by
  induction calls generalizing e with
  | nil => exact h
  | cons k ks ih =>
    exact ih (Enemy.call spriteUpdate e k) (Enemy_call_wellFormed spriteUpdate e k N h)

theorem Crate_new_wellFormed (sprite : Sprite) :
    (Crate.new sprite).core.wellFormed 15 :=
  ⟨rfl, le_refl 0, show (0 : Int) < 15 by decide, fun _ => rfl⟩

theorem Crate_Move_animation (c : Crate) (m : Nat) :
    (c.Move m).core.animation = c.core.animation := rfl

theorem Crate_Update_animation (c : Crate) (spriteUpdate : Sprite → ℚ → Sprite) (dt : ℚ) :
    (c.Update spriteUpdate dt).core.animation = c.core.animation := by
  unfold Crate.Update
  simp only
  split <;> split_ifs <;> rfl

theorem Crate_call_wellFormed (spriteUpdate : Sprite → ℚ → Sprite) (c : Crate) (k : PlainCall)
    (N : Int) (h : c.core.wellFormed N) : (Crate.call spriteUpdate c k).core.wellFormed N := by
  cases k with
  | Explode =>
    show c.Explode.core.wellFormed N
    rw [Crate_core_Explode]
    exact ExplosionCore.wellFormed_Explode _ N h
  | AdvanceExplosion =>
    have hA : c.AdvanceExplosion.2.core = c.core.AdvanceExplosion.2 := by
      rw [← Crate_core_AdvanceExplosion]
    show c.AdvanceExplosion.2.core.wellFormed N
    rw [hA]
    exact ExplosionCore.wellFormed_AdvanceExplosion _ N h
  | Move m => exact ExplosionCore.wellFormed_congr _ _ N (Crate_Move_animation c m) h
  | Update dt =>
    exact ExplosionCore.wellFormed_congr _ _ N (Crate_Update_animation c spriteUpdate dt) h

theorem Crate_run_wellFormed (spriteUpdate : Sprite → ℚ → Sprite) (calls : List PlainCall)
    (N : Int) (c : Crate) (h : c.core.wellFormed N) :
    (Crate.run spriteUpdate c calls).core.wellFormed N := by
  induction calls generalizing c with
  | nil => exact h
  | cons k ks ih =>
    exact ih (Crate.call spriteUpdate c k) (Crate_call_wellFormed spriteUpdate c k N h)

theorem Lives_new_wellFormed (sprite : Sprite) :
    (Lives.new sprite).core.wellFormed 3 :=
  ⟨rfl, le_refl 0, show (0 : Int) < 3 by decide, fun _ => rfl⟩

theorem Lives_Move_animation (l : Lives) (m : Nat) :
    (l.Move m).core.animation = l.core.animation := rfl

theorem Lives_Update_animation (l : Lives) (spriteUpdate : Sprite → ℚ → Sprite) (dt : ℚ) :
    (l.Update spriteUpdate dt).core.animation = l.core.animation := by
  unfold Lives.Update
  simp only
  split <;> split_ifs <;> rfl

theorem Lives_call_wellFormed (spriteUpdate : Sprite → ℚ → Sprite) (l : Lives) (k : PlainCall)
    (N : Int) (h : l.core.wellFormed N) : (Lives.call spriteUpdate l k).core.wellFormed N := by
  cases k with
  | Explode =>
    show l.Explode.core.wellFormed N
    rw [Lives_core_Explode]
    exact ExplosionCore.wellFormed_Explode _ N h
  | AdvanceExplosion =>
    have hA : l.AdvanceExplosion.2.core = l.core.AdvanceExplosion.2 := by
      rw [← Lives_core_AdvanceExplosion]
    show l.AdvanceExplosion.2.core.wellFormed N
    rw [hA]
    exact ExplosionCore.wellFormed_AdvanceExplosion _ N h
  | Move m => exact ExplosionCore.wellFormed_congr _ _ N (Lives_Move_animation l m) h
  | Update dt =>
    exact ExplosionCore.wellFormed_congr _ _ N (Lives_Update_animation l spriteUpdate dt) h

theorem Lives_run_wellFormed (spriteUpdate : Sprite → ℚ → Sprite) (calls : List PlainCall)
    (N : Int) (l : Lives) (h : l.core.wellFormed N) :
    (Lives.run spriteUpdate l calls).core.wellFormed N := by
  induction calls generalizing l with
  | nil => exact h
  | cons k ks ih =>
    exact ih (Lives.call spriteUpdate l k) (Lives_call_wellFormed spriteUpdate l k N h)

/-! ## Claims on the reachable states of one entity -/

/-- C11: for every entity and every state reached from construction by any
sequence of `Explode`, `AdvanceExplosion`, `Move`, `Shoot` and `Update` calls,
the explosion frame counter satisfies `0 <= m_iExplosionFrame <= frameCount`,
with `frameCount = 15`, or 3 for `Lives`. -/
theorem C11_frame_counter_in_range (spriteUpdate : Sprite → ℚ → Sprite)
    (sprite bullet bullet2 : Sprite) (calls : List EntityCall) (plainCalls : List PlainCall) :
    ((CPlayer.new sprite bullet bullet2).run spriteUpdate calls).core.frameInRange 15 ∧
    ((CPlayer2.new sprite bullet bullet2).run spriteUpdate calls).core.frameInRange 15 ∧
    ((Enemy.new sprite bullet bullet2).run spriteUpdate calls).core.frameInRange 15 ∧
    ((Crate.new sprite).run spriteUpdate plainCalls).core.frameInRange 15 ∧
    ((Lives.new sprite).run spriteUpdate plainCalls).core.frameInRange 3 :=
  ⟨ExplosionCore.frameInRange_of_wellFormed _ _
      (CPlayer_run_wellFormed spriteUpdate calls 15 _ (CPlayer_new_wellFormed _ _ _)),
   ExplosionCore.frameInRange_of_wellFormed _ _
      (CPlayer2_run_wellFormed spriteUpdate calls 15 _ (CPlayer2_new_wellFormed _ _ _)),
   ExplosionCore.frameInRange_of_wellFormed _ _
      (Enemy_run_wellFormed spriteUpdate calls 15 _ (Enemy_new_wellFormed _ _ _)),
   ExplosionCore.frameInRange_of_wellFormed _ _
      (Crate_run_wellFormed spriteUpdate plainCalls 15 _ (Crate_new_wellFormed _)),
   ExplosionCore.frameInRange_of_wellFormed _ _
      (Lives_run_wellFormed spriteUpdate plainCalls 3 _ (Lives_new_wellFormed _))⟩

/-- The Player five ticks into an explosion is what `Explode` and five
`AdvanceExplosion` calls make of the Player at its start position. -/
theorem playerMidExplosion_reached :
    advanceTimes CPlayer.AdvanceExplosion 5 playerMid.Explode = playerMidExplosion := by
  decide

/-! ## Claims on moving while exploding -/

/-- C12, counterexample: the Player five ticks into an explosion is Exploding,
and `Move(DIR_LEFT)` changes its sprite velocity from (0, 0) to (-3.1, 0). -/
theorem C12_Move_ignores_explosion :
    playerMidExplosion.ifExploded = true ∧
    ¬ Sprite.Unmoved playerMidExplosion.m_pSprite
      (playerMidExplosion.Move DIR_LEFT).m_pSprite := by
  refine ⟨rfl, ?_⟩
  rw [CPlayer_Move_eq]
  simp only [moveSprite_eq, Sprite.Unmoved]
  norm_num [playerMidExplosion, playerMid, CPlayer.new, spriteAt,
    show dirSet DIR_LEFT DIR_RIGHT = false by decide,
    show dirSet DIR_LEFT DIR_LEFT = true by decide,
    show dirSet DIR_LEFT DIR_FORWARD = false by decide,
    show dirSet DIR_LEFT DIR_BACKWARD = false by decide]

/-- C12, amended: while an entity is Exploding, `Move` does not consult the
explosion state: for every direction mask it changes the sprite exactly as it
changes the sprite of the same entity when not exploding, and it leaves the
explosion sprite (where the explosion is drawn), the explosion flag and the
explosion frame counter unchanged. -/
theorem C12_Move_while_exploding (m : Nat) (p : CPlayer) (p2 : CPlayer2) (e : Enemy)
    (c : Crate) (l : Lives) :
    (p.ifExploded = true →
      (p.Move m).m_pSprite = ({ p with m_bExplosion := false }.Move m).m_pSprite ∧
      (p.Move m).m_pExplosionSprite = p.m_pExplosionSprite ∧
      (p.Move m).ifExploded = true ∧ (p.Move m).m_iExplosionFrame = p.m_iExplosionFrame) ∧
    (p2.ifExploded = true →
      (p2.Move m).m_pSprite = ({ p2 with m_bExplosion := false }.Move m).m_pSprite ∧
      (p2.Move m).m_pExplosionSprite = p2.m_pExplosionSprite ∧
      (p2.Move m).ifExploded = true ∧ (p2.Move m).m_iExplosionFrame = p2.m_iExplosionFrame) ∧
    (e.ifExploded = true →
      (e.Move m).m_pSprite = ({ e with m_bExplosion := false }.Move m).m_pSprite ∧
      (e.Move m).m_pExplosionSprite = e.m_pExplosionSprite ∧
      (e.Move m).ifExploded = true ∧ (e.Move m).m_iExplosionFrame = e.m_iExplosionFrame) ∧
    (c.ifExploded = true →
      (c.Move m).m_pSprite = ({ c with m_bExplosion := false }.Move m).m_pSprite ∧
      (c.Move m).m_pExplosionSprite = c.m_pExplosionSprite ∧
      (c.Move m).ifExploded = true ∧ (c.Move m).m_iExplosionFrame = c.m_iExplosionFrame) ∧
    (l.ifExploded = true →
      (l.Move m).m_pSprite = ({ l with m_bExplosion := false }.Move m).m_pSprite ∧
      (l.Move m).m_pExplosionSprite = l.m_pExplosionSprite ∧
      (l.Move m).ifExploded = true ∧ (l.Move m).m_iExplosionFrame = l.m_iExplosionFrame) :=
  ⟨fun h => ⟨rfl, rfl, h, rfl⟩, fun h => ⟨rfl, rfl, h, rfl⟩, fun h => ⟨rfl, rfl, h, rfl⟩,
    fun h => ⟨rfl, rfl, h, rfl⟩, fun h => ⟨rfl, rfl, h, rfl⟩⟩

/-- C12, witness: the Player five ticks into an explosion, moved with
`Move(DIR_LEFT)`, keeps its explosion sprite at (400, 400) on frame 4 and stays
Exploding with frame counter 5. -/
theorem C12_Move_while_exploding_witness :
    (playerMidExplosion.Move DIR_LEFT).m_pExplosionSprite = ⟨⟨400, 400⟩, 4, 15⟩ ∧
    (playerMidExplosion.Move DIR_LEFT).ifExploded = true ∧
    (playerMidExplosion.Move DIR_LEFT).m_iExplosionFrame = 5 :=
  have h := (C12_Move_while_exploding DIR_LEFT playerMidExplosion player2Mid enemyMid crateMid
    heartMid).1 rfl
  ⟨h.2.1, h.2.2.1, h.2.2.2⟩

/-! ## The collision checks, case by case -/

theorem CGameApp_checkCollision_fires (g : CGameApp) (h : g.firesPP2) :
    g.checkCollision =
      { g with m_pPlayer := g.m_pPlayer.Explode, m_pPlayer2 := g.m_pPlayer2.Explode,
               timers := (g.timers.insert 1).insert 2 } := by
  unfold CGameApp.firesPP2 hit at h
  unfold CGameApp.checkCollision
  rw [if_pos h]
  rfl

theorem CGameApp_checkCollision_idle (g : CGameApp) (h : ¬ g.firesPP2) :
    g.checkCollision = g := by
  unfold CGameApp.firesPP2 hit at h
  unfold CGameApp.checkCollision
  rw [if_neg h]

theorem CGameApp_checkCollisionC_first (g : CGameApp) (h : g.firesC) :
    g.checkCollisionC =
      (true, { g with m_cCrate := g.m_cCrate.Explode, m_pPlayer := g.m_pPlayer.Explode,
                      timers := (g.timers.insert 1).insert 2 }) := by
  unfold CGameApp.firesC hit at h
  unfold CGameApp.checkCollisionC
  rw [if_pos h]
  rfl

theorem CGameApp_checkCollisionC_second (g : CGameApp) (h0 : ¬ g.firesC) (h : g.firesC1) :
    g.checkCollisionC =
      (true, { g with m_cCrate1 := g.m_cCrate1.Explode, m_pPlayer := g.m_pPlayer.Explode,
                      timers := (g.timers.insert 1).insert 2 }) := by
  unfold CGameApp.firesC hit at h0
  unfold CGameApp.firesC1 hit at h
  unfold CGameApp.checkCollisionC
  rw [if_neg h0, if_pos h]
  rfl

theorem CGameApp_checkCollisionC_idle (g : CGameApp) (h0 : ¬ g.firesC) (h : ¬ g.firesC1) :
    g.checkCollisionC = (false, g) := by
  unfold CGameApp.firesC hit at h0
  unfold CGameApp.firesC1 hit at h
  unfold CGameApp.checkCollisionC
  rw [if_neg h0, if_neg h]

theorem CGameApp_checkCollisionCB_first (g : CGameApp) (h : g.firesCB) :
    g.checkCollisionCB =
      (true, { g with m_cCrate := g.m_cCrate.Explode, timers := g.timers.insert 1 }) := by
  unfold CGameApp.firesCB hit at h
  unfold CGameApp.checkCollisionCB
  rw [if_pos h]
  rfl

theorem CGameApp_checkCollisionCB_second (g : CGameApp) (h0 : ¬ g.firesCB) (h : g.firesCB1) :
    g.checkCollisionCB =
      (true, { g with m_cCrate1 := g.m_cCrate1.Explode, timers := g.timers.insert 2 }) := by
  unfold CGameApp.firesCB hit at h0
  unfold CGameApp.firesCB1 hit at h
  unfold CGameApp.checkCollisionCB
  rw [if_neg h0, if_pos h]
  rfl

theorem CGameApp_checkCollisionCB_idle (g : CGameApp) (h0 : ¬ g.firesCB) (h : ¬ g.firesCB1) :
    g.checkCollisionCB = (false, g) := by
  unfold CGameApp.firesCB hit at h0
  unfold CGameApp.firesCB1 hit at h
  unfold CGameApp.checkCollisionCB
  rw [if_neg h0, if_neg h]

theorem CGameApp_checkCollisionPBE_fires (g : CGameApp) (h : g.firesPBE) :
    g.checkCollisionPBE =
      (true, { g with m_pEnemy := g.m_pEnemy.Explode, timers := g.timers.insert 1 }) := by
  unfold CGameApp.firesPBE hit at h
  unfold CGameApp.checkCollisionPBE
  rw [if_pos h]
  rfl

theorem CGameApp_checkCollisionPBE_idle (g : CGameApp) (h : ¬ g.firesPBE) :
    g.checkCollisionPBE = (false, g) := by
  unfold CGameApp.firesPBE hit at h
  unfold CGameApp.checkCollisionPBE
  rw [if_neg h]

theorem CGameApp_checkCollisionEBP_first (g : CGameApp) (h : g.firesEBP) :
    g.checkCollisionEBP =
      (true, { g with m_pPlayer := g.m_pPlayer.Explode, timers := g.timers.insert 1 }) := by
  unfold CGameApp.firesEBP hit at h
  unfold CGameApp.checkCollisionEBP
  rw [if_pos h]
  rfl

theorem CGameApp_checkCollisionEBP_second (g : CGameApp) (h0 : ¬ g.firesEBP)
    (h : g.firesEBP1) :
    g.checkCollisionEBP =
      (true, { g with m_pPlayer := g.m_pPlayer.Explode, timers := g.timers.insert 1 }) := by
  unfold CGameApp.firesEBP hit at h0
  unfold CGameApp.firesEBP1 hit at h
  unfold CGameApp.checkCollisionEBP
  rw [if_neg h0, if_pos h]
  rfl

theorem CGameApp_checkCollisionEBP_idle (g : CGameApp) (h0 : ¬ g.firesEBP)
    (h : ¬ g.firesEBP1) :
    g.checkCollisionEBP = (false, g) := by
  unfold CGameApp.firesEBP hit at h0
  unfold CGameApp.firesEBP1 hit at h
  unfold CGameApp.checkCollisionEBP
  rw [if_neg h0, if_neg h]

theorem CGameApp_checkCollisionL_fires (g : CGameApp) (h : g.firesL) :
    g.checkCollisionL =
      (true, { g with m_pHeart := g.m_pHeart.Explode, timers := g.timers.insert 1 }) := by
  unfold CGameApp.firesL hit at h
  unfold CGameApp.checkCollisionL
  rw [if_pos h]
  rfl

theorem CGameApp_checkCollisionL_idle (g : CGameApp) (h : ¬ g.firesL) :
    g.checkCollisionL = (false, g) := by
  unfold CGameApp.firesL hit at h
  unfold CGameApp.checkCollisionL
  rw [if_neg h]

/-! ## Which `Explode` calls of the controller are guarded -/

theorem GuardedExplode.refl {α : Type} (ifExploded : α → Bool) (explode : α → α) (e : α) :
    GuardedExplode ifExploded explode e e := Or.inl rfl

theorem GuardedExplode.trans {α : Type} (ifExploded : α → Bool) (explode : α → α)
    (hx : ∀ x, ifExploded (explode x) = true) (e e1 e2 : α)
    (h1 : GuardedExplode ifExploded explode e e1)
    (h2 : GuardedExplode ifExploded explode e1 e2) :
    GuardedExplode ifExploded explode e e2 := by
  rcases h1 with h1 | ⟨h1, h1e⟩
  · rw [h1] at h2; exact h2
  · rcases h2 with h2 | ⟨h2, -⟩
    · exact Or.inr ⟨h1, by rw [h2, h1e]⟩
    · rw [h1e, hx] at h2
      exact absurd h2 (by decide)

/-- An entity that is exploding is left as it is by a guarded step. -/
theorem GuardedExplode.eq_of_exploding {α : Type} (ifExploded : α → Bool) (explode : α → α)
    (e e1 : α) (h : GuardedExplode ifExploded explode e e1) (hx : ifExploded e = true) :
    e1 = e := by
  rcases h with h | ⟨h, -⟩
  · exact h
  · rw [hx] at h
    exact absurd h (by decide)

theorem CGameApp.GuardedStep.rfl_step (g : CGameApp) : g.GuardedStep g :=
  ⟨Or.inl rfl, Or.inl rfl, Or.inl rfl, Or.inl rfl, Or.inl rfl⟩

theorem CGameApp.GuardedStep.trans_step (g g1 g2 : CGameApp) (h1 : g.GuardedStep g1)
    (h2 : g1.GuardedStep g2) : g.GuardedStep g2 :=
  ⟨GuardedExplode.trans _ _ (fun _ => rfl) _ _ _ h1.1 h2.1,
   GuardedExplode.trans _ _ (fun _ => rfl) _ _ _ h1.2.1 h2.2.1,
   GuardedExplode.trans _ _ (fun _ => rfl) _ _ _ h1.2.2.1 h2.2.2.1,
   GuardedExplode.trans _ _ (fun _ => rfl) _ _ _ h1.2.2.2.1 h2.2.2.2.1,
   GuardedExplode.trans _ _ (fun _ => rfl) _ _ _ h1.2.2.2.2 h2.2.2.2.2⟩

theorem CGameApp_checkCollision_guarded (g : CGameApp) :
    g.GuardedStep g.checkCollision ∧
    GuardedExplode CPlayer.ifExploded CPlayer.Explode g.m_pPlayer g.checkCollision.m_pPlayer := by
  by_cases h : g.firesPP2
  · rw [CGameApp_checkCollision_fires g h]
    exact ⟨⟨Or.inr ⟨h.2.2, rfl⟩, Or.inl rfl, Or.inl rfl, Or.inl rfl, Or.inl rfl⟩,
      Or.inr ⟨h.2.1, rfl⟩⟩
  · rw [CGameApp_checkCollision_idle g h]
    exact ⟨CGameApp.GuardedStep.rfl_step g, Or.inl rfl⟩

theorem CGameApp_stepC_guarded (g : CGameApp) : g.GuardedStep g.stepC := by
  unfold CGameApp.stepC
  by_cases h0 : g.firesC
  · rw [CGameApp_checkCollisionC_first g h0]
    exact ⟨Or.inl rfl, Or.inr ⟨h0.2, rfl⟩, Or.inl rfl, Or.inl rfl, Or.inl rfl⟩
  · by_cases h1 : g.firesC1
    · rw [CGameApp_checkCollisionC_second g h0 h1]
      exact ⟨Or.inl rfl, Or.inl rfl, Or.inr ⟨h1.2, rfl⟩, Or.inl rfl, Or.inl rfl⟩
    · rw [CGameApp_checkCollisionC_idle g h0 h1]
      exact CGameApp.GuardedStep.rfl_step g

theorem CGameApp_stepCB_guarded (g : CGameApp) : g.GuardedStep g.stepCB := by
  unfold CGameApp.stepCB
  by_cases h0 : g.firesCB
  · rw [CGameApp_checkCollisionCB_first g h0]
    exact ⟨Or.inl rfl, Or.inr ⟨h0.2, rfl⟩, Or.inl rfl, Or.inl rfl, Or.inl rfl⟩
  · by_cases h1 : g.firesCB1
    · rw [CGameApp_checkCollisionCB_second g h0 h1]
      exact ⟨Or.inl rfl, Or.inl rfl, Or.inr ⟨h1.2, rfl⟩, Or.inl rfl, Or.inl rfl⟩
    · rw [CGameApp_checkCollisionCB_idle g h0 h1]
      exact CGameApp.GuardedStep.rfl_step g

theorem CGameApp_stepPBE_guarded (g : CGameApp) : g.GuardedStep g.stepPBE := by
  unfold CGameApp.stepPBE
  by_cases h : g.firesPBE
  · rw [CGameApp_checkCollisionPBE_fires g h]
    exact ⟨Or.inl rfl, Or.inl rfl, Or.inl rfl, Or.inr ⟨h.2, rfl⟩, Or.inl rfl⟩
  · rw [CGameApp_checkCollisionPBE_idle g h]
    exact CGameApp.GuardedStep.rfl_step g

theorem CGameApp_checkCollisionEBP_guarded (g : CGameApp) :
    GuardedExplode CPlayer.ifExploded CPlayer.Explode g.m_pPlayer
      g.checkCollisionEBP.2.m_pPlayer := by
  by_cases h0 : g.firesEBP
  · rw [CGameApp_checkCollisionEBP_first g h0]
    exact Or.inr ⟨h0.2, rfl⟩
  · by_cases h1 : g.firesEBP1
    · rw [CGameApp_checkCollisionEBP_second g h0 h1]
      exact Or.inr ⟨h1.2, rfl⟩
    · rw [CGameApp_checkCollisionEBP_idle g h0 h1]
      exact Or.inl rfl

theorem CGameApp_stepEBP_guarded (g : CGameApp) : g.GuardedStep g.stepEBP := by
  unfold CGameApp.stepEBP
  by_cases h0 : g.firesEBP
  · rw [CGameApp_checkCollisionEBP_first g h0]
    exact CGameApp.GuardedStep.rfl_step g
  · by_cases h1 : g.firesEBP1
    · rw [CGameApp_checkCollisionEBP_second g h0 h1]
      exact CGameApp.GuardedStep.rfl_step g
    · rw [CGameApp_checkCollisionEBP_idle g h0 h1]
      exact CGameApp.GuardedStep.rfl_step g

theorem CGameApp_stepL_guarded (g : CGameApp) : g.GuardedStep g.stepL := by
  unfold CGameApp.stepL
  by_cases h : g.firesL
  · rw [CGameApp_checkCollisionL_fires g h]
    exact ⟨Or.inl rfl, Or.inl rfl, Or.inl rfl, Or.inl rfl, Or.inr ⟨h.2, rfl⟩⟩
  · rw [CGameApp_checkCollisionL_idle g h]
    exact CGameApp.GuardedStep.rfl_step g

theorem CGameApp_collisionPass_guarded (g : CGameApp) : g.GuardedStep g.collisionPass := by
  unfold CGameApp.collisionPass
  exact CGameApp.GuardedStep.trans_step _ _ _ (CGameApp_checkCollision_guarded g).1
    (CGameApp.GuardedStep.trans_step _ _ _ (CGameApp_stepC_guarded _)
      (CGameApp.GuardedStep.trans_step _ _ _ (CGameApp_stepCB_guarded _)
        (CGameApp.GuardedStep.trans_step _ _ _ (CGameApp_stepPBE_guarded _)
          (CGameApp.GuardedStep.trans_step _ _ _ (CGameApp_stepEBP_guarded _)
            (CGameApp_stepL_guarded _)))))

/-- C13, counterexample: with the Player five ticks into an explosion, the Enter
key handler explodes the Player again: the Player afterwards is not the Player
as it was, nor the result of an `Explode()` on a Player that was not exploding
(the explosion sprite is set back from frame 4 to frame 0). -/
theorem C13_Enter_key_reexplodes :
    gamePlayerMidExplosion.m_pPlayer.ifExploded = true ∧
    (gamePlayerMidExplosion.onKeyDown VK_RETURN desktop1080).m_pPlayer
      = gamePlayerMidExplosion.m_pPlayer.Explode ∧
    ¬ GuardedExplode CPlayer.ifExploded CPlayer.Explode gamePlayerMidExplosion.m_pPlayer
      (gamePlayerMidExplosion.onKeyDown VK_RETURN desktop1080).m_pPlayer := by
  refine ⟨rfl, rfl, ?_⟩
  rintro (h | ⟨h, -⟩)
  · have h2 := congrArg (fun q : CPlayer => q.m_pExplosionSprite.mFrame) h
    exact absurd h2 (by decide)
  · exact absurd h (by decide)

/-- C13, amended: every `Explode()` call that the six collision checks of the
frame pass make on Player2, on a crate, on the Enemy or on the Lives pickup,
and every `Explode()` call that `checkCollision` and `checkCollisionEBP` make on
the Player, is made only on an entity whose `ifExploded()` is false at the
moment of the call, so that an exploding Player2, crate, Enemy or pickup is
never re-exploded by the frame pass; the Enter and Q key handlers call
`Explode()` on the Player and on Player2 without consulting `ifExploded()`. -/
theorem C13_guarded_Explode_calls (g : CGameApp) (desktop : RECT) :
    g.GuardedStep g.collisionPass ∧
    (g.m_pPlayer2.ifExploded = true → g.collisionPass.m_pPlayer2 = g.m_pPlayer2) ∧
    (g.m_cCrate.ifExploded = true → g.collisionPass.m_cCrate = g.m_cCrate) ∧
    (g.m_cCrate1.ifExploded = true → g.collisionPass.m_cCrate1 = g.m_cCrate1) ∧
    (g.m_pEnemy.ifExploded = true → g.collisionPass.m_pEnemy = g.m_pEnemy) ∧
    (g.m_pHeart.ifExploded = true → g.collisionPass.m_pHeart = g.m_pHeart) ∧
    GuardedExplode CPlayer.ifExploded CPlayer.Explode g.m_pPlayer g.checkCollision.m_pPlayer ∧
    GuardedExplode CPlayer.ifExploded CPlayer.Explode g.m_pPlayer
      g.checkCollisionEBP.2.m_pPlayer ∧
    (g.onKeyDown VK_RETURN desktop).m_pPlayer = g.m_pPlayer.Explode ∧
    (g.onKeyDown VK_Q desktop).m_pPlayer2 = g.m_pPlayer2.Explode := by
  have h := CGameApp_collisionPass_guarded g
  exact ⟨h, GuardedExplode.eq_of_exploding _ _ _ _ h.1,
    GuardedExplode.eq_of_exploding _ _ _ _ h.2.1,
    GuardedExplode.eq_of_exploding _ _ _ _ h.2.2.1,
    GuardedExplode.eq_of_exploding _ _ _ _ h.2.2.2.1,
    GuardedExplode.eq_of_exploding _ _ _ _ h.2.2.2.2,
    (CGameApp_checkCollision_guarded g).2, CGameApp_checkCollisionEBP_guarded g, rfl, rfl⟩

/-- C13, witness: in the crate scenario with the first crate already exploding,
the collision pass leaves that crate as it is, although the Player is still in
contact with it. -/
theorem C13_guarded_Explode_calls_witness :
    gameCrateExploding.collisionPass.m_cCrate = gameCrateExploding.m_cCrate :=
  (C13_guarded_Explode_calls gameCrateExploding desktop1080).2.2.1 rfl

/-! ## Claims on `Explode` during an explosion -/

/-- From frame counter `k`, each call continues while the counter stays below
the last frame. -/
theorem ExplosionCore.advanceTimes_from (N k j : Nat) (p : ExplosionCore)
    (hx : p.m_bExplosion = true) (hf : p.m_iExplosionFrame = k)
    (hc : p.m_pExplosionSprite.frameCount = N) (hk : k + j < N) :
    (advanceTimes ExplosionCore.AdvanceExplosion j p).m_bExplosion = true ∧
    (advanceTimes ExplosionCore.AdvanceExplosion j p).m_iExplosionFrame = ((k + j : Nat) : Int) ∧
    (advanceTimes ExplosionCore.AdvanceExplosion j p).m_pExplosionSprite.frameCount = N := by
  induction j with
  | zero => exact ⟨hx, by simpa using hf, hc⟩
  | succ j ih =>
    obtain ⟨h1, h2, h3⟩ := ih (by omega)
    rw [advanceTimes_succ]
    generalize advanceTimes ExplosionCore.AdvanceExplosion j p = q at h1 h2 h3
    have hne : ¬ (((k + j : Nat) : Int) + 1 = N) := by omega
    simp only [ExplosionCore.AdvanceExplosion, h1, h2, h3, AnimatedSprite.GetFrameCount,
      AnimatedSprite.SetFrame, hne, if_true, if_false]
    exact ⟨trivial, by push_cast; ring, trivial⟩

/-- The explosion from counter `k` on the explosion members. -/
theorem ExplosionCore.resumes (N k : Nat) (hk : k < N) (p : ExplosionCore)
    (hf : p.m_iExplosionFrame = k) (hc : p.m_pExplosionSprite.GetFrameCount = N) :
    ExplosionResumes ExplosionCore.Explode ExplosionCore.AdvanceExplosion
      ExplosionCore.ifExploded (fun q => q.m_iExplosionFrame)
      (fun q => q.m_pExplosionSprite.mFrame) N k p := by
  have hx : p.Explode.m_bExplosion = true := rfl
  have hf1 : p.Explode.m_iExplosionFrame = k := hf
  have hc1 : p.Explode.m_pExplosionSprite.frameCount = N := hc
  refine ⟨rfl, hf, rfl, ?_, fun j hj => ?_, ?_⟩
  · simp only [ExplosionCore.AdvanceExplosion, hx, hf1, AnimatedSprite.SetFrame, if_true]
    split_ifs <;> rfl
  · have h := ExplosionCore.advanceTimes_from N k (j + 1) p.Explode hx hf1 hc1 (by omega)
    rw [advanceTimes_succ] at h
    have h0 := ExplosionCore.advanceTimes_from N k j p.Explode hx hf1 hc1 (by omega)
    generalize advanceTimes ExplosionCore.AdvanceExplosion j p.Explode = q at h h0
    obtain ⟨h1, h2, h3⟩ := h0
    refine ⟨?_, h.1⟩
    have hne : ¬ ((k : Int) + (j : Int) + 1 = N) := by omega
    simp [ExplosionCore.AdvanceExplosion, h1, h2, h3, AnimatedSprite.GetFrameCount,
      AnimatedSprite.SetFrame, hne]
  · obtain ⟨h1, h2, h3⟩ :=
      ExplosionCore.advanceTimes_from N k (N - k - 1) p.Explode hx hf1 hc1 (by omega)
    generalize advanceTimes ExplosionCore.AdvanceExplosion (N - k - 1) p.Explode = q
      at h1 h2 h3
    have he : (k : Int) + ((N - k - 1 : Nat) : Int) + 1 = N := by omega
    simp [ExplosionCore.AdvanceExplosion, h1, h2, h3, AnimatedSprite.GetFrameCount,
      AnimatedSprite.SetFrame, he, ExplosionCore.ifExploded]

/-- An entity whose explosion members follow `ExplosionCore` inherits the
explosion from counter `k`. -/
theorem ExplosionResumes_of_core {α : Type} (explode : α → α) (advance : α → Bool × α)
    (ifExploded : α → Bool) (counter : α → Int) (shownFrame : α → Int)
    (core : α → ExplosionCore)
    (hE : ∀ e, core (explode e) = (core e).Explode)
    (hA : ∀ e, ((advance e).1, core (advance e).2) = (core e).AdvanceExplosion)
    (hX : ∀ e, ifExploded e = (core e).ifExploded)
    (hC : ∀ e, counter e = (core e).m_iExplosionFrame)
    (hS : ∀ e, shownFrame e = (core e).m_pExplosionSprite.mFrame) (N k : Nat) (e : α)
    (h : ExplosionResumes ExplosionCore.Explode ExplosionCore.AdvanceExplosion
      ExplosionCore.ifExploded (fun q => q.m_iExplosionFrame)
      (fun q => q.m_pExplosionSprite.mFrame) N k (core e)) :
    ExplosionResumes explode advance ifExploded counter shownFrame N k e := by
  have hA1 : ∀ e, (advance e).1 = ((core e).AdvanceExplosion).1 := fun e => by rw [← hA e]
  have hA2 : ∀ e, core (advance e).2 = ((core e).AdvanceExplosion).2 := fun e => by rw [← hA e]
  have hit : ∀ j q, core (advanceTimes advance j q)
      = advanceTimes ExplosionCore.AdvanceExplosion j (core q) := by
    intro j q
    induction j with
    | zero => rfl
    | succ j ih => rw [advanceTimes_succ, advanceTimes_succ, hA2, ih]
  obtain ⟨h1, h2, h3, h4, h5, h6, h7⟩ := h
  refine ⟨?_, ?_, ?_, ?_, fun j hj => ?_, ?_, ?_⟩
  · rw [hX, hE]; exact h1
  · rw [hC, hE]; exact h2
  · rw [hS, hE]; exact h3
  · rw [hS, hA2, hE]; exact h4
  · rw [hA1, hX, hA2, hit, hE]; exact h5 j hj
  · rw [hA1, hit, hE]; exact h6
  · rw [hX, hA2, hit, hE]; exact h7

/-- C14, counterexample: `Explode()` on the Player five ticks into an explosion
leaves the frame counter at 5, not 0; the next `AdvanceExplosion()` shows frame
5, and the Player is idle again after 10 further calls, not 15. -/
theorem C14_Explode_keeps_counter :
    playerMidExplosion.Explode.m_iExplosionFrame ≠ 0 ∧
    playerMidExplosion.Explode.AdvanceExplosion.2.m_pExplosionSprite.mFrame = 5 ∧
    (advanceTimes CPlayer.AdvanceExplosion 10 playerMidExplosion.Explode).ifExploded = false := by
  decide

/-- C14, amended: for every entity state whose explosion frame counter is `k`
with `0 <= k < frameCount`, including one that is already Exploding with
`k > 0`, `Explode()` sets the state to Exploding and selects frame 0 on the
explosion sprite but leaves the frame counter at `k`, so that the next
`AdvanceExplosion()` shows frame `k` and exactly `frameCount - k` further
`AdvanceExplosion()` calls are needed to return to Idle (`frameCount` calls
when `k = 0`, as in every state that is not exploding). -/
theorem C14_Explode_resumes_at_counter (N k : Nat) (hk : k < N) (p : CPlayer) (p2 : CPlayer2)
    (e : Enemy) (c : Crate) (l : Lives) :
    (p.m_iExplosionFrame = k → p.m_pExplosionSprite.GetFrameCount = N →
      ExplosionResumes CPlayer.Explode CPlayer.AdvanceExplosion CPlayer.ifExploded
        (fun q => q.m_iExplosionFrame) (fun q => q.m_pExplosionSprite.mFrame) N k p) ∧
    (p2.m_iExplosionFrame = k → p2.m_pExplosionSprite.GetFrameCount = N →
      ExplosionResumes CPlayer2.Explode CPlayer2.AdvanceExplosion CPlayer2.ifExploded
        (fun q => q.m_iExplosionFrame) (fun q => q.m_pExplosionSprite.mFrame) N k p2) ∧
    (e.m_iExplosionFrame = k → e.m_pExplosionSprite.GetFrameCount = N →
      ExplosionResumes Enemy.Explode Enemy.AdvanceExplosion Enemy.ifExploded
        (fun q => q.m_iExplosionFrame) (fun q => q.m_pExplosionSprite.mFrame) N k e) ∧
    (c.m_iExplosionFrame = k → c.m_pExplosionSprite.GetFrameCount = N →
      ExplosionResumes Crate.Explode Crate.AdvanceExplosion Crate.ifExploded
        (fun q => q.m_iExplosionFrame) (fun q => q.m_pExplosionSprite.mFrame) N k c) ∧
    (l.m_iExplosionFrame = k → l.m_pExplosionSprite.GetFrameCount = N →
      ExplosionResumes Lives.Explode Lives.AdvanceExplosion Lives.ifExploded
        (fun q => q.m_iExplosionFrame) (fun q => q.m_pExplosionSprite.mFrame) N k l) := by
  refine ⟨fun hf hc => ?_, fun hf hc => ?_, fun hf hc => ?_, fun hf hc => ?_,
    fun hf hc => ?_⟩
  · exact ExplosionResumes_of_core _ _ _ _ _ CPlayer.core CPlayer_core_Explode
      CPlayer_core_AdvanceExplosion (fun _ => rfl) (fun _ => rfl) (fun _ => rfl) N k p
      (ExplosionCore.resumes N k hk p.core hf hc)
  · exact ExplosionResumes_of_core _ _ _ _ _ CPlayer2.core CPlayer2_core_Explode
      CPlayer2_core_AdvanceExplosion (fun _ => rfl) (fun _ => rfl) (fun _ => rfl) N k p2
      (ExplosionCore.resumes N k hk p2.core hf hc)
  · exact ExplosionResumes_of_core _ _ _ _ _ Enemy.core Enemy_core_Explode
      Enemy_core_AdvanceExplosion (fun _ => rfl) (fun _ => rfl) (fun _ => rfl) N k e
      (ExplosionCore.resumes N k hk e.core hf hc)
  · exact ExplosionResumes_of_core _ _ _ _ _ Crate.core Crate_core_Explode
      Crate_core_AdvanceExplosion (fun _ => rfl) (fun _ => rfl) (fun _ => rfl) N k c
      (ExplosionCore.resumes N k hk c.core hf hc)
  · exact ExplosionResumes_of_core _ _ _ _ _ Lives.core Lives_core_Explode
      Lives_core_AdvanceExplosion (fun _ => rfl) (fun _ => rfl) (fun _ => rfl) N k l
      (ExplosionCore.resumes N k hk l.core hf hc)

/-- C14, witness: the Player five ticks into an explosion (counter 5 of 15
frames) resumes at frame 5 after `Explode()`, and the Lives pickup from counter
0 runs its 3 frames. -/
theorem C14_Explode_resumes_at_counter_witness :
    ExplosionResumes CPlayer.Explode CPlayer.AdvanceExplosion CPlayer.ifExploded
      (fun q => q.m_iExplosionFrame) (fun q => q.m_pExplosionSprite.mFrame) 15 5
      playerMidExplosion ∧
    ExplosionResumes Lives.Explode Lives.AdvanceExplosion Lives.ifExploded
      (fun q => q.m_iExplosionFrame) (fun q => q.m_pExplosionSprite.mFrame) 3 0 heartMid :=
  ⟨(C14_Explode_resumes_at_counter 15 5 (by decide) playerMidExplosion player2Mid enemyMid
      crateMid heartMid).1 rfl rfl,
   (C14_Explode_resumes_at_counter 3 0 (by decide) playerMidExplosion player2Mid enemyMid
      crateMid heartMid).2.2.2.2 rfl rfl⟩

/-! ## More on the collision pass on the observations -/

/-- The `lives` after the pass: one less if a crate test fires, one less if an
Enemy test fires on a Player that is not exploding by then, one more if the
pickup test fires. -/
theorem PassView.pass_lives (v : PassView) :
    v.collisionPass.lives =
      v.lives
        - (if (v.hitPC && !v.xCrate) || (v.hitPC1 && !v.xCrate1) then 1 else 0)
        - (if (v.hitEP || v.hitEbP) &&
              !(v.xPlayer || (v.hitPP2 && !v.xPlayer && !v.xPlayer2) ||
                (v.hitPC && !v.xCrate) || (v.hitPC1 && !v.xCrate1)) then 1 else 0)
        + (if v.hitPL && !v.xHeart then 1 else 0) := by
  simp only [PassView.collisionPass, PassView.checkCollision_eq, PassView.stepC_eq,
    PassView.stepCB_eq, PassView.stepPBE_eq, PassView.stepEBP_eq, PassView.stepL_eq]

theorem PassView.pass_lives_bounds (v : PassView) :
    v.lives - 1 ≤ v.collisionPass.lives ∧ v.collisionPass.lives ≤ v.lives + 1 := by
  rw [PassView.pass_lives]
  generalize (v.hitPC && !v.xCrate) = a
  generalize (v.hitPC1 && !v.xCrate1) = b
  generalize (v.hitEP || v.hitEbP) = e
  generalize (v.xPlayer || (v.hitPP2 && !v.xPlayer && !v.xPlayer2)) = q
  generalize (v.hitPL && !v.xHeart) = l
  cases a <;> cases b <;> cases e <;> cases q <;> cases l <;> simp <;> omega

theorem PassView.pass_explodes_first_crate (v : PassView) (hC : v.hitPC = true)
    (hx : v.xCrate = false) : v.collisionPass.xCrate = true := by
  simp [PassView.collisionPass, PassView.checkCollision_eq, PassView.stepC_eq,
    PassView.stepCB_eq, PassView.stepPBE_eq, PassView.stepEBP_eq, PassView.stepL_eq, hC, hx]

theorem PassView.pass_explodes_second_crate (v : PassView) (hC : v.hitPC1 = true)
    (hx : v.xCrate1 = false) (h0 : ¬ (v.hitPC = true ∧ v.xCrate = false)) :
    v.collisionPass.xCrate1 = true := by
  have h0b : (v.hitPC && !v.xCrate) = false := by
    cases h1 : v.hitPC <;> cases h2 : v.xCrate <;> simp_all
  simp [PassView.collisionPass, PassView.checkCollision_eq, PassView.stepC_eq,
    PassView.stepCB_eq, PassView.stepPBE_eq, PassView.stepEBP_eq, PassView.stepL_eq, hC, hx,
    h0b]

theorem CGameApp_view_hit_iff (g : CGameApp) :
    (g.firesPP2 ↔ g.view.hitPP2 = true ∧ g.view.xPlayer = false ∧ g.view.xPlayer2 = false) ∧
    (g.firesC ↔ g.view.hitPC = true ∧ g.view.xCrate = false) ∧
    (g.firesC1 ↔ g.view.hitPC1 = true ∧ g.view.xCrate1 = false) ∧
    (g.firesCB ↔ g.view.hitBC = true ∧ g.view.xCrate = false) ∧
    (g.firesCB1 ↔ g.view.hitBC1 = true ∧ g.view.xCrate1 = false) ∧
    (g.firesPBE ↔ g.view.hitBE = true ∧ g.view.xEnemy = false) ∧
    (g.firesEBP ↔ g.view.hitEP = true ∧ g.view.xPlayer = false) ∧
    (g.firesEBP1 ↔ g.view.hitEbP = true ∧ g.view.xPlayer = false) ∧
    (g.firesL ↔ g.view.hitPL = true ∧ g.view.xHeart = false) := by
  simp [CGameApp.view, CGameApp.firesPP2, CGameApp.firesC, CGameApp.firesC1, CGameApp.firesCB,
    CGameApp.firesCB1, CGameApp.firesPBE, CGameApp.firesEBP, CGameApp.firesEBP1,
    CGameApp.firesL]

/-- C15, counterexample: with both crates in contact with the Player and
neither exploding at the start of the pass, the first crate is exploding after
the pass and the second crate is not. -/
theorem C15_both_crates_one_explodes :
    gameBothCrates.firesC ∧ gameBothCrates.firesC1 ∧
    gameBothCrates.collisionPass.m_cCrate.ifExploded = true ∧
    gameBothCrates.collisionPass.m_cCrate1.ifExploded = false := by
  have hv := gameBothCrates_view
  have h := CGameApp_view_hit_iff gameBothCrates
  have h3 : gameBothCrates.collisionPass.view.xCrate = true := by
    rw [CGameApp_view_collisionPass, hv]; rfl
  have h4 : gameBothCrates.collisionPass.view.xCrate1 = false := by
    rw [CGameApp_view_collisionPass, hv]; rfl
  refine ⟨h.2.1.mpr ?_, h.2.2.1.mpr ?_, h3, h4⟩
  · rw [hv]; exact ⟨rfl, rfl⟩
  · rw [hv]; exact ⟨rfl, rfl⟩

/-- C15, amended: the two crates are tested against the Player body one after
the other and `checkCollisionC` returns at the first test that fires: if at the
start of the collision pass the Player-to-crate distance is
`<= (playerWidth + crateWidth) / 2` and the crate is not exploding, then after
the pass that crate is exploding, for the first crate always and for the second
crate when the first crate's test does not fire; when the first crate's test
fires, `checkCollisionC` leaves the second crate as it is in that pass. -/
theorem C15_crates_one_hit_per_pass (g : CGameApp) :
    (g.firesC → g.collisionPass.m_cCrate.ifExploded = true) ∧
    (g.firesC1 → ¬ g.firesC → g.collisionPass.m_cCrate1.ifExploded = true) ∧
    (g.firesC → g.checkCollision.checkCollisionC.2.m_cCrate1 = g.m_cCrate1) := by
  have h := CGameApp_view_hit_iff g
  have hpass := CGameApp_view_collisionPass g
  refine ⟨fun hC => ?_, fun hC1 hC => ?_, fun hC => ?_⟩
  · have hv := h.2.1.mp hC
    have := PassView.pass_explodes_first_crate g.view hv.1 hv.2
    rw [← hpass] at this
    exact this
  · have hv := h.2.2.1.mp hC1
    have := PassView.pass_explodes_second_crate g.view hv.1 hv.2 (fun hh => hC (h.2.1.mpr hh))
    rw [← hpass] at this
    exact this
  · have hC' : g.checkCollision.firesC := by
      by_cases hp : g.firesPP2
      · rw [CGameApp_checkCollision_fires g hp]; exact hC
      · rw [CGameApp_checkCollision_idle g hp]; exact hC
    rw [CGameApp_checkCollisionC_first _ hC']
    by_cases hp : g.firesPP2
    · rw [CGameApp_checkCollision_fires g hp]
    · rw [CGameApp_checkCollision_idle g hp]

/-- C15, witness: in the spec's crate scenario the first crate explodes; with
only the second crate in contact the second crate explodes; with both in
contact `checkCollisionC` leaves the second crate as it is. -/
theorem C15_crates_one_hit_per_pass_witness :
    gameCrateScenario.collisionPass.m_cCrate.ifExploded = true ∧
    gameSecondCrateScenario.collisionPass.m_cCrate1.ifExploded = true ∧
    gameBothCrates.checkCollision.checkCollisionC.2.m_cCrate1 = gameBothCrates.m_cCrate1 := by
  have hc : gameCrateScenario.firesC := by
    norm_num [CGameApp.firesC, hit, SqrtQ.le, Vec2.Distance, gameCrateScenario, gameStart,
      playerMid, CPlayer.new, Crate.new, spriteAt, CPlayer.Position, Crate.Position,
      CPlayer.getWidth, Crate.getWidth, Crate.ifExploded]
  have hs1 : gameSecondCrateScenario.firesC1 := by
    norm_num [CGameApp.firesC1, hit, SqrtQ.le, Vec2.Distance, gameSecondCrateScenario,
      gameStart, playerMid, CPlayer.new, Crate.new, spriteAt, CPlayer.Position,
      Crate.Position, CPlayer.getWidth, Crate.getWidth, Crate.ifExploded]
  have hs0 : ¬ gameSecondCrateScenario.firesC := by
    norm_num [CGameApp.firesC, hit, SqrtQ.le, Vec2.Distance, gameSecondCrateScenario,
      gameStart, playerMid, crateMid, CPlayer.new, Crate.new, spriteAt, CPlayer.Position,
      Crate.Position, CPlayer.getWidth, Crate.getWidth, Crate.ifExploded]
  have hb : gameBothCrates.firesC := by
    norm_num [CGameApp.firesC, hit, SqrtQ.le, Vec2.Distance, gameBothCrates,
      gameCrateScenario, gameStart, playerMid, CPlayer.new, Crate.new, spriteAt,
      CPlayer.Position, Crate.Position, CPlayer.getWidth, Crate.getWidth, Crate.ifExploded]
  exact ⟨(C15_crates_one_hit_per_pass gameCrateScenario).1 hc,
    (C15_crates_one_hit_per_pass gameSecondCrateScenario).2.1 hs1 hs0,
    (C15_crates_one_hit_per_pass gameBothCrates).2.2 hb⟩

/-- The observations of the state with the Enemy body and the Enemy's bullet
both in contact with the Player: only these two hit tests hold. -/
theorem gameEnemyBodyAndBullet_view :
    gameEnemyBodyAndBullet.view =
      { hitPP2 := false, hitPC := false, hitPC1 := false, hitBC := false, hitBC1 := false,
        hitBE := false, hitEP := true, hitEbP := true, hitPL := false,
        xPlayer := false, xPlayer2 := false, xCrate := false, xCrate1 := false,
        xEnemy := false, xHeart := false, lives := 10, score := 0 } := by
  norm_num [CGameApp.view, hit, SqrtQ.le, Vec2.Distance, gameEnemyBodyAndBullet,
    gameStart, playerMid, player2Mid, enemyMid, crateMid, heartMid, parkedBullet,
    CPlayer.new, CPlayer2.new, Enemy.new, Crate.new, Lives.new, spriteAt,
    CPlayer.Position, CPlayer2.Position, Enemy.Position, Crate.Position, Lives.Position,
    CPlayer.getWidth, CPlayer2.getWidth, Enemy.getWidth, Crate.getWidth, Lives.getWidth,
    CPlayer.PositionBullet, Enemy.PositionBullet, CPlayer.getWidthBullet,
    Enemy.getWidthBullet, CPlayer.ifExploded, CPlayer2.ifExploded, Enemy.ifExploded,
    Crate.ifExploded, Lives.ifExploded]

/-- C16, counterexample: with the Enemy body and the Enemy's bullet both within
their thresholds of a Player that is not exploding, the collision pass takes
lives from 10 to 9, not to 8. -/
theorem C16_single_decrement :
    gameEnemyBodyAndBullet.firesEBP ∧ gameEnemyBodyAndBullet.firesEBP1 ∧
    gameEnemyBodyAndBullet.collisionPass.lives = 9 ∧
    gameEnemyBodyAndBullet.collisionPass.lives ≠ gameEnemyBodyAndBullet.lives - 2 := by
  have hv := gameEnemyBodyAndBullet_view
  have h := CGameApp_view_hit_iff gameEnemyBodyAndBullet
  have h3 : gameEnemyBodyAndBullet.collisionPass.view.lives = 9 := by
    rw [CGameApp_view_collisionPass, hv]; rfl
  have h4 : gameEnemyBodyAndBullet.collisionPass.lives = 9 := h3
  refine ⟨h.2.2.2.2.2.2.1.mpr ?_, h.2.2.2.2.2.2.2.1.mpr ?_, h4, ?_⟩
  · rw [hv]; exact ⟨rfl, rfl⟩
  · rw [hv]; exact ⟨rfl, rfl⟩
  · rw [h4]; decide

/-- C16, amended: if in one frame both the Enemy body and the Enemy's bullet
are within their hit thresholds of the Player and the Player is not exploding,
then `checkCollisionEBP` returns true at the body test without running the
bullet test, and that frame's collision pass decrements lives once for the
Enemy checks, not twice: the `FrameAdvance` statement around
`checkCollisionEBP` leaves lives exactly 1 lower and the Player exploding, the
whole pass never leaves lives 2 lower, and it leaves lives exactly 1 lower when
no other check fires. -/
theorem C16_enemy_checks_decrement_once (g : CGameApp) (hB : g.firesEBP) (hb : g.firesEBP1) :
    g.checkCollisionEBP.1 = true ∧
    g.stepEBP.lives = g.lives - 1 ∧
    g.stepEBP.m_pPlayer.ifExploded = true ∧
    g.lives - 1 ≤ g.collisionPass.lives ∧
    (¬ g.firesPP2 → ¬ g.firesC → ¬ g.firesC1 → ¬ g.firesL →
      g.collisionPass.lives = g.lives - 1) := by
  have hr := CGameApp_checkCollisionEBP_first g hB
  have hpass := CGameApp_view_collisionPass g
  have hbound := (PassView.pass_lives_bounds g.view).1
  rw [← hpass] at hbound
  refine ⟨by rw [hr], ?_, ?_, hbound, fun h1 h2 h3 h4 => ?_⟩
  · unfold CGameApp.stepEBP
    rw [hr]; rfl
  · unfold CGameApp.stepEBP
    rw [hr]; rfl
  · have h := CGameApp_view_hit_iff g
    have e1 := h.2.2.2.2.2.2.1.mp hB
    have n1 : ¬ (g.view.hitPP2 = true ∧ g.view.xPlayer = false ∧ g.view.xPlayer2 = false) :=
      fun hh => h1 (h.1.mpr hh)
    have n2 : ¬ (g.view.hitPC = true ∧ g.view.xCrate = false) := fun hh => h2 (h.2.1.mpr hh)
    have n3 : ¬ (g.view.hitPC1 = true ∧ g.view.xCrate1 = false) :=
      fun hh => h3 (h.2.2.1.mpr hh)
    have n4 : ¬ (g.view.hitPL = true ∧ g.view.xHeart = false) :=
      fun hh => h4 (h.2.2.2.2.2.2.2.2.mpr hh)
    have a0 : (g.view.hitPC && !g.view.xCrate) = false := by
      cases h5 : g.view.hitPC <;> cases h6 : g.view.xCrate <;> simp_all
    have b0 : (g.view.hitPC1 && !g.view.xCrate1) = false := by
      cases h5 : g.view.hitPC1 <;> cases h6 : g.view.xCrate1 <;> simp_all
    have p0 : (g.view.hitPP2 && !g.view.xPlayer && !g.view.xPlayer2) = false := by
      cases h5 : g.view.hitPP2 <;> cases h6 : g.view.xPlayer <;>
        cases h7 : g.view.xPlayer2 <;> simp_all
    have l0 : (g.view.hitPL && !g.view.xHeart) = false := by
      cases h5 : g.view.hitPL <;> cases h6 : g.view.xHeart <;> simp_all
    have hl : g.collisionPass.view.lives = g.view.lives - 1 := by
      rw [hpass, PassView.pass_lives, a0, b0, p0, l0, e1.1, e1.2]
      simp
    exact hl

/-- C16, witness: with the Enemy body and the Enemy's bullet both in contact
with the Player, from 10 lives, `checkCollisionEBP` returns true, the statement
around it leaves 9 lives and the whole pass leaves 9 lives. -/
theorem C16_enemy_checks_decrement_once_witness :
    gameEnemyBodyAndBullet.checkCollisionEBP.1 = true ∧
    gameEnemyBodyAndBullet.stepEBP.lives = 9 ∧
    gameEnemyBodyAndBullet.collisionPass.lives = 9 := by
  have hv := gameEnemyBodyAndBullet_view
  have h := CGameApp_view_hit_iff gameEnemyBodyAndBullet
  have hB : gameEnemyBodyAndBullet.firesEBP :=
    h.2.2.2.2.2.2.1.mpr (by rw [hv]; exact ⟨rfl, rfl⟩)
  have hb : gameEnemyBodyAndBullet.firesEBP1 :=
    h.2.2.2.2.2.2.2.1.mpr (by rw [hv]; exact ⟨rfl, rfl⟩)
  have n1 : ¬ gameEnemyBodyAndBullet.firesPP2 := fun hh => by
    have := (h.1.mp hh).1; rw [hv] at this; exact absurd this (by decide)
  have n2 : ¬ gameEnemyBodyAndBullet.firesC := fun hh => by
    have := (h.2.1.mp hh).1; rw [hv] at this; exact absurd this (by decide)
  have n3 : ¬ gameEnemyBodyAndBullet.firesC1 := fun hh => by
    have := (h.2.2.1.mp hh).1; rw [hv] at this; exact absurd this (by decide)
  have n4 : ¬ gameEnemyBodyAndBullet.firesL := fun hh => by
    have := (h.2.2.2.2.2.2.2.2.mp hh).1; rw [hv] at this; exact absurd this (by decide)
  have t := C16_enemy_checks_decrement_once gameEnemyBodyAndBullet hB hb
  exact ⟨t.1, t.2.1, t.2.2.2.2 n1 n2 n3 n4⟩

/-! ## Claims on single collision checks -/

/-- C17: `checkCollision` (Player against Player2) makes both players Exploding
when their distance is `<= (width1 + width2) / 2` and neither is already
exploding; otherwise it changes nothing; in every case it leaves `lives` and
`score` unchanged. -/
theorem C17_checkCollision (g : CGameApp) :
    (g.firesPP2 →
      g.checkCollision.m_pPlayer.ifExploded = true ∧
      g.checkCollision.m_pPlayer2.ifExploded = true) ∧
    (¬ g.firesPP2 → g.checkCollision = g) ∧
    g.checkCollision.lives = g.lives ∧ g.checkCollision.score = g.score := by
  by_cases h : g.firesPP2
  · rw [CGameApp_checkCollision_fires g h]
    exact ⟨fun _ => ⟨rfl, rfl⟩, fun hn => absurd h hn, rfl, rfl⟩
  · rw [CGameApp_checkCollision_idle g h]
    exact ⟨fun hh => absurd hh h, fun _ => rfl, rfl, rfl⟩

/-- C18: `checkCollisionL` returns true and leaves the Lives pickup exploding
if and only if the Player-to-pickup distance is
`<= (playerWidth + pickupWidth) / 2` and the pickup is not already exploding,
and then the `FrameAdvance` statement around it adds exactly 1 to `lives`; it
never changes the Player or the score, and while the pickup is exploding it
returns false, changes nothing and no life is granted. -/
theorem C18_checkCollisionL (g : CGameApp) :
    ((g.checkCollisionL.1 = true ∧ g.checkCollisionL.2.m_pHeart.ifExploded = true) ↔
      g.firesL) ∧
    (g.firesL → g.stepL.lives = g.lives + 1) ∧
    (¬ g.firesL → g.checkCollisionL = (false, g) ∧ g.stepL = g) ∧
    g.checkCollisionL.2.m_pPlayer = g.m_pPlayer ∧ g.stepL.m_pPlayer = g.m_pPlayer ∧
    g.checkCollisionL.2.score = g.score ∧ g.stepL.score = g.score ∧
    (g.m_pHeart.ifExploded = true →
      g.checkCollisionL = (false, g) ∧ g.stepL.lives = g.lives) := by
  by_cases h : g.firesL
  · have hr := CGameApp_checkCollisionL_fires g h
    have hs : g.stepL = { g with m_pHeart := g.m_pHeart.Explode,
                                 timers := g.timers.insert 1, lives := g.lives + 1 } := by
      unfold CGameApp.stepL
      rw [hr]; rfl
    rw [hr, hs]
    refine ⟨⟨fun _ => h, fun _ => ⟨rfl, rfl⟩⟩, fun _ => rfl, fun hn => absurd h hn, rfl, rfl,
      rfl, rfl, fun hx => ?_⟩
    have h2 : g.m_pHeart.ifExploded = false := h.2
    rw [hx] at h2
    exact absurd h2 (by decide)
  · have hr := CGameApp_checkCollisionL_idle g h
    have hs : g.stepL = g := by
      unfold CGameApp.stepL
      rw [hr]; rfl
    rw [hr, hs]
    exact ⟨⟨fun hh => absurd hh.1 Bool.false_ne_true, fun hh => absurd hh h⟩,
      fun hh => absurd hh h, fun _ => ⟨rfl, rfl⟩, rfl, rfl, rfl, rfl, fun _ => ⟨rfl, rfl⟩⟩

/-- C19: whenever the Player's first bullet is within
`(bulletWidth + crateWidth) / 2` of at least one crate that is not exploding,
`checkCollisionCB` returns true, the `FrameAdvance` statement around it raises
`score` by exactly 1, a hit crate becomes exploding (the first crate if its
test fires, else the second) and the Player is unchanged; otherwise it returns
false and changes nothing. It never changes `lives`. -/
theorem C19_checkCollisionCB (g : CGameApp) :
    (g.firesCB ∨ g.firesCB1 →
      g.checkCollisionCB.1 = true ∧ g.stepCB.score = g.score + 1 ∧
      (g.firesCB → g.checkCollisionCB.2.m_cCrate.ifExploded = true) ∧
      (¬ g.firesCB → g.checkCollisionCB.2.m_cCrate1.ifExploded = true) ∧
      g.checkCollisionCB.2.m_pPlayer = g.m_pPlayer) ∧
    (¬ (g.firesCB ∨ g.firesCB1) → g.checkCollisionCB = (false, g) ∧ g.stepCB = g) ∧
    g.checkCollisionCB.2.lives = g.lives ∧ g.stepCB.lives = g.lives := by
  by_cases h0 : g.firesCB
  · have hr := CGameApp_checkCollisionCB_first g h0
    have hs : g.stepCB = { g with m_cCrate := g.m_cCrate.Explode,
                                  timers := g.timers.insert 1, score := g.score + 1 } := by
      unfold CGameApp.stepCB
      rw [hr]; rfl
    rw [hr, hs]
    exact ⟨fun _ => ⟨rfl, rfl, fun _ => rfl, fun hn => absurd h0 hn, rfl⟩,
      fun hn => absurd (Or.inl h0) hn, rfl, rfl⟩
  · by_cases h1 : g.firesCB1
    · have hr := CGameApp_checkCollisionCB_second g h0 h1
      have hs : g.stepCB = { g with m_cCrate1 := g.m_cCrate1.Explode,
                                    timers := g.timers.insert 2, score := g.score + 1 } := by
        unfold CGameApp.stepCB
        rw [hr]; rfl
      rw [hr, hs]
      exact ⟨fun _ => ⟨rfl, rfl, fun hh => absurd hh h0, fun _ => rfl, rfl⟩,
        fun hn => absurd (Or.inr h1) hn, rfl, rfl⟩
    · have hr := CGameApp_checkCollisionCB_idle g h0 h1
      have hs : g.stepCB = g := by
        unfold CGameApp.stepCB
        rw [hr]; rfl
      rw [hr, hs]
      exact ⟨fun hh => absurd hh (not_or.mpr ⟨h0, h1⟩), fun _ => ⟨rfl, rfl⟩, rfl, rfl⟩

/-- C17, witness: Player at (400, 400) and Player2 at (440, 400), both of width
64: both explode, lives stay 10 and the score stays 0. -/
theorem C17_checkCollision_witness :
    gamePlayersContact.checkCollision.m_pPlayer.ifExploded = true ∧
    gamePlayersContact.checkCollision.m_pPlayer2.ifExploded = true ∧
    gamePlayersContact.checkCollision.lives = 10 ∧
    gamePlayersContact.checkCollision.score = 0 := by
  have h := C17_checkCollision gamePlayersContact
  have hf : gamePlayersContact.firesPP2 := by
    norm_num [CGameApp.firesPP2, hit, SqrtQ.le, Vec2.Distance, gamePlayersContact, gameStart,
      playerMid, CPlayer.new, CPlayer2.new, spriteAt, CPlayer.Position, CPlayer2.Position,
      CPlayer.getWidth, CPlayer2.getWidth, CPlayer.ifExploded, CPlayer2.ifExploded]
  exact ⟨(h.1 hf).1, (h.1 hf).2, h.2.2.1, h.2.2.2⟩

/-- C18, witness: Player of width 64 at (400, 220) and pickup of width 24 at
(400, 200): the check returns true, the pickup explodes and lives go from 10
to 11. -/
theorem C18_checkCollisionL_witness :
    gameHeartContact.checkCollisionL.1 = true ∧
    gameHeartContact.checkCollisionL.2.m_pHeart.ifExploded = true ∧
    gameHeartContact.stepL.lives = 11 := by
  have h := C18_checkCollisionL gameHeartContact
  have hf : gameHeartContact.firesL := by
    norm_num [CGameApp.firesL, hit, SqrtQ.le, Vec2.Distance, gameHeartContact, gameStart,
      heartMid, CPlayer.new, Lives.new, spriteAt, CPlayer.Position, Lives.Position,
      CPlayer.getWidth, Lives.getWidth, Lives.ifExploded]
  exact ⟨(h.1.mpr hf).1, (h.1.mpr hf).2, h.2.1 hf⟩

/-- C19, witness: the Player's first bullet of width 10 at (200, 110) and the
first crate of width 64 at (200, 100): the check returns true, the crate
explodes and the score goes from 0 to 1. -/
theorem C19_checkCollisionCB_witness :
    gameBulletOnCrate.checkCollisionCB.1 = true ∧
    gameBulletOnCrate.checkCollisionCB.2.m_cCrate.ifExploded = true ∧
    gameBulletOnCrate.stepCB.score = 1 := by
  have h := C19_checkCollisionCB gameBulletOnCrate
  have hf : gameBulletOnCrate.firesCB := by
    norm_num [CGameApp.firesCB, hit, SqrtQ.le, Vec2.Distance, gameBulletOnCrate, gameStart,
      crateMid, CPlayer.new, Crate.new, spriteAt, CPlayer.PositionBullet, Crate.Position,
      CPlayer.getWidthBullet, Crate.getWidth, Crate.ifExploded]
  have t := h.1 (Or.inl hf)
  exact ⟨t.1, t.2.2.1 hf, t.2.1⟩

/-! ## Claims on the timers that drive the explosions -/

theorem gameEnterOneTick_reached :
    gameBulletScenario.runEvents
      [ControllerEvent.keyDown VK_RETURN desktop1080, ControllerEvent.timer 1]
      = gameEnterOneTick := by
  decide

theorem gameEnterOneTick_pass : gameEnterOneTick.collisionPass = gameEnterEnemyHit := by
  have n1 : ¬ gameEnterOneTick.firesPP2 := by
    norm_num [CGameApp.firesPP2, hit, SqrtQ.le, Vec2.Distance, gameEnterOneTick,
      gameBulletScenario, gameStart, player2Mid, CPlayer.new, CPlayer2.new, spriteAt,
      CPlayer.Position, CPlayer2.Position, CPlayer.getWidth, CPlayer2.getWidth,
      CPlayer.ifExploded, CPlayer2.ifExploded]
  have n2 : ¬ gameEnterOneTick.firesC := by
    norm_num [CGameApp.firesC, hit, SqrtQ.le, Vec2.Distance, gameEnterOneTick,
      gameBulletScenario, gameStart, crateMid, CPlayer.new, Crate.new, spriteAt,
      CPlayer.Position, Crate.Position, CPlayer.getWidth, Crate.getWidth, Crate.ifExploded]
  have n3 : ¬ gameEnterOneTick.firesC1 := by
    norm_num [CGameApp.firesC1, hit, SqrtQ.le, Vec2.Distance, gameEnterOneTick,
      gameBulletScenario, gameStart, CPlayer.new, Crate.new, spriteAt,
      CPlayer.Position, Crate.Position, CPlayer.getWidth, Crate.getWidth, Crate.ifExploded]
  have n4 : ¬ gameEnterOneTick.firesCB := by
    norm_num [CGameApp.firesCB, hit, SqrtQ.le, Vec2.Distance, gameEnterOneTick,
      gameBulletScenario, gameStart, crateMid, CPlayer.new, Crate.new, spriteAt,
      CPlayer.PositionBullet, Crate.Position, CPlayer.getWidthBullet, Crate.getWidth,
      Crate.ifExploded]
  have n5 : ¬ gameEnterOneTick.firesCB1 := by
    norm_num [CGameApp.firesCB1, hit, SqrtQ.le, Vec2.Distance, gameEnterOneTick,
      gameBulletScenario, gameStart, CPlayer.new, Crate.new, spriteAt,
      CPlayer.PositionBullet, Crate.Position, CPlayer.getWidthBullet, Crate.getWidth,
      Crate.ifExploded]
  have f6 : gameEnterOneTick.firesPBE := by
    norm_num [CGameApp.firesPBE, hit, SqrtQ.le, Vec2.Distance, gameEnterOneTick,
      gameBulletScenario, gameStart, CPlayer.new, Enemy.new, spriteAt,
      CPlayer.PositionBullet, Enemy.Position, CPlayer.getWidthBullet, Enemy.getWidth,
      Enemy.ifExploded]
  have n9 : ¬ gameEnterOneTick.firesL := by
    norm_num [CGameApp.firesL, hit, SqrtQ.le, Vec2.Distance, gameEnterOneTick,
      gameBulletScenario, gameStart, heartMid, CPlayer.new, Lives.new, spriteAt,
      CPlayer.Position, Lives.Position, CPlayer.getWidth, Lives.getWidth, Lives.ifExploded]
  have s1 : gameEnterOneTick.checkCollision = gameEnterOneTick :=
    CGameApp_checkCollision_idle _ n1
  have s2 : gameEnterOneTick.stepC = gameEnterOneTick := by
    unfold CGameApp.stepC
    rw [CGameApp_checkCollisionC_idle _ n2 n3]; rfl
  have s3 : gameEnterOneTick.stepCB = gameEnterOneTick := by
    unfold CGameApp.stepCB
    rw [CGameApp_checkCollisionCB_idle _ n4 n5]; rfl
  have s4 : gameEnterOneTick.stepPBE = gameEnterEnemyHit := by
    unfold CGameApp.stepPBE
    rw [CGameApp_checkCollisionPBE_fires _ f6]; rfl
  have n7 : ¬ gameEnterEnemyHit.firesEBP := fun h => absurd h.2 (by decide)
  have n8 : ¬ gameEnterEnemyHit.firesEBP1 := fun h => absurd h.2 (by decide)
  have n9b : ¬ gameEnterEnemyHit.firesL := n9
  have s5 : gameEnterEnemyHit.stepEBP = gameEnterEnemyHit := by
    unfold CGameApp.stepEBP
    rw [CGameApp_checkCollisionEBP_idle _ n7 n8]; rfl
  have s6 : gameEnterEnemyHit.stepL = gameEnterEnemyHit := by
    unfold CGameApp.stepL
    rw [CGameApp_checkCollisionL_idle _ n9b]; rfl
  unfold CGameApp.collisionPass
  simp only [s1, s2, s3, s4, s5, s6]

/-- C20, the code at the failing input: from the bullet scenario, the Enter key
explodes the Player on timer 1; one tick later the collision pass explodes the
Enemy, again on timer 1; fourteen ticks later the Player's explosion ends and
the handler stops timer 1. The Enemy is then still exploding, at frame counter
14 of 15, and no timer is running, so no further timer tick can reach it. -/
theorem C20_enemy_left_without_timer :
    (gameBulletScenario.runEvents eventsEnterThenEnemyHit).m_pEnemy.ifExploded = true ∧
    (gameBulletScenario.runEvents eventsEnterThenEnemyHit).m_pEnemy.m_iExplosionFrame = 14 ∧
    (gameBulletScenario.runEvents eventsEnterThenEnemyHit).m_pPlayer.ifExploded = false ∧
    (gameBulletScenario.runEvents eventsEnterThenEnemyHit).timers = [] ∧
    (∀ id : Nat,
      (gameBulletScenario.runEvents eventsEnterThenEnemyHit).handle (ControllerEvent.timer id)
        = gameBulletScenario.runEvents eventsEnterThenEnemyHit) := by
  have h : gameBulletScenario.runEvents eventsEnterThenEnemyHit
      = gameEnterEnemyHit.runEvents (List.replicate 14 (ControllerEvent.timer 1)) := by
    have h1 : gameBulletScenario.runEvents eventsEnterThenEnemyHit
        = ((gameBulletScenario.runEvents
            [ControllerEvent.keyDown VK_RETURN desktop1080, ControllerEvent.timer 1]).handle
            ControllerEvent.collisionPass).runEvents
              (List.replicate 14 (ControllerEvent.timer 1)) := rfl
    rw [h1, gameEnterOneTick_reached]
    show gameEnterOneTick.collisionPass.runEvents _ = _
    rw [gameEnterOneTick_pass]
  have ht : (gameEnterEnemyHit.runEvents (List.replicate 14 (ControllerEvent.timer 1))).timers
      = [] := by decide
  rw [h]
  refine ⟨by decide, by decide, by decide, ht, fun id => ?_⟩
  generalize gameEnterEnemyHit.runEvents (List.replicate 14 (ControllerEvent.timer 1)) = gf
    at ht
  simp only [CGameApp.handle, ht, List.not_mem_nil, if_false]

/-- C21, the code at the failing input: after Q, Enter and seven rounds of
ticks, timers 1 and 2 are running, the Player stands at frame counter 7 and
Player2 at 14 of 15. The next tick of timer 1 finds the Player still exploding
(its `AdvanceExplosion` returns true), runs on into `case 2`, where Player2
finishes, and stops timer 2: afterwards only timer 1 is running. -/
theorem C21_tick_of_timer_1_stops_timer_2 :
    (gameStart.runEvents eventsBothPlayersExploding).timers = [1, 2] ∧
    (gameStart.runEvents eventsBothPlayersExploding).m_pPlayer.m_iExplosionFrame = 7 ∧
    (gameStart.runEvents eventsBothPlayersExploding).m_pPlayer2.m_iExplosionFrame = 14 ∧
    (gameStart.runEvents eventsBothPlayersExploding).m_pPlayer.AdvanceExplosion.1 = true ∧
    ((gameStart.runEvents eventsBothPlayersExploding).handle
      (ControllerEvent.timer 1)).timers = [1] ∧
    ((gameStart.runEvents eventsBothPlayersExploding).handle
      (ControllerEvent.timer 1)).m_pPlayer.ifExploded = true := by
  decide

/-! ## Claims on one `AdvanceExplosion` call -/

/-- C22: one `AdvanceExplosion` call on any of the five entities. Not exploding:
nothing changes and the result is true. Exploding with counter `k` and
`k + 1 = frameCount`: the explosion sprite shows frame `k`, the entity is idle,
the counter is 0, the velocity is (0, 0), the speed state is `SPEED_STOP` and
the result is false. Exploding with `k + 1 != frameCount`: the explosion sprite
shows frame `k`, the counter is `k + 1`, nothing else changes and the result is
true. -/
theorem C22_AdvanceExplosion_step (p : CPlayer) (p2 : CPlayer2) (e : Enemy) (c : Crate)
    (l : Lives) :
    ((p.ifExploded = false → p.AdvanceExplosion = (true, p)) ∧
     (p.ifExploded = true →
        p.m_iExplosionFrame + 1 = p.m_pExplosionSprite.GetFrameCount →
        p.AdvanceExplosion = (false, { p with
          m_pExplosionSprite := p.m_pExplosionSprite.SetFrame p.m_iExplosionFrame,
          m_bExplosion := false, m_iExplosionFrame := 0,
          m_pSprite := { p.m_pSprite with mVelocity := ⟨0, 0⟩ },
          m_eSpeedState := ESpeedStates.SPEED_STOP })) ∧
     (p.ifExploded = true →
        p.m_iExplosionFrame + 1 ≠ p.m_pExplosionSprite.GetFrameCount →
        p.AdvanceExplosion = (true, { p with
          m_pExplosionSprite := p.m_pExplosionSprite.SetFrame p.m_iExplosionFrame,
          m_iExplosionFrame := p.m_iExplosionFrame + 1 }))) ∧
    ((p2.ifExploded = false → p2.AdvanceExplosion = (true, p2)) ∧
     (p2.ifExploded = true →
        p2.m_iExplosionFrame + 1 = p2.m_pExplosionSprite.GetFrameCount →
        p2.AdvanceExplosion = (false, { p2 with
          m_pExplosionSprite := p2.m_pExplosionSprite.SetFrame p2.m_iExplosionFrame,
          m_bExplosion := false, m_iExplosionFrame := 0,
          m_pSprite := { p2.m_pSprite with mVelocity := ⟨0, 0⟩ },
          m_eSpeedState := ESpeedStates.SPEED_STOP })) ∧
     (p2.ifExploded = true →
        p2.m_iExplosionFrame + 1 ≠ p2.m_pExplosionSprite.GetFrameCount →
        p2.AdvanceExplosion = (true, { p2 with
          m_pExplosionSprite := p2.m_pExplosionSprite.SetFrame p2.m_iExplosionFrame,
          m_iExplosionFrame := p2.m_iExplosionFrame + 1 }))) ∧
    ((e.ifExploded = false → e.AdvanceExplosion = (true, e)) ∧
     (e.ifExploded = true →
        e.m_iExplosionFrame + 1 = e.m_pExplosionSprite.GetFrameCount →
        e.AdvanceExplosion = (false, { e with
          m_pExplosionSprite := e.m_pExplosionSprite.SetFrame e.m_iExplosionFrame,
          m_bExplosion := false, m_iExplosionFrame := 0,
          m_pSprite := { e.m_pSprite with mVelocity := ⟨0, 0⟩ },
          m_eSpeedState := ESpeedStates.SPEED_STOP })) ∧
     (e.ifExploded = true →
        e.m_iExplosionFrame + 1 ≠ e.m_pExplosionSprite.GetFrameCount →
        e.AdvanceExplosion = (true, { e with
          m_pExplosionSprite := e.m_pExplosionSprite.SetFrame e.m_iExplosionFrame,
          m_iExplosionFrame := e.m_iExplosionFrame + 1 }))) ∧
    ((c.ifExploded = false → c.AdvanceExplosion = (true, c)) ∧
     (c.ifExploded = true →
        c.m_iExplosionFrame + 1 = c.m_pExplosionSprite.GetFrameCount →
        c.AdvanceExplosion = (false, { c with
          m_pExplosionSprite := c.m_pExplosionSprite.SetFrame c.m_iExplosionFrame,
          m_bExplosion := false, m_iExplosionFrame := 0,
          m_pSprite := { c.m_pSprite with mVelocity := ⟨0, 0⟩ },
          m_eSpeedState := ESpeedStates.SPEED_STOP })) ∧
     (c.ifExploded = true →
        c.m_iExplosionFrame + 1 ≠ c.m_pExplosionSprite.GetFrameCount →
        c.AdvanceExplosion = (true, { c with
          m_pExplosionSprite := c.m_pExplosionSprite.SetFrame c.m_iExplosionFrame,
          m_iExplosionFrame := c.m_iExplosionFrame + 1 }))) ∧
    ((l.ifExploded = false → l.AdvanceExplosion = (true, l)) ∧
     (l.ifExploded = true →
        l.m_iExplosionFrame + 1 = l.m_pExplosionSprite.GetFrameCount →
        l.AdvanceExplosion = (false, { l with
          m_pExplosionSprite := l.m_pExplosionSprite.SetFrame l.m_iExplosionFrame,
          m_bExplosion := false, m_iExplosionFrame := 0,
          m_pSprite := { l.m_pSprite with mVelocity := ⟨0, 0⟩ },
          m_eSpeedState := ESpeedStates.SPEED_STOP })) ∧
     (l.ifExploded = true →
        l.m_iExplosionFrame + 1 ≠ l.m_pExplosionSprite.GetFrameCount →
        l.AdvanceExplosion = (true, { l with
          m_pExplosionSprite := l.m_pExplosionSprite.SetFrame l.m_iExplosionFrame,
          m_iExplosionFrame := l.m_iExplosionFrame + 1 }))) := by
  refine ⟨⟨?_, ?_, ?_⟩, ⟨?_, ?_, ?_⟩, ⟨?_, ?_, ?_⟩, ⟨?_, ?_, ?_⟩, ⟨?_, ?_, ?_⟩⟩
  · intro h
    simp only [CPlayer.ifExploded] at h
    simp [CPlayer.AdvanceExplosion, h]
  · intro h hk
    simp only [CPlayer.ifExploded] at h
    simp only [AnimatedSprite.GetFrameCount] at hk
    simp [CPlayer.AdvanceExplosion, h, hk, AnimatedSprite.GetFrameCount,
      AnimatedSprite.SetFrame]
  · intro h hk
    simp only [CPlayer.ifExploded] at h
    simp only [AnimatedSprite.GetFrameCount] at hk
    simp [CPlayer.AdvanceExplosion, h, hk, AnimatedSprite.GetFrameCount,
      AnimatedSprite.SetFrame]
  · intro h
    simp only [CPlayer2.ifExploded] at h
    simp [CPlayer2.AdvanceExplosion, h]
  · intro h hk
    simp only [CPlayer2.ifExploded] at h
    simp only [AnimatedSprite.GetFrameCount] at hk
    simp [CPlayer2.AdvanceExplosion, h, hk, AnimatedSprite.GetFrameCount,
      AnimatedSprite.SetFrame]
  · intro h hk
    simp only [CPlayer2.ifExploded] at h
    simp only [AnimatedSprite.GetFrameCount] at hk
    simp [CPlayer2.AdvanceExplosion, h, hk, AnimatedSprite.GetFrameCount,
      AnimatedSprite.SetFrame]
  · intro h
    simp only [Enemy.ifExploded] at h
    simp [Enemy.AdvanceExplosion, h]
  · intro h hk
    simp only [Enemy.ifExploded] at h
    simp only [AnimatedSprite.GetFrameCount] at hk
    simp [Enemy.AdvanceExplosion, h, hk, AnimatedSprite.GetFrameCount,
      AnimatedSprite.SetFrame]
  · intro h hk
    simp only [Enemy.ifExploded] at h
    simp only [AnimatedSprite.GetFrameCount] at hk
    simp [Enemy.AdvanceExplosion, h, hk, AnimatedSprite.GetFrameCount,
      AnimatedSprite.SetFrame]
  · intro h
    simp only [Crate.ifExploded] at h
    simp [Crate.AdvanceExplosion, h]
  · intro h hk
    simp only [Crate.ifExploded] at h
    simp only [AnimatedSprite.GetFrameCount] at hk
    simp [Crate.AdvanceExplosion, h, hk, AnimatedSprite.GetFrameCount,
      AnimatedSprite.SetFrame]
  · intro h hk
    simp only [Crate.ifExploded] at h
    simp only [AnimatedSprite.GetFrameCount] at hk
    simp [Crate.AdvanceExplosion, h, hk, AnimatedSprite.GetFrameCount,
      AnimatedSprite.SetFrame]
  · intro h
    simp only [Lives.ifExploded] at h
    simp [Lives.AdvanceExplosion, h]
  · intro h hk
    simp only [Lives.ifExploded] at h
    simp only [AnimatedSprite.GetFrameCount] at hk
    simp [Lives.AdvanceExplosion, h, hk, AnimatedSprite.GetFrameCount,
      AnimatedSprite.SetFrame]
  · intro h hk
    simp only [Lives.ifExploded] at h
    simp only [AnimatedSprite.GetFrameCount] at hk
    simp [Lives.AdvanceExplosion, h, hk, AnimatedSprite.GetFrameCount,
      AnimatedSprite.SetFrame]

/-- C22 at the Player five ticks into its explosion of 15 frames: the call
returns true, shows frame 5 and moves the counter to 6. -/
theorem C22_AdvanceExplosion_step_witness :
    playerMidExplosion.ifExploded = true ∧
    playerMidExplosion.m_iExplosionFrame + 1
      ≠ playerMidExplosion.m_pExplosionSprite.GetFrameCount ∧
    playerMidExplosion.AdvanceExplosion = (true, { playerMidExplosion with
      m_pExplosionSprite :=
        playerMidExplosion.m_pExplosionSprite.SetFrame playerMidExplosion.m_iExplosionFrame,
      m_iExplosionFrame := playerMidExplosion.m_iExplosionFrame + 1 }) :=
  ⟨by decide, by decide,
    (C22_AdvanceExplosion_step playerMidExplosion player2Mid enemyMid crateMid heartMid).1.2.2
      (by decide) (by decide)⟩

/-! ## Claims on the frame -/

theorem CGameApp_DrawObjects_y (g : CGameApp) :
    g.DrawObjects.y = if g.y + 2 = 600 then -120 else g.y + 2 := by
  unfold CGameApp.DrawObjects
  simp only
  split_ifs <;> rfl

theorem CGameApp_DrawObjects_scroll (g : CGameApp)
    (h : Even g.y ∧ -600 ≤ g.y ∧ g.y ≤ 598) :
    Even g.DrawObjects.y ∧ -600 ≤ g.DrawObjects.y ∧ g.DrawObjects.y ≤ 598 := by
  obtain ⟨⟨k, hk⟩, h1, h2⟩ := h
  rw [CGameApp_DrawObjects_y]
  split_ifs with h6
  · exact ⟨⟨-60, by decide⟩, by decide, by decide⟩
  · exact ⟨⟨k + 1, by omega⟩, by omega, by omega⟩

theorem CGameApp_ProcessInput_y (g : CGameApp) (inp : FrameInput) :
    (g.ProcessInput inp).y = g.y := by
  unfold CGameApp.ProcessInput
  by_cases hk : inp.keyboardState = false
  · rw [if_pos hk]
  · rw [if_neg hk]
    simp [apply_ite CGameApp.y]

theorem CGameApp_AnimateObjects_y (g : CGameApp) (spriteUpdate : Sprite → ℚ → Sprite)
    (dt : ℚ) : (g.AnimateObjects spriteUpdate dt).y = g.y := rfl

theorem CGameApp_checkCollision_y (g : CGameApp) : g.checkCollision.y = g.y := by
  unfold CGameApp.checkCollision
  simp only
  split_ifs <;> rfl

theorem CGameApp_stepC_y (g : CGameApp) : g.stepC.y = g.y := by
  unfold CGameApp.stepC CGameApp.checkCollisionC
  simp only
  split_ifs <;> rfl

theorem CGameApp_stepCB_y (g : CGameApp) : g.stepCB.y = g.y := by
  unfold CGameApp.stepCB CGameApp.checkCollisionCB
  simp only
  split_ifs <;> rfl

theorem CGameApp_stepPBE_y (g : CGameApp) : g.stepPBE.y = g.y := by
  unfold CGameApp.stepPBE CGameApp.checkCollisionPBE
  simp only
  split_ifs <;> rfl

theorem CGameApp_stepEBP_y (g : CGameApp) : g.stepEBP.y = g.y := by
  unfold CGameApp.stepEBP CGameApp.checkCollisionEBP
  simp only
  split_ifs <;> rfl

theorem CGameApp_stepL_y (g : CGameApp) : g.stepL.y = g.y := by
  unfold CGameApp.stepL CGameApp.checkCollisionL
  simp only
  split_ifs <;> rfl

theorem CGameApp_collisionPass_y (g : CGameApp) : g.collisionPass.y = g.y := by
  unfold CGameApp.collisionPass
  simp only [CGameApp_stepL_y, CGameApp_stepEBP_y, CGameApp_stepPBE_y, CGameApp_stepCB_y,
    CGameApp_stepC_y, CGameApp_checkCollision_y]

theorem CGameApp_FrameAdvance_y (g : CGameApp) (spriteUpdate : Sprite → ℚ → Sprite)
    (inp : FrameInput) :
    (g.FrameAdvance spriteUpdate inp).y = if g.m_bActive = false then g.y
      else if g.y + 2 = 600 then -120 else g.y + 2 := by
  unfold CGameApp.FrameAdvance
  split_ifs with ha h6
  · rfl
  · simp only [CGameApp_collisionPass_y, CGameApp_DrawObjects_y, CGameApp_AnimateObjects_y,
      CGameApp_ProcessInput_y, if_pos h6]
  · simp only [CGameApp_collisionPass_y, CGameApp_DrawObjects_y, CGameApp_AnimateObjects_y,
      CGameApp_ProcessInput_y, if_neg h6]

/-- C23: a `FrameAdvance` on an inactive window returns the game as it was:
lives, score, the scroll offset, the timers and all six entities are the same
after the call. -/
theorem C23_FrameAdvance_inactive (g : CGameApp) (spriteUpdate : Sprite → ℚ → Sprite)
    (inp : FrameInput) (h : g.m_bActive = false) :
    g.FrameAdvance spriteUpdate inp = g := by
  unfold CGameApp.FrameAdvance
  rw [if_pos h]

/-- C23 at the start state with the window inactive, in a frame with the left
arrow held: the frame leaves the game as it is, whereas the same frame on the
active window moves the scroll offset from -600 to -598. -/
theorem C23_FrameAdvance_inactive_witness :
    gameInactive.m_bActive = false ∧
    gameInactive.FrameAdvance spriteStill frameLeftArrow = gameInactive ∧
    (gameStart.FrameAdvance spriteStill frameLeftArrow).y = -598 :=
  ⟨rfl, C23_FrameAdvance_inactive gameInactive spriteStill frameLeftArrow rfl,
    by rw [CGameApp_FrameAdvance_y]; decide⟩

theorem CGameApp_runFrames_scroll (spriteUpdate : Sprite → ℚ → Sprite)
    (frames : List FrameInput) (g : CGameApp) (h : Even g.y ∧ -600 ≤ g.y ∧ g.y ≤ 598) :
    Even (g.runFrames spriteUpdate frames).y ∧ -600 ≤ (g.runFrames spriteUpdate frames).y ∧
    (g.runFrames spriteUpdate frames).y ≤ 598 := by
  induction frames generalizing g with
  | nil => exact h
  | cons inp rest ih =>
    show Even ((g.FrameAdvance spriteUpdate inp).runFrames spriteUpdate rest).y ∧ _
    apply ih
    rw [CGameApp_FrameAdvance_y]
    by_cases ha : g.m_bActive = false
    · rw [if_pos ha]; exact h
    · rw [if_neg ha, ← CGameApp_DrawObjects_y]
      exact CGameApp_DrawObjects_scroll g h

theorem CGameApp_iterate_DrawObjects_scroll (n : Nat) (g : CGameApp)
    (h : Even g.y ∧ -600 ≤ g.y ∧ g.y ≤ 598) :
    Even (CGameApp.DrawObjects^[n] g).y ∧ -600 ≤ (CGameApp.DrawObjects^[n] g).y ∧
    (CGameApp.DrawObjects^[n] g).y ≤ 598 := by
  induction n generalizing g with
  | zero => exact h
  | succ n ih =>
    rw [Function.iterate_succ_apply]
    exact ih g.DrawObjects (CGameApp_DrawObjects_scroll g h)

/-- C24: one `DrawObjects` call sets the scroll offset `y` to `y + 2`, or to
-120 when `y + 2` is 600. From `y = -600`, after any number of `DrawObjects`
calls, and after any sequence of frames, `y` is even with `-600 <= y <= 598`,
so it is never 600 or more. -/
theorem C24_scroll_offset (g : CGameApp) (h : g.y = -600) :
    (∀ g1 : CGameApp, g1.DrawObjects.y = if g1.y + 2 = 600 then -120 else g1.y + 2) ∧
    (∀ n : Nat, Even (CGameApp.DrawObjects^[n] g).y ∧
      -600 ≤ (CGameApp.DrawObjects^[n] g).y ∧ (CGameApp.DrawObjects^[n] g).y ≤ 598) ∧
    (∀ (spriteUpdate : Sprite → ℚ → Sprite) (frames : List FrameInput),
      Even (g.runFrames spriteUpdate frames).y ∧
      -600 ≤ (g.runFrames spriteUpdate frames).y ∧
      (g.runFrames spriteUpdate frames).y ≤ 598) := by
  have h0 : Even g.y ∧ -600 ≤ g.y ∧ g.y ≤ 598 := by
    rw [h]; exact ⟨⟨-300, by decide⟩, by decide, by decide⟩
  exact ⟨CGameApp_DrawObjects_y, fun n => CGameApp_iterate_DrawObjects_scroll n g h0,
    fun spriteUpdate frames => CGameApp_runFrames_scroll spriteUpdate frames g h0⟩

/-- C24 at the start state, whose offset is -600, after 600 `DrawObjects`
calls. -/
theorem C24_scroll_offset_witness :
    gameStart.y = -600 ∧
    Even (CGameApp.DrawObjects^[600] gameStart).y ∧
    -600 ≤ (CGameApp.DrawObjects^[600] gameStart).y ∧
    (CGameApp.DrawObjects^[600] gameStart).y ≤ 598 :=
  ⟨rfl, (C24_scroll_offset gameStart rfl).2.1 600⟩

/-! ## Claims on `Update` -/

theorem SqrtQ.gt_iff_real_sqrt (d : SqrtQ) (t : ℚ) :
    d.gt t ↔ (t : ℝ) < Real.sqrt (d.radicand : ℝ) := by
  rw [← not_le, ← SqrtQ.le_iff_real_sqrt, SqrtQ.le, SqrtQ.gt]
  constructor
  · rintro (h | h) ⟨h1, h2⟩
    · exact absurd h1 (not_le.mpr h)
    · exact absurd h2 (not_le.mpr h)
  · intro h
    by_cases h1 : 0 ≤ t
    · exact Or.inr (not_le.mp fun h2 => h ⟨h1, h2⟩)
    · exact Or.inl (not_le.mp h1)

theorem SqrtQ.lt_iff_real_sqrt (d : SqrtQ) (t : ℚ) :
    d.lt t ↔ Real.sqrt (d.radicand : ℝ) < (t : ℝ) := by
  unfold SqrtQ.lt
  constructor
  · rintro ⟨h1, h2⟩
    have h1r : (0 : ℝ) < (t : ℝ) := by exact_mod_cast h1
    rw [Real.sqrt_lt' h1r, pow_two]
    exact_mod_cast h2
  · intro h
    have h1r : (0 : ℝ) < (t : ℝ) := lt_of_le_of_lt (Real.sqrt_nonneg _) h
    rw [Real.sqrt_lt' h1r, pow_two] at h
    exact ⟨by exact_mod_cast h1r, by exact_mod_cast h⟩

theorem CPlayer_Update_speedState (p : CPlayer) (spriteUpdate : Sprite → ℚ → Sprite) (dt : ℚ) :
    (p.Update spriteUpdate dt).m_eSpeedState
      = speedStateAfter p.m_eSpeedState (spriteUpdate p.m_pSprite dt).mVelocity.Magnitude := by
  cases hs : p.m_eSpeedState <;>
    simp only [CPlayer.Update, speedStateAfter, hs] <;> split_ifs <;> rfl

theorem CPlayer2_Update_speedState (p : CPlayer2) (spriteUpdate : Sprite → ℚ → Sprite)
    (dt : ℚ) :
    (p.Update spriteUpdate dt).m_eSpeedState
      = speedStateAfter p.m_eSpeedState (spriteUpdate p.m_pSprite dt).mVelocity.Magnitude := by
  cases hs : p.m_eSpeedState <;>
    simp only [CPlayer2.Update, speedStateAfter, hs] <;> split_ifs <;> rfl

theorem Enemy_Update_speedState (e : Enemy) (spriteUpdate : Sprite → ℚ → Sprite) (dt : ℚ) :
    (e.Update spriteUpdate dt).m_eSpeedState
      = speedStateAfter e.m_eSpeedState (spriteUpdate e.m_pSprite dt).mVelocity.Magnitude := by
  cases hs : e.m_eSpeedState <;>
    simp only [Enemy.Update, speedStateAfter, hs] <;> split_ifs <;> rfl

theorem Crate_Update_speedState (c : Crate) (spriteUpdate : Sprite → ℚ → Sprite) (dt : ℚ) :
    (c.Update spriteUpdate dt).m_eSpeedState
      = speedStateAfter c.m_eSpeedState (spriteUpdate c.m_pSprite dt).mVelocity.Magnitude := by
  cases hs : c.m_eSpeedState <;>
    simp only [Crate.Update, speedStateAfter, hs] <;> split_ifs <;> rfl

theorem Lives_Update_speedState (l : Lives) (spriteUpdate : Sprite → ℚ → Sprite) (dt : ℚ) :
    (l.Update spriteUpdate dt).m_eSpeedState
      = speedStateAfter l.m_eSpeedState (spriteUpdate l.m_pSprite dt).mVelocity.Magnitude := by
  cases hs : l.m_eSpeedState <;>
    simp only [Lives.Update, speedStateAfter, hs] <;> split_ifs <;> rfl

theorem speedStateAfter_hysteresis (s s1 : ESpeedStates) (v : SqrtQ)
    (h : s1 = speedStateAfter s v) :
    (s = ESpeedStates.SPEED_STOP → (s1 = ESpeedStates.SPEED_START ↔ v.gt 35)) ∧
    (s = ESpeedStates.SPEED_START → (s1 = ESpeedStates.SPEED_STOP ↔ v.lt 25)) ∧
    (¬ v.lt 25 → ¬ v.gt 35 → s1 = s) := by
  subst h
  cases s
  · refine ⟨fun h => ESpeedStates.noConfusion h, fun _ => ?_, fun h1 _ => ?_⟩
    · by_cases h2 : v.lt 25 <;> simp [speedStateAfter, h2]
    · simp [speedStateAfter, h1]
  · refine ⟨fun _ => ?_, fun h => ESpeedStates.noConfusion h, fun _ h1 => ?_⟩
    · by_cases h2 : v.gt 35 <;> simp [speedStateAfter, h2]
    · simp [speedStateAfter, h1]


/-- C25: in `Update` of each of the five entities, with `v` the magnitude of
the sprite velocity after the sprite's own update: from `SPEED_STOP` the speed
state becomes `SPEED_START` exactly when `v > 35`; from `SPEED_START` it becomes
`SPEED_STOP` exactly when `v < 25`; and when `25 <= v <= 35` the speed state
after `Update` is the speed state before it. -/
theorem C25_Update_hysteresis (spriteUpdate : Sprite → ℚ → Sprite) (dt : ℚ)
    (p : CPlayer) (p2 : CPlayer2) (e : Enemy) (c : Crate) (l : Lives) :
    ((p.m_eSpeedState = ESpeedStates.SPEED_STOP →
        ((p.Update spriteUpdate dt).m_eSpeedState = ESpeedStates.SPEED_START ↔
          (spriteUpdate p.m_pSprite dt).mVelocity.Magnitude.gt 35)) ∧
     (p.m_eSpeedState = ESpeedStates.SPEED_START →
        ((p.Update spriteUpdate dt).m_eSpeedState = ESpeedStates.SPEED_STOP ↔
          (spriteUpdate p.m_pSprite dt).mVelocity.Magnitude.lt 25)) ∧
     (¬ (spriteUpdate p.m_pSprite dt).mVelocity.Magnitude.lt 25 →
        ¬ (spriteUpdate p.m_pSprite dt).mVelocity.Magnitude.gt 35 →
        (p.Update spriteUpdate dt).m_eSpeedState = p.m_eSpeedState)) ∧
    ((p2.m_eSpeedState = ESpeedStates.SPEED_STOP →
        ((p2.Update spriteUpdate dt).m_eSpeedState = ESpeedStates.SPEED_START ↔
          (spriteUpdate p2.m_pSprite dt).mVelocity.Magnitude.gt 35)) ∧
     (p2.m_eSpeedState = ESpeedStates.SPEED_START →
        ((p2.Update spriteUpdate dt).m_eSpeedState = ESpeedStates.SPEED_STOP ↔
          (spriteUpdate p2.m_pSprite dt).mVelocity.Magnitude.lt 25)) ∧
     (¬ (spriteUpdate p2.m_pSprite dt).mVelocity.Magnitude.lt 25 →
        ¬ (spriteUpdate p2.m_pSprite dt).mVelocity.Magnitude.gt 35 →
        (p2.Update spriteUpdate dt).m_eSpeedState = p2.m_eSpeedState)) ∧
    ((e.m_eSpeedState = ESpeedStates.SPEED_STOP →
        ((e.Update spriteUpdate dt).m_eSpeedState = ESpeedStates.SPEED_START ↔
          (spriteUpdate e.m_pSprite dt).mVelocity.Magnitude.gt 35)) ∧
     (e.m_eSpeedState = ESpeedStates.SPEED_START →
        ((e.Update spriteUpdate dt).m_eSpeedState = ESpeedStates.SPEED_STOP ↔
          (spriteUpdate e.m_pSprite dt).mVelocity.Magnitude.lt 25)) ∧
     (¬ (spriteUpdate e.m_pSprite dt).mVelocity.Magnitude.lt 25 →
        ¬ (spriteUpdate e.m_pSprite dt).mVelocity.Magnitude.gt 35 →
        (e.Update spriteUpdate dt).m_eSpeedState = e.m_eSpeedState)) ∧
    ((c.m_eSpeedState = ESpeedStates.SPEED_STOP →
        ((c.Update spriteUpdate dt).m_eSpeedState = ESpeedStates.SPEED_START ↔
          (spriteUpdate c.m_pSprite dt).mVelocity.Magnitude.gt 35)) ∧
     (c.m_eSpeedState = ESpeedStates.SPEED_START →
        ((c.Update spriteUpdate dt).m_eSpeedState = ESpeedStates.SPEED_STOP ↔
          (spriteUpdate c.m_pSprite dt).mVelocity.Magnitude.lt 25)) ∧
     (¬ (spriteUpdate c.m_pSprite dt).mVelocity.Magnitude.lt 25 →
        ¬ (spriteUpdate c.m_pSprite dt).mVelocity.Magnitude.gt 35 →
        (c.Update spriteUpdate dt).m_eSpeedState = c.m_eSpeedState)) ∧
    ((l.m_eSpeedState = ESpeedStates.SPEED_STOP →
        ((l.Update spriteUpdate dt).m_eSpeedState = ESpeedStates.SPEED_START ↔
          (spriteUpdate l.m_pSprite dt).mVelocity.Magnitude.gt 35)) ∧
     (l.m_eSpeedState = ESpeedStates.SPEED_START →
        ((l.Update spriteUpdate dt).m_eSpeedState = ESpeedStates.SPEED_STOP ↔
          (spriteUpdate l.m_pSprite dt).mVelocity.Magnitude.lt 25)) ∧
     (¬ (spriteUpdate l.m_pSprite dt).mVelocity.Magnitude.lt 25 →
        ¬ (spriteUpdate l.m_pSprite dt).mVelocity.Magnitude.gt 35 →
        (l.Update spriteUpdate dt).m_eSpeedState = l.m_eSpeedState)) :=
  ⟨speedStateAfter_hysteresis _ _ _ (CPlayer_Update_speedState p spriteUpdate dt),
   speedStateAfter_hysteresis _ _ _ (CPlayer2_Update_speedState p2 spriteUpdate dt),
   speedStateAfter_hysteresis _ _ _ (Enemy_Update_speedState e spriteUpdate dt),
   speedStateAfter_hysteresis _ _ _ (Crate_Update_speedState c spriteUpdate dt),
   speedStateAfter_hysteresis _ _ _ (Lives_Update_speedState l spriteUpdate dt)⟩

/-- C25 at a Player in `SPEED_STOP` flying at 40 units per second, which is
more than 35: `Update` moves it to `SPEED_START`. -/
theorem C25_Update_hysteresis_witness :
    playerFast.m_eSpeedState = ESpeedStates.SPEED_STOP ∧
    (spriteStill playerFast.m_pSprite (1 / 40)).mVelocity.Magnitude.gt 35 ∧
    (playerFast.Update spriteStill (1 / 40)).m_eSpeedState = ESpeedStates.SPEED_START :=
  have hv : (spriteStill playerFast.m_pSprite (1 / 40)).mVelocity.Magnitude.gt 35 := by
    norm_num [SqrtQ.gt, Vec2.Magnitude, spriteStill, playerFast]
  ⟨rfl, hv,
    ((C25_Update_hysteresis spriteStill (1 / 40) playerFast player2Mid enemyMid crateMid
      heartMid).1.1 rfl).mpr hv⟩

/-! ## Claims on the lives in one collision pass -/

theorem PassView.checkCollisionC_fst (v : PassView) :
    v.checkCollisionC.1 = ((v.hitPC && !v.xCrate) || (v.hitPC1 && !v.xCrate1)) := by
  obtain ⟨_, hitPC, hitPC1, _, _, _, _, _, _, _, _, xCrate, xCrate1, _, _, _, _⟩ := v
  cases hitPC <;> cases xCrate <;> cases hitPC1 <;> cases xCrate1 <;>
    simp [PassView.checkCollisionC]

theorem PassView.xPlayer_before_EBP (v : PassView) :
    v.stepC.stepCB.stepPBE.xPlayer
      = (v.xPlayer || (v.hitPC && !v.xCrate) || (v.hitPC1 && !v.xCrate1)) := by
  simp only [PassView.stepC_eq, PassView.stepCB_eq, PassView.stepPBE_eq]

theorem PassView.checkCollisionEBP_exploding (v : PassView) (h : v.xPlayer = true) :
    v.checkCollisionEBP.1 = false := by
  simp [PassView.checkCollisionEBP, h]

theorem CGameApp_checkCollisionC_fst_view (g : CGameApp) :
    g.checkCollisionC.1 = g.view.checkCollisionC.1 := by
  rw [← CGameApp_view_checkCollisionC g]

theorem CGameApp_checkCollisionEBP_fst_view (g : CGameApp) :
    g.checkCollisionEBP.1 = g.view.checkCollisionEBP.1 := by
  rw [← CGameApp_view_checkCollisionEBP g]

theorem CGameApp_C_excludes_EBP (g : CGameApp) (h : g.checkCollisionC.1 = true) :
    g.stepC.stepCB.stepPBE.checkCollisionEBP.1 = false := by
  rw [CGameApp_checkCollisionC_fst_view, PassView.checkCollisionC_fst] at h
  rw [CGameApp_checkCollisionEBP_fst_view]
  apply PassView.checkCollisionEBP_exploding
  rw [CGameApp_view_stepPBE, CGameApp_view_stepCB, CGameApp_view_stepC,
    PassView.xPlayer_before_EBP, Bool.or_assoc, h, Bool.or_true]

theorem CGameApp_stepC_lives (g : CGameApp) :
    g.stepC.lives = g.lives - 1 ∨ g.stepC.lives = g.lives := by
  have h : g.stepC.view.lives
      = g.lives - if (g.view.hitPC && !g.view.xCrate) || (g.view.hitPC1 && !g.view.xCrate1)
          then 1 else 0 := by
    rw [CGameApp_view_stepC, PassView.stepC_eq]; rfl
  have h1 : g.stepC.view.lives = g.stepC.lives := rfl
  rw [h1] at h
  rw [h]
  split_ifs
  · exact Or.inl rfl
  · exact Or.inr (sub_zero _)

theorem CGameApp_stepEBP_lives (g : CGameApp) :
    g.stepEBP.lives = g.lives - 1 ∨ g.stepEBP.lives = g.lives := by
  have h : g.stepEBP.view.lives
      = g.lives - if (g.view.hitEP || g.view.hitEbP) && !g.view.xPlayer then 1 else 0 := by
    rw [CGameApp_view_stepEBP, PassView.stepEBP_eq]; rfl
  have h1 : g.stepEBP.view.lives = g.stepEBP.lives := rfl
  rw [h1] at h
  rw [h]
  split_ifs
  · exact Or.inl rfl
  · exact Or.inr (sub_zero _)

/-- C26: for every game state, one collision pass leaves `lives` at its old
value, one less or one more. When `checkCollisionC` fires in the pass, the
later `checkCollisionEBP` of the same pass returns false; and each of the two
checks takes away at most one life. -/
theorem C26_lives_change_per_pass (g : CGameApp) :
    (g.collisionPass.lives = g.lives - 1 ∨ g.collisionPass.lives = g.lives ∨
      g.collisionPass.lives = g.lives + 1) ∧
    (g.checkCollision.checkCollisionC.1 = true →
      g.checkCollision.stepC.stepCB.stepPBE.checkCollisionEBP.1 = false) ∧
    (∀ g1 : CGameApp, g1.stepC.lives = g1.lives - 1 ∨ g1.stepC.lives = g1.lives) ∧
    (∀ g1 : CGameApp, g1.stepEBP.lives = g1.lives - 1 ∨ g1.stepEBP.lives = g1.lives) := by
  refine ⟨?_, CGameApp_C_excludes_EBP g.checkCollision, CGameApp_stepC_lives,
    CGameApp_stepEBP_lives⟩
  have hb := PassView.pass_lives_bounds g.view
  rw [← CGameApp_view_collisionPass] at hb
  have h1 : g.collisionPass.view.lives = g.collisionPass.lives := rfl
  have h2 : g.view.lives = g.lives := rfl
  rw [h1, h2] at hb
  omega

/-- C26 at the crate scenario: `checkCollisionC` fires on the first crate, so
`checkCollisionEBP` returns false later in the same pass. -/
theorem C26_lives_change_per_pass_witness :
    gameCrateScenario.checkCollision.checkCollisionC.1 = true ∧
    gameCrateScenario.checkCollision.stepC.stepCB.stepPBE.checkCollisionEBP.1 = false := by
  have hp : ¬ gameCrateScenario.firesPP2 := by
    norm_num [CGameApp.firesPP2, hit, SqrtQ.le, Vec2.Distance, gameCrateScenario, gameStart,
      playerMid, player2Mid, CPlayer.new, CPlayer2.new, spriteAt, CPlayer.Position,
      CPlayer2.Position, CPlayer.getWidth, CPlayer2.getWidth, CPlayer.ifExploded,
      CPlayer2.ifExploded]
  have hc : gameCrateScenario.firesC := by
    norm_num [CGameApp.firesC, hit, SqrtQ.le, Vec2.Distance, gameCrateScenario, gameStart,
      playerMid, CPlayer.new, Crate.new, spriteAt, CPlayer.Position, Crate.Position,
      CPlayer.getWidth, Crate.getWidth, Crate.ifExploded]
  have h1 : gameCrateScenario.checkCollision.checkCollisionC.1 = true := by
    rw [CGameApp_checkCollision_idle _ hp, CGameApp_checkCollisionC_first _ hc]
  exact ⟨h1, (C26_lives_change_per_pass gameCrateScenario).2.1 h1⟩

/-! ## Claims on the frame counter between calls -/

theorem ExplosionCore.counterRests_of_wellFormed (c : ExplosionCore) (N : Int)
    (h : c.wellFormed N) : c.counterRests := by
  obtain ⟨hN, h0, h1, h2⟩ := h
  refine ⟨h2, ?_, ?_⟩
  · rw [hN]; exact h1
  · rw [hN]; omega

theorem CPlayer_MoveLeft_animation (p : CPlayer) (fresh : Sprite) :
    (p.MoveLeft fresh).core.animation = p.core.animation ∧
    (p.MoveRight fresh).core.animation = p.core.animation ∧
    (p.MoveUp fresh).core.animation = p.core.animation ∧
    (p.MoveDown fresh).core.animation = p.core.animation := ⟨rfl, rfl, rfl, rfl⟩

/-- C27: for every entity and every state reached from construction by any
sequence of `Explode`, `AdvanceExplosion`, `Move`, `Shoot` and `Update` calls:
if the entity is not exploding its frame counter is 0, and in every case the
counter is below the frame count, which is at least 1. -/
theorem C27_counter_rests_at_zero (spriteUpdate : Sprite → ℚ → Sprite)
    (sprite bullet bullet2 : Sprite) (calls : List EntityCall) (plainCalls : List PlainCall) :
    ((CPlayer.new sprite bullet bullet2).run spriteUpdate calls).core.counterRests ∧
    ((CPlayer2.new sprite bullet bullet2).run spriteUpdate calls).core.counterRests ∧
    ((Enemy.new sprite bullet bullet2).run spriteUpdate calls).core.counterRests ∧
    ((Crate.new sprite).run spriteUpdate plainCalls).core.counterRests ∧
    ((Lives.new sprite).run spriteUpdate plainCalls).core.counterRests :=
  ⟨ExplosionCore.counterRests_of_wellFormed _ 15
      (CPlayer_run_wellFormed spriteUpdate calls 15 _ (CPlayer_new_wellFormed _ _ _)),
   ExplosionCore.counterRests_of_wellFormed _ 15
      (CPlayer2_run_wellFormed spriteUpdate calls 15 _ (CPlayer2_new_wellFormed _ _ _)),
   ExplosionCore.counterRests_of_wellFormed _ 15
      (Enemy_run_wellFormed spriteUpdate calls 15 _ (Enemy_new_wellFormed _ _ _)),
   ExplosionCore.counterRests_of_wellFormed _ 15
      (Crate_run_wellFormed spriteUpdate plainCalls 15 _ (Crate_new_wellFormed _)),
   ExplosionCore.counterRests_of_wellFormed _ 3
      (Lives_run_wellFormed spriteUpdate plainCalls 3 _ (Lives_new_wellFormed _))⟩

/-- C27 at a Player that exploded and got 15 `AdvanceExplosion` calls: it is not
exploding, and its frame counter is 0. -/
theorem C27_counter_rests_at_zero_witness :
    ((CPlayer.new (spriteAt 400 400 64 64) parkedBullet parkedBullet).run spriteStill
      (EntityCall.Explode :: List.replicate 15 EntityCall.AdvanceExplosion)).core.ifExploded
      = false ∧
    ((CPlayer.new (spriteAt 400 400 64 64) parkedBullet parkedBullet).run spriteStill
      (EntityCall.Explode :: List.replicate 15 EntityCall.AdvanceExplosion)).core.m_iExplosionFrame
      = 0 :=
  ⟨by decide,
    (C27_counter_rests_at_zero spriteStill (spriteAt 400 400 64 64) parkedBullet parkedBullet
      (EntityCall.Explode :: List.replicate 15 EntityCall.AdvanceExplosion) []).1.1
      (by decide)⟩

/-! ## Claims on what the collision pass reads -/

theorem CGameApp_withSecondBullets_view (g : CGameApp) (b2P b2P2 b2E : Sprite)
    (fP fP2 fE : Bool) : (g.withSecondBullets b2P b2P2 b2E fP fP2 fE).view = g.view := rfl

/-- C28: a game state and the same state with any other second bullets and any
other bullet-visible flags on Player, Player2 and Enemy come out of the
collision pass with the same explosion state of all six entities, the same
lives and the same score. -/
theorem C28_pass_ignores_second_bullets (g : CGameApp) (b2P b2P2 b2E : Sprite)
    (fP fP2 fE : Bool) :
    (g.withSecondBullets b2P b2P2 b2E fP fP2 fE).collisionPass.m_pPlayer.ifExploded
      = g.collisionPass.m_pPlayer.ifExploded ∧
    (g.withSecondBullets b2P b2P2 b2E fP fP2 fE).collisionPass.m_pPlayer2.ifExploded
      = g.collisionPass.m_pPlayer2.ifExploded ∧
    (g.withSecondBullets b2P b2P2 b2E fP fP2 fE).collisionPass.m_cCrate.ifExploded
      = g.collisionPass.m_cCrate.ifExploded ∧
    (g.withSecondBullets b2P b2P2 b2E fP fP2 fE).collisionPass.m_cCrate1.ifExploded
      = g.collisionPass.m_cCrate1.ifExploded ∧
    (g.withSecondBullets b2P b2P2 b2E fP fP2 fE).collisionPass.m_pEnemy.ifExploded
      = g.collisionPass.m_pEnemy.ifExploded ∧
    (g.withSecondBullets b2P b2P2 b2E fP fP2 fE).collisionPass.m_pHeart.ifExploded
      = g.collisionPass.m_pHeart.ifExploded ∧
    (g.withSecondBullets b2P b2P2 b2E fP fP2 fE).collisionPass.lives
      = g.collisionPass.lives ∧
    (g.withSecondBullets b2P b2P2 b2E fP fP2 fE).collisionPass.score
      = g.collisionPass.score := by
  have hv : (g.withSecondBullets b2P b2P2 b2E fP fP2 fE).collisionPass.view
      = g.collisionPass.view := by
    rw [CGameApp_view_collisionPass, CGameApp_view_collisionPass,
      CGameApp_withSecondBullets_view]
  exact ⟨congrArg PassView.xPlayer hv, congrArg PassView.xPlayer2 hv,
    congrArg PassView.xCrate hv, congrArg PassView.xCrate1 hv, congrArg PassView.xEnemy hv,
    congrArg PassView.xHeart hv, congrArg PassView.lives hv, congrArg PassView.score hv⟩

/-! ## Claims on what `Move` changes -/

theorem moveSprite_SteppedBack (a B : ℚ) (m : Nat) (s : Sprite) :
    Sprite.SteppedBack B s (moveSprite a B m s) := by
  have hx : (moveSprite a B m s).mPosition.x
      = (if s.mPosition.x > 780 - s.width / 2 then s.mPosition.x - 1 else s.mPosition.x) := by
    rw [moveSprite_eq]
  have hy : (moveSprite a B m s).mPosition.y
      = (if s.mPosition.y > B - s.height / 2 then s.mPosition.y - 1 else s.mPosition.y) := by
    rw [moveSprite_eq]
  refine ⟨hx, hy, ?_, ?_⟩
  · rw [hx]
    by_cases h : s.mPosition.x > 780 - s.width / 2
    · rw [if_pos h]; exact Or.inr (by ring)
    · rw [if_neg h]; exact Or.inl (by ring)
  · rw [hy]
    by_cases h : s.mPosition.y > B - s.height / 2
    · rw [if_pos h]; exact Or.inr (by ring)
    · rw [if_neg h]; exact Or.inl (by ring)

/-- C29: for each of the five entity classes, every mask and every prior state,
`Move` lowers each position coordinate by 1 or leaves it, by a rule that reads
only that coordinate and the sprite extent on that axis (never the mask or
the other axis), and it leaves the explosion flag, the frame counter and, on
the three classes that have them, both bullet slots as they were. -/
theorem C29_Move_position_and_rest (m : Nat) (p : CPlayer) (p2 : CPlayer2) (e : Enemy)
    (c : Crate) (l : Lives) :
    (Sprite.SteppedBack 560 p.m_pSprite (p.Move m).m_pSprite ∧
      (p.Move m).m_bExplosion = p.m_bExplosion ∧
      (p.Move m).m_iExplosionFrame = p.m_iExplosionFrame ∧
      (p.Move m).bullet = p.bullet ∧ (p.Move m).bullet2 = p.bullet2) ∧
    (Sprite.SteppedBack 560 p2.m_pSprite (p2.Move m).m_pSprite ∧
      (p2.Move m).m_bExplosion = p2.m_bExplosion ∧
      (p2.Move m).m_iExplosionFrame = p2.m_iExplosionFrame ∧
      (p2.Move m).bullet = p2.bullet ∧ (p2.Move m).bullet2 = p2.bullet2) ∧
    (Sprite.SteppedBack 260 e.m_pSprite (e.Move m).m_pSprite ∧
      (e.Move m).m_bExplosion = e.m_bExplosion ∧
      (e.Move m).m_iExplosionFrame = e.m_iExplosionFrame ∧
      (e.Move m).bullet = e.bullet ∧ (e.Move m).bullet2 = e.bullet2) ∧
    (Sprite.SteppedBack 560 c.m_pSprite (c.Move m).m_pSprite ∧
      (c.Move m).m_bExplosion = c.m_bExplosion ∧
      (c.Move m).m_iExplosionFrame = c.m_iExplosionFrame) ∧
    (Sprite.SteppedBack 560 l.m_pSprite (l.Move m).m_pSprite ∧
      (l.Move m).m_bExplosion = l.m_bExplosion ∧
      (l.Move m).m_iExplosionFrame = l.m_iExplosionFrame) := by
  rw [CPlayer_Move_eq, CPlayer2_Move_eq, Enemy_Move_eq, Crate_Move_eq, Lives_Move_eq]
  exact ⟨⟨moveSprite_SteppedBack _ _ _ _, rfl, rfl, rfl, rfl⟩,
    ⟨moveSprite_SteppedBack _ _ _ _, rfl, rfl, rfl, rfl⟩,
    ⟨moveSprite_SteppedBack _ _ _ _, rfl, rfl, rfl, rfl⟩,
    ⟨moveSprite_SteppedBack _ _ _ _, rfl, rfl⟩,
    ⟨moveSprite_SteppedBack _ _ _ _, rfl, rfl⟩⟩

